import Mathlib

/-!
Verification of student_go: pagination arithmetic, the four repositories, services and
handlers.

A shallow embedding of the Go sources of `student_go` (`pkg/pagination`,
`internal/entity`, `internal/dto`, and the repositories, services and handlers of
`internal/course`, `internal/student`, `internal/teacher` and `internal/department`)
together with theorems about them.

Conventions of the embedding

* Go `int` is the 64-bit two's complement integer of the usual server targets
  (amd64, arm64).  An `int` value is an `Int` between `minInt` and `maxInt`; every
  `+`, `-`, `*` of the source is followed by `wrapInt`, and `/` is truncated division.
* Go `uint` identifiers are `Nat`: the sources never do arithmetic on them.
* A pointer `*T` is `Option T` (`none` is `nil`); a slice `[]T` is `Option (List T)`
  (`none` is the nil slice, `some []` an empty non-nil slice).  A repository method
  gets the value its pointer argument points to; where the service reads that value
  again after the call (`Update`), the repository says what the call left there
  (`UpdateArgument`).
* A Go `error` is `Option Error` (`none` is `nil`).
* Methods that talk to storage are state passing functions on a world `σ`:
  `σ → result × σ`.  Repositories and services are interfaces in the source, so the
  services are parameterised by an arbitrary implementation of the repositories and the
  handlers by an arbitrary implementation of the service.
* A call that dereferences a nil pointer ends as `Outcome.panicked`.
* A handler turns a `gin.Context` into the context it leaves; the response is the
  writer of that context: its status and the JSON documents written to the body.
* Logging calls are left out: nothing depends on them.
* The four `repository` types run on `dbcontext.Database`, a relational store with the
  tables the repository tests name; the gorm calls of the sources are the statements of
  namespace `gorm`, at the behaviour the library documents.
-/

set_option linter.dupNamespace false

namespace student_go

/-! ## Go machine integers -/

/-- Smallest value of a 64-bit Go `int`. -/
def minInt : Int := -9223372036854775808

/-- Largest value of a 64-bit Go `int`. -/
def maxInt : Int := 9223372036854775807

/-- An exact integer that is representable as a Go `int`. -/
def IsInt (x : Int) : Prop := minInt ≤ x ∧ x ≤ maxInt

instance (x : Int) : Decidable (IsInt x) := by
  unfold IsInt; exact inferInstance

/-- Two's complement wrap-around of an exact result into the `int` range. -/
def wrapInt (x : Int) : Int :=
  (x + 9223372036854775808) % 18446744073709551616 - 9223372036854775808

/-- Go `a + b` on `int`. -/
def addInt (a b : Int) : Int := wrapInt (a + b)

/-- Go `a - b` on `int`. -/
def subInt (a b : Int) : Int := wrapInt (a - b)

/-- Go `a * b` on `int`. -/
def mulInt (a b : Int) : Int := wrapInt (a * b)

/-- Go `a / b` on `int` for `b ≠ 0`: the quotient truncated toward zero. -/
def divInt (a b : Int) : Int := wrapInt (Int.tdiv a b)

/-! ## Go errors and panics -/

/-- Go `error` values, as far as the sources build and inspect them. -/
inductive Error where
  /-- The sentinel `gorm.ErrRecordNotFound`. -/
  | ErrRecordNotFound : Error
  /-- An error made by `errors.New(text)` or by `fmt.Errorf(text)` without a `%w` verb. -/
  | New (text : String) : Error
  /-- The error `fmt.Errorf(text + "%w", err)`: it wraps `err`. -/
  | Wrapf (text : String) (err : Error) : Error

/-- The method `Error() string` of an error value. -/
def Error.Error : Error → String
  | .ErrRecordNotFound => "record not found"
  | .New text => text
  | .Wrapf text err => text ++ err.Error

/-- How a call ends: it returns its results, or it panics on a nil pointer dereference. -/
inductive Outcome (α : Type) where
  | returned (results : α) : Outcome α
  | panicked : Outcome α

/-! ## internal/entity -/

namespace entity

mutual
/-- Go `type Course struct`. -/
inductive Course where
  | mk (ID : Nat) (Title : String) (TeacherID : Option Nat)
      (Students : Option (List Student)) (Teacher : Option Teacher)
/-- Go `type Student struct`. -/
inductive Student where
  | mk (ID : Nat) (Name : String) (Email : String) (Courses : Option (List Course))
/-- Go `type Teacher struct`. -/
inductive Teacher where
  | mk (ID : Nat) (Name : String) (Courses : Option (List Course))
      (Departments : Option (List Department))
/-- Go `type Department struct`. -/
inductive Department where
  | mk (ID : Nat) (Name : String) (HeadOfDepartmentID : Option Nat)
      (HeadOfDepartment : Option Teacher)
end

def Course.ID : Course → Nat
  | .mk i _ _ _ _ => i

def Course.Title : Course → String
  | .mk _ t _ _ _ => t

def Course.TeacherID : Course → Option Nat
  | .mk _ _ t _ _ => t

def Course.Students : Course → Option (List Student)
  | .mk _ _ _ s _ => s

def Course.Teacher : Course → Option Teacher
  | .mk _ _ _ _ t => t

def Student.ID : Student → Nat
  | .mk i _ _ _ => i

def Student.Name : Student → String
  | .mk _ n _ _ => n

def Student.Email : Student → String
  | .mk _ _ e _ => e

def Student.Courses : Student → Option (List Course)
  | .mk _ _ _ c => c

def Teacher.ID : Teacher → Nat
  | .mk i _ _ _ => i

def Teacher.Name : Teacher → String
  | .mk _ n _ _ => n

def Teacher.Courses : Teacher → Option (List Course)
  | .mk _ _ c _ => c

def Teacher.Departments : Teacher → Option (List Department)
  | .mk _ _ _ d => d

def Department.ID : Department → Nat
  | .mk i _ _ _ => i

def Department.Name : Department → String
  | .mk _ n _ _ => n

def Department.HeadOfDepartmentID : Department → Option Nat
  | .mk _ _ h _ => h

def Department.HeadOfDepartment : Department → Option Teacher
  | .mk _ _ _ t => t

end entity

/-! ## internal/dto/response -/

namespace response

mutual
/-- Go `type CourseResponse struct`. -/
inductive CourseResponse where
  | mk (ID : Nat) (Title : String) (Teacher : Option TeacherResponse)
      (Students : Option (List StudentResponse))
/-- Go `type StudentResponse struct`. -/
inductive StudentResponse where
  | mk (ID : Nat) (Name : String) (Email : String) (Courses : Option (List CourseResponse))
/-- Go `type TeacherResponse struct`. -/
inductive TeacherResponse where
  | mk (ID : Nat) (Name : String) (Courses : Option (List CourseResponse))
      (Departments : Option (List DepartmentResponse))
/-- Go `type DepartmentResponse struct`.  Its declaration is not among the sources; the
fields are the ones the department and teacher services assign: `ID`, `Name` and
`HeadOfDepartment *TeacherResponse`. -/
inductive DepartmentResponse where
  | mk (ID : Nat) (Name : String) (HeadOfDepartment : Option TeacherResponse)
end

def CourseResponse.ID : CourseResponse → Nat
  | .mk i _ _ _ => i

def CourseResponse.Title : CourseResponse → String
  | .mk _ t _ _ => t

def CourseResponse.Teacher : CourseResponse → Option TeacherResponse
  | .mk _ _ t _ => t

def CourseResponse.Students : CourseResponse → Option (List StudentResponse)
  | .mk _ _ _ s => s

def StudentResponse.ID : StudentResponse → Nat
  | .mk i _ _ _ => i

def StudentResponse.Name : StudentResponse → String
  | .mk _ n _ _ => n

def StudentResponse.Email : StudentResponse → String
  | .mk _ _ e _ => e

def StudentResponse.Courses : StudentResponse → Option (List CourseResponse)
  | .mk _ _ _ c => c

def TeacherResponse.ID : TeacherResponse → Nat
  | .mk i _ _ _ => i

def TeacherResponse.Name : TeacherResponse → String
  | .mk _ n _ _ => n

def TeacherResponse.Courses : TeacherResponse → Option (List CourseResponse)
  | .mk _ _ c _ => c

def TeacherResponse.Departments : TeacherResponse → Option (List DepartmentResponse)
  | .mk _ _ _ d => d

def DepartmentResponse.ID : DepartmentResponse → Nat
  | .mk i _ _ => i

def DepartmentResponse.Name : DepartmentResponse → String
  | .mk _ n _ => n

def DepartmentResponse.HeadOfDepartment : DepartmentResponse → Option TeacherResponse
  | .mk _ _ t => t

end response

/-! ## strconv and net/url (Go standard library, at the boundary used by `pagination`) -/

namespace strconv

/-- The two kinds of `*strconv.NumError` that parsing can report. -/
inductive NumError where
  | ErrSyntax : NumError
  | ErrRange : NumError

/-- Largest `uint64`. -/
def maxUint64 : Nat := 18446744073709551615

/-- The digit loop of `ParseUint(s, 10, 64)`: `n` is the value read so far.  A byte that
is not an ASCII digit is a syntax error; a value that leaves `uint64` is a range error. -/
def parseUintLoop : List Char → Nat → Except NumError Nat
  | [], n => .ok n
  | c :: cs, n =>
    if 48 ≤ c.toNat ∧ c.toNat ≤ 57 then
      if n ≥ maxUint64 / 10 + 1 then .error .ErrRange
      else
        let n1 := n * 10 + (c.toNat - 48)
        if n1 > maxUint64 then .error .ErrRange else parseUintLoop cs n1
    else .error .ErrSyntax

/-- Go `strconv.ParseUint(s, 10, 64)` on the bytes of `s`. -/
def ParseUint (s : List Char) : Except NumError Nat :=
  match s with
  | [] => .error .ErrSyntax
  | _ => parseUintLoop s 0

/-- Go `strconv.Atoi(s)`, documented as `ParseInt(s, 10, 0)` converted to `int`: an
optional leading `+` or `-`, then `ParseUint`, then the check against the `int` range.
The result pairs the value with the error, as the Go function does. -/
def Atoi (s : String) : Int × Option NumError :=
  match s.data with
  | [] => (0, some .ErrSyntax)
  | c :: rest =>
    let neg := c == '-'
    let body := if c == '+' ∨ c == '-' then rest else c :: rest
    match ParseUint body with
    | .error .ErrSyntax => (0, some .ErrSyntax)
    | .error .ErrRange =>
      if neg then (minInt, some .ErrRange) else (maxInt, some .ErrRange)
    | .ok un =>
      if ¬ neg ∧ un ≥ 9223372036854775808 then (maxInt, some .ErrRange)
      else if neg ∧ un > 9223372036854775808 then (minInt, some .ErrRange)
      else (if neg then -(un : Int) else (un : Int), none)

end strconv

namespace url

/-- Go `url.Values`, the parsed query string: each key with the values given for it, in
order (`map[string][]string`). -/
def Values : Type := String → List String

/-- Go `func (v Values) Get(key string) string`: the first value of the key, or `""`. -/
def Values.Get (v : Values) (key : String) : String :=
  match v key with
  | [] => ""
  | x :: _ => x

end url

namespace http

/-- Go `*http.Request`, reduced to what `pagination` reads of it: `req.URL.Query()`. -/
structure Request where
  Query : url.Values

end http

/-! ## pkg/pagination -/

namespace pagination

def DefaultPageSize : Int := 100

def MaxPageSize : Int := 1000

def PageVar : String := "page"

def PageSizeVar : String := "per_page"

/-- The dynamic values the handlers store in `Pages.Items` (an `interface{}`): the
response slice of one of the four list endpoints. -/
inductive ItemList where
  | students (xs : Option (List response.StudentResponse)) : ItemList
  | courses (xs : Option (List response.CourseResponse)) : ItemList
  | teachers (xs : Option (List response.TeacherResponse)) : ItemList
  | departments (xs : Option (List response.DepartmentResponse)) : ItemList

/-- Go `type Pages struct`. -/
structure Pages where
  Page : Int
  PerPage : Int
  PageCount : Int
  TotalCount : Int
  Items : Option ItemList

/-- Go `func New(page, perPage, total int) *Pages`. -/
def New (page perPage total : Int) : Pages :=
  let perPage := if perPage ≤ 0 then DefaultPageSize else perPage
  let perPage := if perPage > MaxPageSize then MaxPageSize else perPage
  let pageCount : Int :=
    if total ≥ 0 then divInt (subInt (addInt total perPage) 1) perPage else -1
  let page :=
    if total ≥ 0 then (if page > pageCount then pageCount else page) else page
  let page := if page < 1 then 1 else page
  { Page := page, PerPage := perPage, TotalCount := total, PageCount := pageCount,
    Items := none }

/-- Go `func parseInt(value string, defaultValue int) int`. -/
def parseInt (value : String) (defaultValue : Int) : Int :=
  if value = "" then defaultValue
  else
    match strconv.Atoi value with
    | (result, none) => result
    | (_, some _) => defaultValue

/-- Go `func NewFromRequest(req *http.Request, count int) *Pages`. -/
def NewFromRequest (req : http.Request) (count : Int) : Pages :=
  let page := parseInt (req.Query.Get PageVar) 1
  let perPage := parseInt (req.Query.Get PageSizeVar) DefaultPageSize
  New page perPage count

/-- Go `func (p *Pages) Offset() int`. -/
def Pages.Offset (p : Pages) : Int :=
  mulInt (subInt p.Page 1) p.PerPage

/-- Go `func (p *Pages) Limit() int`. -/
def Pages.Limit (p : Pages) : Int :=
  p.PerPage

end pagination

/-! ## The specification's reading of the query parameters -/

namespace spec

/-- The value of an ASCII decimal digit. -/
def digitValue (c : Char) : Nat := c.toNat - 48

/-- Whether a text is a decimal integer, and then its value: an optional sign `+` or
`-` followed by one or more ASCII digits `0`..`9`, read in base ten. -/
def decimalInteger (s : String) : Option Int :=
  match s.data with
  | [] => none
  | c :: rest =>
    let digits := if c = '+' ∨ c = '-' then rest else c :: rest
    if digits ≠ [] ∧ ∀ d ∈ digits, d.isDigit = true then
      let magnitude : Int := (Nat.ofDigits 10 (digits.reverse.map digitValue) : Nat)
      some (if c = '-' then -magnitude else magnitude)
    else none

/-- The integer value of a query parameter as the specification words it: the default
when the parameter is absent, empty or not a decimal integer, and its value otherwise.
A numeral whose value is not an `int` has no integer value to pass on. -/
def queryInt (values : List String) (dflt : Int) : Int :=
  match values with
  | [] => dflt
  | v :: _ =>
    if v = "" then dflt
    else
      match decimalInteger v with
      | none => dflt
      | some n => if IsInt n then n else dflt

end spec

/-! ## gorm handle and repository interfaces -/

namespace gorm

/-- Go `*gorm.DB`, the type of the global `dbcontext.DB`, reduced to the statements the
services issue on it directly.  Each returns the `.Error` of the statement (for
`Association(..).Append` the returned error). -/
structure DB (σ : Type) where
  /-- The statement
  `Model(&entity.Course{}).Where("id = ?", courseId).Update("teacher_id", teacherId)`. -/
  UpdateCourseTeacherID : (courseId teacherId : Nat) → σ → Option Error × σ
  /-- The statement `Model(&entity.Department{}).Where("id = ?", departmentId)
  .Update("head_of_department_id", teacherId)`. -/
  UpdateDepartmentHeadID : (departmentId teacherId : Nat) → σ → Option Error × σ
  /-- The statement `Model(&student).Association("Courses").Append(&course)` for
  `student = entity.Student{ID: studentId}` and `course = entity.Course{ID: courseId}`. -/
  AppendStudentCourse : (studentId courseId : Nat) → σ → Option Error × σ

end gorm

namespace teacher

/-- Go `type Repository interface` of package `teacher`.  A method gets the value its
pointer argument points to.  The service reads its local `teacher` again after
`Update(&teacher)`, and an implementation may write to it, so the interface also says what
the call leaves there. -/
structure Repository (σ : Type) where
  ExistsById : Nat → σ → (Bool × Option Error) × σ
  Save : entity.Teacher → σ → (Option entity.Teacher × Option Error) × σ
  Update : entity.Teacher → σ → (Option entity.Teacher × Option Error) × σ
  /-- The value `*teacher` holds when `Update(teacher)` returns; an implementation that does
  not write to its argument leaves it as it was. -/
  UpdateArgument : entity.Teacher → σ → entity.Teacher := fun teacher _ => teacher
  FindById : Nat → σ → (Option entity.Teacher × Option Error) × σ
  FindAll : Int → Int → σ → (Option (List entity.Teacher) × Option Error) × σ
  DeleteById : Nat → σ → Option Error × σ
  Count : σ → (Int × Option Error) × σ

end teacher

namespace course

/-- Go `type Repository interface` of package `course`.  A method gets the value its
pointer argument points to.  The service reads its local `course` again after
`Update(&course)`, and an implementation may write to it, so the interface also says what
the call leaves there. -/
structure Repository (σ : Type) where
  ExistsById : Nat → σ → (Bool × Option Error) × σ
  Save : entity.Course → σ → (Option entity.Course × Option Error) × σ
  Update : entity.Course → σ → (Option entity.Course × Option Error) × σ
  /-- The value `*course` holds when `Update(course)` returns; an implementation that does
  not write to its argument leaves it as it was. -/
  UpdateArgument : entity.Course → σ → entity.Course := fun course _ => course
  FindById : Nat → σ → (Option entity.Course × Option Error) × σ
  FindAll : Int → Int → σ → (Option (List entity.Course) × Option Error) × σ
  DeleteById : Nat → σ → Option Error × σ
  Count : σ → (Int × Option Error) × σ

/-- Go `type service struct` of package `course`. -/
structure service (σ : Type) where
  courseRepository : Repository σ
  teacherRepository : teacher.Repository σ

/-- Go `func (s *service) FindCourseById(id uint) (*response3.CourseResponse, error)`.
The logging call is left out: nothing depends on it. -/
def service.FindCourseById {σ : Type} (s : service σ) (id : Nat) (w : σ) :
    Outcome (Option response.CourseResponse × Option Error) × σ :=
  match s.courseRepository.FindById id w with
  | ((_, some err), w1) => (.returned (none, some err), w1)
  | ((none, none), w1) => (.panicked, w1)
  | ((some course, none), w1) =>
    let teacherResp : Option response.TeacherResponse :=
      match course.Teacher with
      | none => none
      | some t => some (.mk t.ID t.Name none none)
    let studentsResp : List response.StudentResponse :=
      (course.Students.getD []).map
        (fun student => .mk student.ID student.Name student.Email none)
    (.returned (some (.mk course.ID course.Title teacherResp (some studentsResp)), none), w1)

/-- Go `func (s *service) SetTeacherToCourse(courseId uint, teacherId uint)
(*response3.CourseResponse, error)`.  `DB` is the global `dbcontext.DB`. -/
def service.SetTeacherToCourse {σ : Type} (s : service σ) (DB : gorm.DB σ)
    (courseId teacherId : Nat) (w : σ) :
    Outcome (Option response.CourseResponse × Option Error) × σ :=
  match s.courseRepository.ExistsById courseId w with
  | ((exists_, err), w1) =>
    if err.isSome || !exists_ then
      (.returned (none, some (.New "course not found")), w1)
    else
      match s.teacherRepository.ExistsById teacherId w1 with
      | ((exists_, err), w2) =>
        if err.isSome || !exists_ then
          (.returned (none, some (.New "teacher not found")), w2)
        else
          match DB.UpdateCourseTeacherID courseId teacherId w2 with
          | (some err, w3) =>
            (.returned (none, some (.Wrapf "failed to assign teacher to course: " err)), w3)
          | (none, w3) => s.FindCourseById courseId w3

end course

namespace student

/-- Go `type Repository interface` of package `student`.  A method gets the value its
pointer argument points to.  The service reads its local `student` again after
`Update(&student)`, and an implementation may write to it, so the interface also says what
the call leaves there. -/
structure Repository (σ : Type) where
  ExistsById : Nat → σ → (Bool × Option Error) × σ
  Save : entity.Student → σ → (Option entity.Student × Option Error) × σ
  Update : entity.Student → σ → (Option entity.Student × Option Error) × σ
  /-- The value `*student` holds when `Update(student)` returns; an implementation that does
  not write to its argument leaves it as it was. -/
  UpdateArgument : entity.Student → σ → entity.Student := fun student _ => student
  FindById : Nat → σ → (Option entity.Student × Option Error) × σ
  FindAll : Int → Int → σ → (Option (List entity.Student) × Option Error) × σ
  DeleteById : Nat → σ → Option Error × σ
  Count : σ → (Int × Option Error) × σ

/-- Go `type service struct` of package `student`. -/
structure service (σ : Type) where
  studentRepository : Repository σ
  courseRepository : course.Repository σ

/-- Go `func (s *service) FindStudentById(id uint) (*response3.StudentResponse, error)`. -/
def service.FindStudentById {σ : Type} (s : service σ) (id : Nat) (w : σ) :
    Outcome (Option response.StudentResponse × Option Error) × σ :=
  match s.studentRepository.FindById id w with
  | ((_, some err), w1) => (.returned (none, some err), w1)
  | ((none, none), w1) => (.panicked, w1)
  | ((some student, none), w1) =>
    let coursesResp : List response.CourseResponse :=
      (student.Courses.getD []).map
        (fun course =>
          let teacherResp : Option response.TeacherResponse :=
            match course.Teacher with
            | none => none
            | some t => some (.mk t.ID t.Name none none)
          .mk course.ID course.Title teacherResp none)
    (.returned (some (.mk student.ID student.Name student.Email (some coursesResp)), none), w1)

/-- Go `func (s *service) AddCourseToStudent(studentId uint, courseId uint)
(*response3.StudentResponse, error)`.  `DB` is the global `dbcontext.DB`. -/
def service.AddCourseToStudent {σ : Type} (s : service σ) (DB : gorm.DB σ)
    (studentId courseId : Nat) (w : σ) :
    Outcome (Option response.StudentResponse × Option Error) × σ :=
  match s.studentRepository.ExistsById studentId w with
  | ((exists_, err), w1) =>
    if err.isSome || !exists_ then
      (.returned (none, some (.New "student not found")), w1)
    else
      match s.courseRepository.ExistsById courseId w1 with
      | ((exists_, err), w2) =>
        if err.isSome || !exists_ then
          (.returned (none, some (.New "course not found")), w2)
        else
          match DB.AppendStudentCourse studentId courseId w2 with
          | (some err, w3) =>
            (.returned (none, some (.Wrapf "failed to add course to student: " err)), w3)
          | (none, w3) => s.FindStudentById studentId w3

end student

/-! ## A recording store

A small concrete world for running the services: the identifiers present in each table,
the `teacher_id` column of the courses, the rows of the `course_student` junction table,
and the list of calls that reached a repository or the gorm handle. -/

namespace store

/-- One call that reached a repository or the gorm handle. -/
inductive Call where
  | CourseExistsById (id : Nat) : Call
  | TeacherExistsById (id : Nat) : Call
  | StudentExistsById (id : Nat) : Call
  | CourseFindById (id : Nat) : Call
  | StudentFindById (id : Nat) : Call
  | DepartmentExistsById (id : Nat) : Call
  | DepartmentFindById (id : Nat) : Call
  | UpdateCourseTeacherID (courseId teacherId : Nat) : Call
  | UpdateDepartmentHeadID (departmentId teacherId : Nat) : Call
  | AppendStudentCourse (studentId courseId : Nat) : Call
  | Other (method : String) : Call

/-- The state of the recording store. -/
structure World where
  courses : List Nat
  teachers : List Nat
  students : List Nat
  teacherOf : List (Nat × Nat)
  courseStudent : List (Nat × Nat)
  down : Bool
  calls : List Call
  departments : List Nat := []
  headOf : List (Nat × Nat) := []

def World.record (w : World) (c : Call) : World :=
  { w with calls := w.calls ++ [c] }

/-- The store answers every call it has no data for with this error. -/
def unsupported : Error := .New "unsupported"

/-- The storage error of every existence check while the store is down. -/
def connectionRefused : Error := .New "dial tcp: connection refused"

def courseRepository : course.Repository World where
  ExistsById := fun id w =>
    if w.down then ((false, some connectionRefused), w.record (.CourseExistsById id))
    else ((decide (id ∈ w.courses), none), w.record (.CourseExistsById id))
  Save := fun _ w => ((none, some unsupported), w.record (.Other "course.Save"))
  Update := fun _ w => ((none, some unsupported), w.record (.Other "course.Update"))
  FindById := fun id w =>
    if id ∈ w.courses then
      ((some (.mk id "" ((w.teacherOf.lookup id)) none none), none),
        w.record (.CourseFindById id))
    else ((none, some .ErrRecordNotFound), w.record (.CourseFindById id))
  FindAll := fun _ _ w => ((none, some unsupported), w.record (.Other "course.FindAll"))
  DeleteById := fun _ w => (some unsupported, w.record (.Other "course.DeleteById"))
  Count := fun w => ((0, some unsupported), w.record (.Other "course.Count"))

def teacherRepository : teacher.Repository World where
  ExistsById := fun id w =>
    if w.down then ((false, some connectionRefused), w.record (.TeacherExistsById id))
    else ((decide (id ∈ w.teachers), none), w.record (.TeacherExistsById id))
  Save := fun _ w => ((none, some unsupported), w.record (.Other "teacher.Save"))
  Update := fun _ w => ((none, some unsupported), w.record (.Other "teacher.Update"))
  FindById := fun _ w => ((none, some unsupported), w.record (.Other "teacher.FindById"))
  FindAll := fun _ _ w => ((none, some unsupported), w.record (.Other "teacher.FindAll"))
  DeleteById := fun _ w => (some unsupported, w.record (.Other "teacher.DeleteById"))
  Count := fun w => ((0, some unsupported), w.record (.Other "teacher.Count"))

def studentRepository : student.Repository World where
  ExistsById := fun id w =>
    if w.down then ((false, some connectionRefused), w.record (.StudentExistsById id))
    else ((decide (id ∈ w.students), none), w.record (.StudentExistsById id))
  Save := fun _ w => ((none, some unsupported), w.record (.Other "student.Save"))
  Update := fun _ w => ((none, some unsupported), w.record (.Other "student.Update"))
  FindById := fun id w =>
    if id ∈ w.students then
      ((some (.mk id "" "" none), none), w.record (.StudentFindById id))
    else ((none, some .ErrRecordNotFound), w.record (.StudentFindById id))
  FindAll := fun _ _ w => ((none, some unsupported), w.record (.Other "student.FindAll"))
  DeleteById := fun _ w => (some unsupported, w.record (.Other "student.DeleteById"))
  Count := fun w => ((0, some unsupported), w.record (.Other "student.Count"))

def DB : gorm.DB World where
  UpdateCourseTeacherID := fun courseId teacherId w =>
    (none, { w.record (.UpdateCourseTeacherID courseId teacherId) with
              teacherOf := (courseId, teacherId) :: w.teacherOf })
  UpdateDepartmentHeadID := fun departmentId teacherId w =>
    (none, { w.record (.UpdateDepartmentHeadID departmentId teacherId) with
              headOf := (departmentId, teacherId) :: w.headOf })
  AppendStudentCourse := fun studentId courseId w =>
    (none, { w.record (.AppendStudentCourse studentId courseId) with
              courseStudent := w.courseStudent ++ [(studentId, courseId)] })

def courseService : course.service World :=
  { courseRepository := courseRepository, teacherRepository := teacherRepository }

def studentService : student.service World :=
  { studentRepository := studentRepository, courseRepository := courseRepository }

/-- A store holding course 1 and student 1, and no teacher. -/
def sample : World :=
  { courses := [1], teachers := [], students := [1], teacherOf := [], courseStudent := [],
    down := false, calls := [] }

/-- An empty store. -/
def empty : World :=
  { courses := [], teachers := [], students := [], teacherOf := [], courseStudent := [],
    down := false, calls := [] }

/-- A store holding course 1, teacher 2 and student 1 whose connection is down. -/
def offline : World :=
  { courses := [1], teachers := [2], students := [1], teacherOf := [], courseStudent := [],
    down := true, calls := [] }

/-- A store holding course 1, teacher 2 and student 1. -/
def full : World :=
  { courses := [1], teachers := [2], students := [1], teacherOf := [], courseStudent := [],
    down := false, calls := [] }

end store

/-! ## A sample request -/

namespace http

/-- The request `GET http://example.com?page=2&per_page=30`. -/
def sampleRequest : Request :=
  { Query := fun key =>
      if key = "page" then ["2"] else if key = "per_page" then ["30"] else [] }

end http

/-! ## internal/dto/request -/

namespace request

/-- Go `type StudentRequest struct`. -/
structure StudentRequest where
  Name : String
  Email : String

/-- Go `type TeacherRequest struct`.  Its declaration is not among the sources; the
services and tests read and set its only field `Name`. -/
structure TeacherRequest where
  Name : String

/-- Go `type CourseRequest struct`.  Its declaration is not among the sources; the
services and tests read and set its only field `Title`. -/
structure CourseRequest where
  Title : String

/-- Go `type DepartmentRequest struct`.  Its declaration is not among the sources; the
services and tests read and set its only field `Name`. -/
structure DepartmentRequest where
  Name : String

end request

/-! ## Slices built by the services -/

/-- The slice left by `var out []T` followed by `for _, x := range xs { out = append(out,
f(x)) }`: it stays nil when the loop body never runs. -/
def appendAll {α β : Type} (xs : Option (List α)) (f : α → β) : Option (List β) :=
  match xs.getD [] with
  | [] => none
  | x :: rest => some (f x :: rest.map f)

/-- The slice left by `out := make([]T, 0, n)` followed by `for _, x := range xs { out =
append(out, f(x)) }`: it is never nil. -/
def makeAll {α β : Type} (xs : Option (List α)) (f : α → β) : Option (List β) :=
  some ((xs.getD []).map f)

/-- The `*TeacherResponse` the course, student and department services build for a
`*entity.Teacher` they hold: `nil` for `nil`, otherwise `ID` and `Name` only. -/
def teacherResp (t : Option entity.Teacher) : Option response.TeacherResponse :=
  match t with
  | none => none
  | some t => some (.mk t.ID t.Name none none)

/-! ## internal/course: the remaining service methods -/

namespace course

/-- Go `func (s *service) CreateCourse(input request.CourseRequest)
(*response3.CourseResponse, error)`. -/
def service.CreateCourse {σ : Type} (s : service σ) (input : request.CourseRequest)
    (w : σ) : Outcome (Option response.CourseResponse × Option Error) × σ :=
  match s.courseRepository.Save (.mk 0 input.Title none none none) w with
  | ((_, some err), w1) => (.returned (none, some err), w1)
  | ((none, none), w1) => (.panicked, w1)
  | ((some savedCourse, none), w1) =>
    (.returned (some (.mk savedCourse.ID savedCourse.Title none none), none), w1)

/-- Go `func (s *service) UpdateCourse(id uint, input request.CourseRequest)
(*response3.CourseResponse, error)`.  The local `course` is the entity built from `id`
and `input`; the response takes `ID` and `Title` from it as `Update(&course)` left it. -/
def service.UpdateCourse {σ : Type} (s : service σ) (id : Nat)
    (input : request.CourseRequest) (w : σ) :
    Outcome (Option response.CourseResponse × Option Error) × σ :=
  let course : entity.Course := .mk id input.Title none none none
  match s.courseRepository.Update course w with
  | ((_, some err), w1) => (.returned (none, some err), w1)
  | ((none, none), w1) => (.panicked, w1)
  | ((some updatedCourse, none), w1) =>
    let course := s.courseRepository.UpdateArgument course w
    let studentsResp := makeAll updatedCourse.Students
      (fun student => response.StudentResponse.mk student.ID student.Name student.Email none)
    (.returned (some (.mk course.ID course.Title (teacherResp updatedCourse.Teacher)
      studentsResp), none), w1)

/-- Go `func (s *service) FindAllCourse(page, limit int) ([]*response3.CourseResponse,
error)`. -/
def service.FindAllCourse {σ : Type} (s : service σ) (page limit : Int) (w : σ) :
    Outcome (Option (List response.CourseResponse) × Option Error) × σ :=
  match s.courseRepository.FindAll page limit w with
  | ((_, some err), w1) => (.returned (none, some err), w1)
  | ((courses, none), w1) =>
    (.returned (appendAll courses (fun course =>
      response.CourseResponse.mk course.ID course.Title (teacherResp course.Teacher)
        (makeAll course.Students (fun student =>
          response.StudentResponse.mk student.ID student.Name student.Email none))),
      none), w1)

/-- Go `func (s *service) DeleteCourseById(id uint) error`. -/
def service.DeleteCourseById {σ : Type} (s : service σ) (id : Nat) (w : σ) :
    Outcome (Option Error) × σ :=
  (.returned (s.courseRepository.DeleteById id w).1, (s.courseRepository.DeleteById id w).2)

/-- Go `func (s *service) Count() (int, error)`. -/
def service.Count {σ : Type} (s : service σ) (w : σ) : Outcome (Int × Option Error) × σ :=
  (.returned (s.courseRepository.Count w).1, (s.courseRepository.Count w).2)

end course

/-! ## internal/student: the remaining service methods -/

namespace student

/-- The `CourseResponse` the student service builds for each course of a student. -/
def courseResp (course : entity.Course) : response.CourseResponse :=
  .mk course.ID course.Title (teacherResp course.Teacher) none

/-- Go `func (s *service) CreateStudent(input request.StudentRequest)
(*response3.StudentResponse, error)`. -/
def service.CreateStudent {σ : Type} (s : service σ) (input : request.StudentRequest)
    (w : σ) : Outcome (Option response.StudentResponse × Option Error) × σ :=
  match s.studentRepository.Save (.mk 0 input.Name input.Email none) w with
  | ((_, some err), w1) => (.returned (none, some err), w1)
  | ((none, none), w1) => (.panicked, w1)
  | ((some savedStudent, none), w1) =>
    (.returned (some (.mk savedStudent.ID savedStudent.Name savedStudent.Email none), none),
      w1)

/-- Go `func (s *service) UpdateStudent(id uint, input request.StudentRequest)
(*response3.StudentResponse, error)`.  The local `student` is the entity built from `id`
and `input`; the response takes `ID`, `Name` and `Email` from it as `Update(&student)`
left it. -/
def service.UpdateStudent {σ : Type} (s : service σ) (id : Nat)
    (input : request.StudentRequest) (w : σ) :
    Outcome (Option response.StudentResponse × Option Error) × σ :=
  let student : entity.Student := .mk id input.Name input.Email none
  match s.studentRepository.Update student w with
  | ((_, some err), w1) => (.returned (none, some err), w1)
  | ((none, none), w1) => (.panicked, w1)
  | ((some updatedStudent, none), w1) =>
    let student := s.studentRepository.UpdateArgument student w
    (.returned (some (.mk student.ID student.Name student.Email
      (makeAll updatedStudent.Courses courseResp)), none), w1)

/-- Go `func (s *service) FindAllStudent(page, limit int) ([]*response3.StudentResponse,
error)`. -/
def service.FindAllStudent {σ : Type} (s : service σ) (page limit : Int) (w : σ) :
    Outcome (Option (List response.StudentResponse) × Option Error) × σ :=
  match s.studentRepository.FindAll page limit w with
  | ((_, some err), w1) => (.returned (none, some err), w1)
  | ((students, none), w1) =>
    (.returned (appendAll students (fun student =>
      response.StudentResponse.mk student.ID student.Name student.Email
        (makeAll student.Courses courseResp)), none), w1)

/-- Go `func (s *service) DeleteStudentById(id uint) error`. -/
def service.DeleteStudentById {σ : Type} (s : service σ) (id : Nat) (w : σ) :
    Outcome (Option Error) × σ :=
  (.returned (s.studentRepository.DeleteById id w).1, (s.studentRepository.DeleteById id w).2)

/-- Go `func (s *service) Count() (int, error)`. -/
def service.Count {σ : Type} (s : service σ) (w : σ) : Outcome (Int × Option Error) × σ :=
  (.returned (s.studentRepository.Count w).1, (s.studentRepository.Count w).2)

end student

/-! ## internal/teacher: the service -/

namespace teacher

/-- Go `type service struct` of package `teacher`. -/
structure service (σ : Type) where
  repo : Repository σ

/-- The `CourseResponse` the teacher service builds for each course of a teacher. -/
def courseResp (course : entity.Course) : response.CourseResponse :=
  .mk course.ID course.Title none none

/-- The `DepartmentResponse` the teacher service builds for each department of a
teacher. -/
def departmentResp (department : entity.Department) : response.DepartmentResponse :=
  .mk department.ID department.Name none

/-- Go `func (s *service) CreateTeacher(input request.TeacherRequest)
(*response.TeacherResponse, error)`. -/
def service.CreateTeacher {σ : Type} (s : service σ) (input : request.TeacherRequest)
    (w : σ) : Outcome (Option response.TeacherResponse × Option Error) × σ :=
  match s.repo.Save (.mk 0 input.Name none none) w with
  | ((_, some err), w1) => (.returned (none, some err), w1)
  | ((none, none), w1) => (.panicked, w1)
  | ((some savedTeacher, none), w1) =>
    (.returned (some (.mk savedTeacher.ID savedTeacher.Name none none), none), w1)

/-- Go `func (s *service) UpdateTeacher(id uint, input request.TeacherRequest)
(*response.TeacherResponse, error)`.  The local `teacher` is the entity built from `id`
and `input`; the response takes `ID` and `Name` from it as `Update(&teacher)` left it. -/
def service.UpdateTeacher {σ : Type} (s : service σ) (id : Nat)
    (input : request.TeacherRequest) (w : σ) :
    Outcome (Option response.TeacherResponse × Option Error) × σ :=
  let teacher : entity.Teacher := .mk id input.Name none none
  match s.repo.Update teacher w with
  | ((_, some err), w1) => (.returned (none, some err), w1)
  | ((none, none), w1) => (.panicked, w1)
  | ((some updatedTeacher, none), w1) =>
    let teacher := s.repo.UpdateArgument teacher w
    (.returned (some (.mk teacher.ID teacher.Name
      (appendAll updatedTeacher.Courses courseResp)
      (appendAll updatedTeacher.Departments departmentResp)), none), w1)

/-- Go `func (s *service) FindTeacherById(id uint) (*response.TeacherResponse, error)`. -/
def service.FindTeacherById {σ : Type} (s : service σ) (id : Nat) (w : σ) :
    Outcome (Option response.TeacherResponse × Option Error) × σ :=
  match s.repo.FindById id w with
  | ((_, some err), w1) => (.returned (none, some err), w1)
  | ((none, none), w1) => (.panicked, w1)
  | ((some teacher, none), w1) =>
    (.returned (some (.mk teacher.ID teacher.Name
      (appendAll teacher.Courses courseResp)
      (appendAll teacher.Departments departmentResp)), none), w1)

/-- Go `func (s *service) FindAllTeachers(page, limit int) ([]*response.TeacherResponse,
error)`. -/
def service.FindAllTeachers {σ : Type} (s : service σ) (page limit : Int) (w : σ) :
    Outcome (Option (List response.TeacherResponse) × Option Error) × σ :=
  match s.repo.FindAll page limit w with
  | ((_, some err), w1) => (.returned (none, some err), w1)
  | ((teachers, none), w1) =>
    (.returned (appendAll teachers (fun teacher =>
      response.TeacherResponse.mk teacher.ID teacher.Name
        (appendAll teacher.Courses courseResp)
        (appendAll teacher.Departments departmentResp)), none), w1)

/-- Go `func (s *service) DeleteTeacherById(id uint) error`. -/
def service.DeleteTeacherById {σ : Type} (s : service σ) (id : Nat) (w : σ) :
    Outcome (Option Error) × σ :=
  (.returned (s.repo.DeleteById id w).1, (s.repo.DeleteById id w).2)

/-- Go `func (s *service) Count() (int, error)`. -/
def service.Count {σ : Type} (s : service σ) (w : σ) : Outcome (Int × Option Error) × σ :=
  (.returned (s.repo.Count w).1, (s.repo.Count w).2)

end teacher

/-! ## internal/department: repository interface and service -/

namespace department

/-- Go `type Repository interface` of package `department`.  Pointer arguments are
passed by value. -/
structure Repository (σ : Type) where
  ExistsById : Nat → σ → (Bool × Option Error) × σ
  Save : entity.Department → σ → (Option entity.Department × Option Error) × σ
  Update : entity.Department → σ → (Option entity.Department × Option Error) × σ
  FindById : Nat → σ → (Option entity.Department × Option Error) × σ
  FindAll : Int → Int → σ → (Option (List entity.Department) × Option Error) × σ
  DeleteById : Nat → σ → Option Error × σ
  Count : σ → (Int × Option Error) × σ

/-- Go `type service struct` of package `department`. -/
structure service (σ : Type) where
  departmentRepository : Repository σ
  teacherRepository : teacher.Repository σ

/-- The `DepartmentResponse` the department service builds from a department entity. -/
def departmentResp (dept : entity.Department) : response.DepartmentResponse :=
  .mk dept.ID dept.Name (teacherResp dept.HeadOfDepartment)

/-- Go `func (s *service) CreateDepartment(input request.DepartmentRequest)
(*response.DepartmentResponse, error)`. -/
def service.CreateDepartment {σ : Type} (s : service σ) (input : request.DepartmentRequest)
    (w : σ) : Outcome (Option response.DepartmentResponse × Option Error) × σ :=
  match s.departmentRepository.Save (.mk 0 input.Name none none) w with
  | ((_, some err), w1) => (.returned (none, some err), w1)
  | ((none, none), w1) => (.panicked, w1)
  | ((some savedDept, none), w1) =>
    (.returned (some (.mk savedDept.ID savedDept.Name none), none), w1)

/-- Go `func (s *service) UpdateDepartment(id uint, input request.DepartmentRequest)
(*response.DepartmentResponse, error)`. -/
def service.UpdateDepartment {σ : Type} (s : service σ) (id : Nat)
    (input : request.DepartmentRequest) (w : σ) :
    Outcome (Option response.DepartmentResponse × Option Error) × σ :=
  match s.departmentRepository.Update (.mk id input.Name none none) w with
  | ((_, some err), w1) => (.returned (none, some err), w1)
  | ((none, none), w1) => (.panicked, w1)
  | ((some updatedDept, none), w1) => (.returned (some (departmentResp updatedDept), none), w1)

/-- Go `func (s *service) FindDepartmentById(id uint) (*response.DepartmentResponse,
error)`. -/
def service.FindDepartmentById {σ : Type} (s : service σ) (id : Nat) (w : σ) :
    Outcome (Option response.DepartmentResponse × Option Error) × σ :=
  match s.departmentRepository.FindById id w with
  | ((_, some err), w1) => (.returned (none, some err), w1)
  | ((none, none), w1) => (.panicked, w1)
  | ((some dept, none), w1) => (.returned (some (departmentResp dept), none), w1)

/-- Go `func (s *service) FindAllDepartments(page, limit int)
([]*response.DepartmentResponse, error)`. -/
def service.FindAllDepartments {σ : Type} (s : service σ) (page limit : Int) (w : σ) :
    Outcome (Option (List response.DepartmentResponse) × Option Error) × σ :=
  match s.departmentRepository.FindAll page limit w with
  | ((_, some err), w1) => (.returned (none, some err), w1)
  | ((depts, none), w1) => (.returned (appendAll depts departmentResp, none), w1)

/-- Go `func (s *service) DeleteDepartmentById(id uint) error`. -/
def service.DeleteDepartmentById {σ : Type} (s : service σ) (id : Nat) (w : σ) :
    Outcome (Option Error) × σ :=
  (.returned (s.departmentRepository.DeleteById id w).1,
    (s.departmentRepository.DeleteById id w).2)

/-- Go `func (s *service) DepartmentSetTeacher(departmentId uint, teacherId uint)
(*response.DepartmentResponse, error)`.  `DB` is the global `dbcontext.DB`. -/
def service.DepartmentSetTeacher {σ : Type} (s : service σ) (DB : gorm.DB σ)
    (departmentId teacherId : Nat) (w : σ) :
    Outcome (Option response.DepartmentResponse × Option Error) × σ :=
  match s.departmentRepository.ExistsById departmentId w with
  | ((exists_, err), w1) =>
    if err.isSome || !exists_ then
      (.returned (none, some (.New "department not found")), w1)
    else
      match s.teacherRepository.ExistsById teacherId w1 with
      | ((exists_, err), w2) =>
        if err.isSome || !exists_ then
          (.returned (none, some (.New "teacher not found")), w2)
        else
          match DB.UpdateDepartmentHeadID departmentId teacherId w2 with
          | (some err, w3) =>
            (.returned
              (none, some (.Wrapf "failed to assign teacher to department: " err)), w3)
          | (none, w3) => s.FindDepartmentById departmentId w3

/-- Go `func (s *service) Count() (int, error)`. -/
def service.Count {σ : Type} (s : service σ) (w : σ) : Outcome (Int × Option Error) × σ :=
  (.returned (s.departmentRepository.Count w).1, (s.departmentRepository.Count w).2)

end department

/-! ## The Service interfaces -/

namespace course

/-- Go `type Service interface` of package `course`.  A `[]*T` result is a slice of
non-nil pointers. -/
structure Service (σ : Type) where
  CreateCourse : request.CourseRequest → σ →
    Outcome (Option response.CourseResponse × Option Error) × σ
  UpdateCourse : Nat → request.CourseRequest → σ →
    Outcome (Option response.CourseResponse × Option Error) × σ
  FindCourseById : Nat → σ → Outcome (Option response.CourseResponse × Option Error) × σ
  FindAllCourse : Int → Int → σ →
    Outcome (Option (List response.CourseResponse) × Option Error) × σ
  DeleteCourseById : Nat → σ → Outcome (Option Error) × σ
  SetTeacherToCourse : Nat → Nat → σ →
    Outcome (Option response.CourseResponse × Option Error) × σ
  Count : σ → Outcome (Int × Option Error) × σ

/-- Go `func NewCourseService(courseRepository Repository, teacherRepository
teacher.Repository) Service`, with the global `dbcontext.DB` its methods use. -/
def NewCourseService {σ : Type} (DB : gorm.DB σ) (courseRepository : Repository σ)
    (teacherRepository : teacher.Repository σ) : Service σ :=
  let s : service σ :=
    { courseRepository := courseRepository, teacherRepository := teacherRepository }
  { CreateCourse := s.CreateCourse
    UpdateCourse := s.UpdateCourse
    FindCourseById := s.FindCourseById
    FindAllCourse := s.FindAllCourse
    DeleteCourseById := s.DeleteCourseById
    SetTeacherToCourse := s.SetTeacherToCourse DB
    Count := s.Count }

end course

namespace student

/-- Go `type Service interface` of package `student`.  A `[]*T` result is a slice of
non-nil pointers. -/
structure Service (σ : Type) where
  CreateStudent : request.StudentRequest → σ →
    Outcome (Option response.StudentResponse × Option Error) × σ
  UpdateStudent : Nat → request.StudentRequest → σ →
    Outcome (Option response.StudentResponse × Option Error) × σ
  FindStudentById : Nat → σ → Outcome (Option response.StudentResponse × Option Error) × σ
  FindAllStudent : Int → Int → σ →
    Outcome (Option (List response.StudentResponse) × Option Error) × σ
  DeleteStudentById : Nat → σ → Outcome (Option Error) × σ
  AddCourseToStudent : Nat → Nat → σ →
    Outcome (Option response.StudentResponse × Option Error) × σ
  Count : σ → Outcome (Int × Option Error) × σ

/-- Go `func NewStudentService(studentRepository Repository, courseRepository
course.Repository) Service`, with the global `dbcontext.DB` its methods use. -/
def NewStudentService {σ : Type} (DB : gorm.DB σ) (studentRepository : Repository σ)
    (courseRepository : course.Repository σ) : Service σ :=
  let s : service σ :=
    { studentRepository := studentRepository, courseRepository := courseRepository }
  { CreateStudent := s.CreateStudent
    UpdateStudent := s.UpdateStudent
    FindStudentById := s.FindStudentById
    FindAllStudent := s.FindAllStudent
    DeleteStudentById := s.DeleteStudentById
    AddCourseToStudent := s.AddCourseToStudent DB
    Count := s.Count }

end student

namespace teacher

/-- Go `type Service interface` of package `teacher`.  A `[]*T` result is a slice of
non-nil pointers. -/
structure Service (σ : Type) where
  CreateTeacher : request.TeacherRequest → σ →
    Outcome (Option response.TeacherResponse × Option Error) × σ
  UpdateTeacher : Nat → request.TeacherRequest → σ →
    Outcome (Option response.TeacherResponse × Option Error) × σ
  FindTeacherById : Nat → σ → Outcome (Option response.TeacherResponse × Option Error) × σ
  FindAllTeachers : Int → Int → σ →
    Outcome (Option (List response.TeacherResponse) × Option Error) × σ
  DeleteTeacherById : Nat → σ → Outcome (Option Error) × σ
  Count : σ → Outcome (Int × Option Error) × σ

/-- Go `func NewTeacherService(repo Repository) Service`. -/
def NewTeacherService {σ : Type} (repo : Repository σ) : Service σ :=
  let s : service σ := { repo := repo }
  { CreateTeacher := s.CreateTeacher
    UpdateTeacher := s.UpdateTeacher
    FindTeacherById := s.FindTeacherById
    FindAllTeachers := s.FindAllTeachers
    DeleteTeacherById := s.DeleteTeacherById
    Count := s.Count }

end teacher

namespace department

/-- Go `type Service interface` of package `department`.  A `[]*T` result is a slice of
non-nil pointers. -/
structure Service (σ : Type) where
  CreateDepartment : request.DepartmentRequest → σ →
    Outcome (Option response.DepartmentResponse × Option Error) × σ
  UpdateDepartment : Nat → request.DepartmentRequest → σ →
    Outcome (Option response.DepartmentResponse × Option Error) × σ
  FindDepartmentById : Nat → σ →
    Outcome (Option response.DepartmentResponse × Option Error) × σ
  FindAllDepartments : Int → Int → σ →
    Outcome (Option (List response.DepartmentResponse) × Option Error) × σ
  DeleteDepartmentById : Nat → σ → Outcome (Option Error) × σ
  DepartmentSetTeacher : Nat → Nat → σ →
    Outcome (Option response.DepartmentResponse × Option Error) × σ
  Count : σ → Outcome (Int × Option Error) × σ

/-- Go `func NewDepartmentService(departmentRepository Repository, teacherRepository
teacher.Repository) Service`, with the global `dbcontext.DB` its methods use. -/
def NewDepartmentService {σ : Type} (DB : gorm.DB σ) (departmentRepository : Repository σ)
    (teacherRepository : teacher.Repository σ) : Service σ :=
  let s : service σ :=
    { departmentRepository := departmentRepository, teacherRepository := teacherRepository }
  { CreateDepartment := s.CreateDepartment
    UpdateDepartment := s.UpdateDepartment
    FindDepartmentById := s.FindDepartmentById
    FindAllDepartments := s.FindAllDepartments
    DeleteDepartmentById := s.DeleteDepartmentById
    DepartmentSetTeacher := s.DepartmentSetTeacher DB
    Count := s.Count }

end department

/-! ## encoding/json, errors, strconv.ParseUint and gin (libraries, at the boundary used
by the handlers) -/

namespace json

/-- A JSON document. -/
inductive Value where
  | null : Value
  | number (n : Int) : Value
  | string (s : String) : Value
  | array (items : List Value) : Value
  | object (fields : List (String × Value)) : Value

mutual
/-- What `encoding/json` writes for a `response.CourseResponse`, by its field tags. -/
def ofCourseResponse : response.CourseResponse → Value
  | .mk id title teacher students =>
    .object [("id", .number id), ("title", .string title),
      ("teacher", ofTeacherResponsePtr teacher), ("students", ofStudentResponses students)]
/-- What `encoding/json` writes for a `response.StudentResponse`, by its field tags. -/
def ofStudentResponse : response.StudentResponse → Value
  | .mk id name email courses =>
    .object [("id", .number id), ("name", .string name), ("email", .string email),
      ("courses", ofCourseResponses courses)]
/-- What `encoding/json` writes for a `response.TeacherResponse`, by its field tags. -/
def ofTeacherResponse : response.TeacherResponse → Value
  | .mk id name courses departments =>
    .object [("id", .number id), ("name", .string name),
      ("courses", ofCourseResponses courses),
      ("departments", ofDepartmentResponses departments)]
/-- What `encoding/json` writes for a `response.DepartmentResponse`.  The declaration
with its field tags is not among the sources; the keys `id`, `name` and
`head_of_department` follow the tags of the sibling types. -/
def ofDepartmentResponse : response.DepartmentResponse → Value
  | .mk id name head =>
    .object [("id", .number id), ("name", .string name),
      ("head_of_department", ofTeacherResponsePtr head)]
/-- A nil pointer is written as `null`. -/
def ofTeacherResponsePtr : Option response.TeacherResponse → Value
  | none => .null
  | some t => ofTeacherResponse t
/-- A nil slice is written as `null`, any other slice as an array. -/
def ofStudentResponses : Option (List response.StudentResponse) → Value
  | none => .null
  | some xs => .array (ofStudentResponseList xs)
/-- A nil slice is written as `null`, any other slice as an array. -/
def ofCourseResponses : Option (List response.CourseResponse) → Value
  | none => .null
  | some xs => .array (ofCourseResponseList xs)
/-- A nil slice is written as `null`, any other slice as an array. -/
def ofDepartmentResponses : Option (List response.DepartmentResponse) → Value
  | none => .null
  | some xs => .array (ofDepartmentResponseList xs)
def ofStudentResponseList : List response.StudentResponse → List Value
  | [] => []
  | x :: xs => ofStudentResponse x :: ofStudentResponseList xs
def ofCourseResponseList : List response.CourseResponse → List Value
  | [] => []
  | x :: xs => ofCourseResponse x :: ofCourseResponseList xs
def ofDepartmentResponseList : List response.DepartmentResponse → List Value
  | [] => []
  | x :: xs => ofDepartmentResponse x :: ofDepartmentResponseList xs
end

/-- A nil `*response.CourseResponse` is written as `null`. -/
def ofCourseResponsePtr : Option response.CourseResponse → Value
  | none => .null
  | some r => ofCourseResponse r

/-- A nil `*response.StudentResponse` is written as `null`. -/
def ofStudentResponsePtr : Option response.StudentResponse → Value
  | none => .null
  | some r => ofStudentResponse r

/-- A nil `*response.DepartmentResponse` is written as `null`. -/
def ofDepartmentResponsePtr : Option response.DepartmentResponse → Value
  | none => .null
  | some r => ofDepartmentResponse r

/-- A nil slice of teachers is written as `null`, any other as an array. -/
def ofTeacherResponses : Option (List response.TeacherResponse) → Value
  | none => .null
  | some xs => .array (xs.map ofTeacherResponse)

/-- What `encoding/json` writes for the dynamic value of `Pages.Items`. -/
def ofItems : Option pagination.ItemList → Value
  | none => .null
  | some (.students xs) => ofStudentResponses xs
  | some (.courses xs) => ofCourseResponses xs
  | some (.teachers xs) => ofTeacherResponses xs
  | some (.departments xs) => ofDepartmentResponses xs

/-- What `encoding/json` writes for a `*pagination.Pages`, by its field tags. -/
def ofPages (p : pagination.Pages) : Value :=
  .object [("page", .number p.Page), ("per_page", .number p.PerPage),
    ("page_count", .number p.PageCount), ("total_count", .number p.TotalCount),
    ("items", ofItems p.Items)]

end json

namespace errors

/-- Go `errors.Is(err, gorm.ErrRecordNotFound)` for a non-nil `err`: whether the sentinel
is `err` itself or is reached by unwrapping it. -/
def IsErrRecordNotFound : Error → Bool
  | .ErrRecordNotFound => true
  | .New _ => false
  | .Wrapf _ err => IsErrRecordNotFound err

end errors

namespace strconv

/-- The digit loop of `ParseUint(s, 10, bitSize)` with `maxVal = 1<<bitSize - 1`: `n` is
the value read so far.  The product `n * 10` must stay in `uint64` and the sum must stay
in `uint64` and at most `maxVal`. -/
def parseUintLoopTo (maxVal : Nat) : List Char → Nat → Except NumError Nat
  | [], n => .ok n
  | c :: cs, n =>
    if 48 ≤ c.toNat ∧ c.toNat ≤ 57 then
      if n ≥ maxUint64 / 10 + 1 then .error .ErrRange
      else
        let n1 := n * 10 + (c.toNat - 48)
        if n1 > maxUint64 ∨ n1 > maxVal then .error .ErrRange
        else parseUintLoopTo maxVal cs n1
    else .error .ErrSyntax

/-- Go `strconv.ParseUint(s, 10, bitSize)` for `0 < bitSize ≤ 64`: the value and the
error, as the Go function returns them.  No sign and no underscore is accepted. -/
def ParseUintBase10 (s : String) (bitSize : Nat) : Nat × Option NumError :=
  match s.data with
  | [] => (0, some .ErrSyntax)
  | c :: cs =>
    match parseUintLoopTo (2 ^ bitSize - 1) (c :: cs) 0 with
    | .ok n => (n, none)
    | .error .ErrSyntax => (0, some .ErrSyntax)
    | .error .ErrRange => (2 ^ bitSize - 1, some .ErrRange)

end strconv

namespace http

abbrev StatusOK : Nat := 200

abbrev StatusCreated : Nat := 201

abbrev StatusNoContent : Nat := 204

abbrev StatusBadRequest : Nat := 400

abbrev StatusNotFound : Nat := 404

abbrev StatusInternalServerError : Nat := 500

end http

namespace gin

/-- The response a gin handler has produced so far: the status of the response, whether
the header has gone out, and the JSON documents written to the body, in order. -/
structure ResponseWriter where
  status : Nat
  written : Bool
  body : List json.Value

/-- Go `*gin.Context` for a handler whose request body binds to `ρ`: the path parameters
(`c.Param`), the request (`c.Request`), the outcome of `c.ShouldBindJSON(&req)` (decoding
and validation of the body are the library's), and the response writer. -/
structure Context (ρ : Type) where
  Param : String → String
  Request : http.Request
  ShouldBindJSON : Except Error ρ
  Writer : ResponseWriter

/-- Go `gin.H{key: value}` for a string value, as `encoding/json` writes it. -/
def H (key value : String) : json.Value :=
  .object [(key, .string value)]

/-- Go `func (c *Context) Status(code int)`: the status of a response whose header has
gone out does not change any more. -/
def Context.Status {ρ : Type} (c : Context ρ) (code : Nat) : Context ρ :=
  if c.Writer.written then c
  else { c with Writer := { c.Writer with status := code } }

/-- Whether gin writes a body for the status (`bodyAllowedForStatus`). -/
def bodyAllowedForStatus (code : Nat) : Bool :=
  !((100 ≤ code && code ≤ 199) || code == 204 || code == 304)

/-- Go `func (c *Context) JSON(code int, obj any)`, with `obj` as `encoding/json` writes
it: the status is set, then the header goes out with the document. -/
def Context.JSON {ρ : Type} (c : Context ρ) (code : Nat) (obj : json.Value) : Context ρ :=
  let c1 := c.Status code
  if bodyAllowedForStatus code then
    { c1 with Writer := { c1.Writer with written := true, body := c1.Writer.body ++ [obj] } }
  else { c1 with Writer := { c1.Writer with written := true } }

/-- The writer of a fresh context: gin starts from status 200 with nothing written. -/
def newWriter : ResponseWriter :=
  { status := 200, written := false, body := [] }

end gin

/-! ## The handlers -/

namespace course

/-- Go `type Handler struct`. -/
structure Handler (σ : Type) where
  Service : Service σ

/-- Go `func (h *Handler) CreateCourse(c *gin.Context)`. -/
def Handler.CreateCourse {σ : Type} (h : Handler σ) (c : gin.Context request.CourseRequest) (w : σ) :
    Outcome (gin.Context request.CourseRequest) × σ :=
  match c.ShouldBindJSON with
  | .error err => (.returned (c.JSON http.StatusBadRequest (gin.H "error" err.Error)), w)
  | .ok req =>
    match h.Service.CreateCourse req w with
    | (.panicked, w1) => (.panicked, w1)
    | (.returned (_, some _), w1) =>
      (.returned (c.JSON http.StatusInternalServerError (gin.H "error" "failed to save course")), w1)
    | (.returned (courseResp, none), w1) =>
      (.returned (c.JSON http.StatusCreated (json.ofCourseResponsePtr courseResp)), w1)

/-- Go `func (h *Handler) UpdateCourse(c *gin.Context)`. -/
def Handler.UpdateCourse {σ : Type} (h : Handler σ) (c : gin.Context request.CourseRequest) (w : σ) :
    Outcome (gin.Context request.CourseRequest) × σ :=
  match strconv.ParseUintBase10 (c.Param "id") 32 with
  | (_, some _) =>
    (.returned (c.JSON http.StatusBadRequest (gin.H "error" "invalid course ID")), w)
  | (id, none) =>
    match c.ShouldBindJSON with
    | .error err => (.returned (c.JSON http.StatusBadRequest (gin.H "error" err.Error)), w)
    | .ok req =>
      match h.Service.UpdateCourse id req w with
      | (.panicked, w1) => (.panicked, w1)
      | (.returned (_, some _), w1) =>
        (.returned (c.JSON http.StatusInternalServerError
          (gin.H "error" "failed to update course")), w1)
      | (.returned (courseResp, none), w1) =>
        (.returned (c.JSON http.StatusOK (json.ofCourseResponsePtr courseResp)), w1)

/-- Go `func (h *Handler) FindCourseById(c *gin.Context)`. -/
def Handler.FindCourseById {σ ρ : Type} (h : Handler σ) (c : gin.Context ρ) (w : σ) :
    Outcome (gin.Context ρ) × σ :=
  match strconv.ParseUintBase10 (c.Param "id") 32 with
  | (_, some _) =>
    (.returned (c.JSON http.StatusBadRequest (gin.H "error" "invalid course ID")), w)
  | (id, none) =>
    match h.Service.FindCourseById id w with
    | (.panicked, w1) => (.panicked, w1)
    | (.returned (_, some err), w1) =>
      if errors.IsErrRecordNotFound err then
        (.returned (c.JSON http.StatusNotFound (gin.H "error" "course not found")), w1)
      else
        (.returned (c.JSON http.StatusInternalServerError
          (gin.H "error" "something went wrong")), w1)
    | (.returned (courseResp, none), w1) =>
      (.returned (c.JSON http.StatusOK (json.ofCourseResponsePtr courseResp)), w1)

/-- Go `func (h *Handler) FindAllCourses(c *gin.Context)`. -/
def Handler.FindAllCourses {σ ρ : Type} (h : Handler σ) (c : gin.Context ρ) (w : σ) :
    Outcome (gin.Context ρ) × σ :=
  match h.Service.Count w with
  | (.panicked, w1) => (.panicked, w1)
  | (.returned (_, some _), w1) =>
    (.returned (c.JSON http.StatusInternalServerError (gin.H "error" "failed to count courses")), w1)
  | (.returned (count, none), w1) =>
    let pages := pagination.NewFromRequest c.Request count
    match h.Service.FindAllCourse pages.Page pages.PerPage w1 with
    | (.panicked, w2) => (.panicked, w2)
    | (.returned (_, some _), w2) =>
      (.returned (c.JSON http.StatusInternalServerError (gin.H "error" "failed to get all courses")), w2)
    | (.returned (courses, none), w2) =>
      (.returned (c.JSON http.StatusOK
        (json.ofPages { pages with Items := some (.courses courses) })), w2)

/-- Go `func (h *Handler) DeleteCourseById(c *gin.Context)`. -/
def Handler.DeleteCourseById {σ ρ : Type} (h : Handler σ) (c : gin.Context ρ) (w : σ) :
    Outcome (gin.Context ρ) × σ :=
  match strconv.ParseUintBase10 (c.Param "id") 32 with
  | (_, some _) =>
    (.returned (c.JSON http.StatusBadRequest (gin.H "error" "invalid course ID")), w)
  | (id, none) =>
    match h.Service.DeleteCourseById id w with
    | (.panicked, w1) => (.panicked, w1)
    | (.returned (some err), w1) =>
      (.returned (c.JSON http.StatusInternalServerError (gin.H "error" err.Error)), w1)
    | (.returned none, w1) => (.returned (c.Status http.StatusNoContent), w1)

/-- Go `func (h *Handler) SetTeacherToCourse(c *gin.Context)`. -/
def Handler.SetTeacherToCourse {σ ρ : Type} (h : Handler σ) (c : gin.Context ρ) (w : σ) :
    Outcome (gin.Context ρ) × σ :=
  match strconv.ParseUintBase10 (c.Param "courseId") 32 with
  | (_, some _) =>
    (.returned (c.JSON http.StatusBadRequest (gin.H "error" "invalid course ID")), w)
  | (courseId, none) =>
    match strconv.ParseUintBase10 (c.Param "teacherId") 32 with
    | (_, some _) =>
      (.returned (c.JSON http.StatusBadRequest (gin.H "error" "invalid teacher ID")), w)
    | (teacherId, none) =>
      match h.Service.SetTeacherToCourse courseId teacherId w with
      | (.panicked, w1) => (.panicked, w1)
      | (.returned (_, some err), w1) =>
        if err.Error = "course not found" ∨ err.Error = "teacher not found" then
          (.returned (c.JSON http.StatusNotFound (gin.H "error" err.Error)), w1)
        else
          (.returned (c.JSON http.StatusInternalServerError
            (gin.H "error" "internal server error")), w1)
      | (.returned (courseResp, none), w1) =>
        (.returned (c.JSON http.StatusOK (json.ofCourseResponsePtr courseResp)), w1)

end course

namespace student

/-- Go `type StudentHandler struct`. -/
structure StudentHandler (σ : Type) where
  Service : Service σ

/-- Go `func (h *StudentHandler) CreateStudent(c *gin.Context)`. -/
def StudentHandler.CreateStudent {σ : Type} (h : StudentHandler σ) (c : gin.Context request.StudentRequest) (w : σ) :
    Outcome (gin.Context request.StudentRequest) × σ :=
  match c.ShouldBindJSON with
  | .error err => (.returned (c.JSON http.StatusBadRequest (gin.H "error" err.Error)), w)
  | .ok req =>
    match h.Service.CreateStudent req w with
    | (.panicked, w1) => (.panicked, w1)
    | (.returned (_, some _), w1) =>
      (.returned (c.JSON http.StatusInternalServerError (gin.H "error" "failed to save student")), w1)
    | (.returned (studentResp, none), w1) =>
      (.returned (c.JSON http.StatusCreated (json.ofStudentResponsePtr studentResp)), w1)

/-- Go `func (h *StudentHandler) UpdateStudent(c *gin.Context)`. -/
def StudentHandler.UpdateStudent {σ : Type} (h : StudentHandler σ) (c : gin.Context request.StudentRequest) (w : σ) :
    Outcome (gin.Context request.StudentRequest) × σ :=
  match strconv.ParseUintBase10 (c.Param "id") 32 with
  | (_, some _) =>
    (.returned (c.JSON http.StatusBadRequest (gin.H "error" "invalid student ID")), w)
  | (id, none) =>
    match c.ShouldBindJSON with
    | .error err => (.returned (c.JSON http.StatusBadRequest (gin.H "error" err.Error)), w)
    | .ok req =>
      match h.Service.UpdateStudent id req w with
      | (.panicked, w1) => (.panicked, w1)
      | (.returned (_, some _), w1) =>
        (.returned (c.JSON http.StatusInternalServerError
          (gin.H "error" "failed to update student")), w1)
      | (.returned (studentResp, none), w1) =>
        (.returned (c.JSON http.StatusOK (json.ofStudentResponsePtr studentResp)), w1)

/-- Go `func (h *StudentHandler) FindStudentById(c *gin.Context)`.  The error branch has no
`return`: the handler goes on to `c.JSON(http.StatusOK, studentResp)`. -/
def StudentHandler.FindStudentById {σ ρ : Type} (h : StudentHandler σ) (c : gin.Context ρ) (w : σ) :
    Outcome (gin.Context ρ) × σ :=
  match strconv.ParseUintBase10 (c.Param "id") 32 with
  | (_, some _) =>
    (.returned (c.JSON http.StatusBadRequest (gin.H "error" "invalid student ID")), w)
  | (id, none) =>
    match h.Service.FindStudentById id w with
    | (.panicked, w1) => (.panicked, w1)
    | (.returned (studentResp, some err), w1) =>
      let c1 :=
        if errors.IsErrRecordNotFound err then
          c.JSON http.StatusNotFound (gin.H "error" "student not found")
        else c.JSON http.StatusInternalServerError (gin.H "error" "something went wrong")
      (.returned (c1.JSON http.StatusOK (json.ofStudentResponsePtr studentResp)), w1)
    | (.returned (studentResp, none), w1) =>
      (.returned (c.JSON http.StatusOK (json.ofStudentResponsePtr studentResp)), w1)

/-- Go `func (h *StudentHandler) FindAllStudents(c *gin.Context)`. -/
def StudentHandler.FindAllStudents {σ ρ : Type} (h : StudentHandler σ) (c : gin.Context ρ) (w : σ) :
    Outcome (gin.Context ρ) × σ :=
  match h.Service.Count w with
  | (.panicked, w1) => (.panicked, w1)
  | (.returned (_, some _), w1) =>
    (.returned (c.JSON http.StatusInternalServerError (gin.H "error" "failed to count students")), w1)
  | (.returned (count, none), w1) =>
    let pages := pagination.NewFromRequest c.Request count
    match h.Service.FindAllStudent pages.Page pages.PerPage w1 with
    | (.panicked, w2) => (.panicked, w2)
    | (.returned (_, some _), w2) =>
      (.returned (c.JSON http.StatusInternalServerError (gin.H "error" "failed to get students")), w2)
    | (.returned (studentResp, none), w2) =>
      (.returned (c.JSON http.StatusOK
        (json.ofPages { pages with Items := some (.students studentResp) })), w2)

/-- Go `func (h *StudentHandler) FindAllCoursesByStudentId(c *gin.Context)`.  Reading
`studentResp.Courses` of a nil `studentResp` panics. -/
def StudentHandler.FindAllCoursesByStudentId {σ ρ : Type} (h : StudentHandler σ)
    (c : gin.Context ρ) (w : σ) : Outcome (gin.Context ρ) × σ :=
  match strconv.ParseUintBase10 (c.Param "id") 32 with
  | (_, some _) =>
    (.returned (c.JSON http.StatusBadRequest (gin.H "error" "invalid student ID")), w)
  | (id, none) =>
    match h.Service.FindStudentById id w with
    | (.panicked, w1) => (.panicked, w1)
    | (.returned (_, some _), w1) =>
      (.returned (c.JSON http.StatusInternalServerError
        (gin.H "error" "failed to get all courses")), w1)
    | (.returned (none, none), w1) => (.panicked, w1)
    | (.returned (some studentResp, none), w1) =>
      (.returned (c.JSON http.StatusOK (json.ofCourseResponses studentResp.Courses)), w1)

/-- Go `func (h *StudentHandler) DeleteStudentById(c *gin.Context)`. -/
def StudentHandler.DeleteStudentById {σ ρ : Type} (h : StudentHandler σ) (c : gin.Context ρ) (w : σ) :
    Outcome (gin.Context ρ) × σ :=
  match strconv.ParseUintBase10 (c.Param "id") 32 with
  | (_, some _) =>
    (.returned (c.JSON http.StatusBadRequest (gin.H "error" "invalid student ID")), w)
  | (id, none) =>
    match h.Service.DeleteStudentById id w with
    | (.panicked, w1) => (.panicked, w1)
    | (.returned (some err), w1) =>
      (.returned (c.JSON http.StatusInternalServerError (gin.H "error" err.Error)), w1)
    | (.returned none, w1) => (.returned (c.Status http.StatusNoContent), w1)

/-- Go `func (h *StudentHandler) StudentAddCourse(c *gin.Context)`. -/
def StudentHandler.StudentAddCourse {σ ρ : Type} (h : StudentHandler σ) (c : gin.Context ρ) (w : σ) :
    Outcome (gin.Context ρ) × σ :=
  match strconv.ParseUintBase10 (c.Param "studentId") 32 with
  | (_, some _) =>
    (.returned (c.JSON http.StatusBadRequest (gin.H "error" "invalid student ID")), w)
  | (studentId, none) =>
    match strconv.ParseUintBase10 (c.Param "courseId") 32 with
    | (_, some _) =>
      (.returned (c.JSON http.StatusBadRequest (gin.H "error" "invalid course ID")), w)
    | (courseId, none) =>
      match h.Service.AddCourseToStudent studentId courseId w with
      | (.panicked, w1) => (.panicked, w1)
      | (.returned (_, some err), w1) =>
        if err.Error = "student not found" ∨ err.Error = "course not found" then
          (.returned (c.JSON http.StatusNotFound (gin.H "error" err.Error)), w1)
        else
          (.returned (c.JSON http.StatusInternalServerError
            (gin.H "error" "internal server error")), w1)
      | (.returned (studentResp, none), w1) =>
        (.returned (c.JSON http.StatusOK (json.ofStudentResponsePtr studentResp)), w1)

end student

namespace teacher

/-- Go `type TeacherHandler struct`. -/
structure TeacherHandler (σ : Type) where
  Service : Service σ

/-- Go `func (h *TeacherHandler) CreateTeacher(c *gin.Context)`. -/
def TeacherHandler.CreateTeacher {σ : Type} (h : TeacherHandler σ) (c : gin.Context request.TeacherRequest) (w : σ) :
    Outcome (gin.Context request.TeacherRequest) × σ :=
  match c.ShouldBindJSON with
  | .error err => (.returned (c.JSON http.StatusBadRequest (gin.H "error" err.Error)), w)
  | .ok req =>
    match h.Service.CreateTeacher req w with
    | (.panicked, w1) => (.panicked, w1)
    | (.returned (_, some _), w1) =>
      (.returned (c.JSON http.StatusInternalServerError (gin.H "error" "failed to save teacher")), w1)
    | (.returned (teacherResp, none), w1) =>
      (.returned (c.JSON http.StatusCreated (json.ofTeacherResponsePtr teacherResp)), w1)

/-- Go `func (h *TeacherHandler) UpdateTeacher(c *gin.Context)`. -/
def TeacherHandler.UpdateTeacher {σ : Type} (h : TeacherHandler σ) (c : gin.Context request.TeacherRequest) (w : σ) :
    Outcome (gin.Context request.TeacherRequest) × σ :=
  match strconv.ParseUintBase10 (c.Param "id") 32 with
  | (_, some _) =>
    (.returned (c.JSON http.StatusBadRequest (gin.H "error" "invalid teacher ID")), w)
  | (id, none) =>
    match c.ShouldBindJSON with
    | .error err => (.returned (c.JSON http.StatusBadRequest (gin.H "error" err.Error)), w)
    | .ok req =>
      match h.Service.UpdateTeacher id req w with
      | (.panicked, w1) => (.panicked, w1)
      | (.returned (_, some _), w1) =>
        (.returned (c.JSON http.StatusInternalServerError
          (gin.H "error" "failed to update teacher")), w1)
      | (.returned (teacherResp, none), w1) =>
        (.returned (c.JSON http.StatusOK (json.ofTeacherResponsePtr teacherResp)), w1)

/-- Go `func (h *TeacherHandler) FindTeacherById(c *gin.Context)`. -/
def TeacherHandler.FindTeacherById {σ ρ : Type} (h : TeacherHandler σ) (c : gin.Context ρ) (w : σ) :
    Outcome (gin.Context ρ) × σ :=
  match strconv.ParseUintBase10 (c.Param "id") 32 with
  | (_, some _) =>
    (.returned (c.JSON http.StatusBadRequest (gin.H "error" "invalid teacher ID")), w)
  | (id, none) =>
    match h.Service.FindTeacherById id w with
    | (.panicked, w1) => (.panicked, w1)
    | (.returned (_, some err), w1) =>
      if errors.IsErrRecordNotFound err then
        (.returned (c.JSON http.StatusNotFound (gin.H "error" "teacher not found")), w1)
      else
        (.returned (c.JSON http.StatusInternalServerError
          (gin.H "error" "something went wrong")), w1)
    | (.returned (teacherResp, none), w1) =>
      (.returned (c.JSON http.StatusOK (json.ofTeacherResponsePtr teacherResp)), w1)

/-- Go `func (h *TeacherHandler) FindAllTeachers(c *gin.Context)`. -/
def TeacherHandler.FindAllTeachers {σ ρ : Type} (h : TeacherHandler σ) (c : gin.Context ρ) (w : σ) :
    Outcome (gin.Context ρ) × σ :=
  match h.Service.Count w with
  | (.panicked, w1) => (.panicked, w1)
  | (.returned (_, some _), w1) =>
    (.returned (c.JSON http.StatusInternalServerError (gin.H "error" "failed to count teachers")), w1)
  | (.returned (count, none), w1) =>
    let pages := pagination.NewFromRequest c.Request count
    match h.Service.FindAllTeachers pages.Page pages.PerPage w1 with
    | (.panicked, w2) => (.panicked, w2)
    | (.returned (_, some _), w2) =>
      (.returned (c.JSON http.StatusInternalServerError (gin.H "error" "failed to get all teachers")), w2)
    | (.returned (teachers, none), w2) =>
      (.returned (c.JSON http.StatusOK
        (json.ofPages { pages with Items := some (.teachers teachers) })), w2)

/-- Go `func (h *TeacherHandler) DeleteTeacherById(c *gin.Context)`. -/
def TeacherHandler.DeleteTeacherById {σ ρ : Type} (h : TeacherHandler σ) (c : gin.Context ρ) (w : σ) :
    Outcome (gin.Context ρ) × σ :=
  match strconv.ParseUintBase10 (c.Param "id") 32 with
  | (_, some _) =>
    (.returned (c.JSON http.StatusBadRequest (gin.H "error" "invalid teacher ID")), w)
  | (id, none) =>
    match h.Service.DeleteTeacherById id w with
    | (.panicked, w1) => (.panicked, w1)
    | (.returned (some err), w1) =>
      (.returned (c.JSON http.StatusInternalServerError (gin.H "error" err.Error)), w1)
    | (.returned none, w1) => (.returned (c.Status http.StatusNoContent), w1)

end teacher

namespace department

/-- Go `type DepartmentHandler struct`. -/
structure DepartmentHandler (σ : Type) where
  Service : Service σ

/-- Go `func (h *DepartmentHandler) CreateDepartment(c *gin.Context)`. -/
def DepartmentHandler.CreateDepartment {σ : Type} (h : DepartmentHandler σ) (c : gin.Context request.DepartmentRequest) (w : σ) :
    Outcome (gin.Context request.DepartmentRequest) × σ :=
  match c.ShouldBindJSON with
  | .error err => (.returned (c.JSON http.StatusBadRequest (gin.H "error" err.Error)), w)
  | .ok req =>
    match h.Service.CreateDepartment req w with
    | (.panicked, w1) => (.panicked, w1)
    | (.returned (_, some _), w1) =>
      (.returned (c.JSON http.StatusInternalServerError (gin.H "error" "failed to save department")), w1)
    | (.returned (deptResp, none), w1) =>
      (.returned (c.JSON http.StatusCreated (json.ofDepartmentResponsePtr deptResp)), w1)

/-- Go `func (h *DepartmentHandler) UpdateDepartment(c *gin.Context)`. -/
def DepartmentHandler.UpdateDepartment {σ : Type} (h : DepartmentHandler σ) (c : gin.Context request.DepartmentRequest) (w : σ) :
    Outcome (gin.Context request.DepartmentRequest) × σ :=
  match strconv.ParseUintBase10 (c.Param "id") 32 with
  | (_, some _) =>
    (.returned (c.JSON http.StatusBadRequest (gin.H "error" "invalid department ID")), w)
  | (id, none) =>
    match c.ShouldBindJSON with
    | .error err => (.returned (c.JSON http.StatusBadRequest (gin.H "error" err.Error)), w)
    | .ok req =>
      match h.Service.UpdateDepartment id req w with
      | (.panicked, w1) => (.panicked, w1)
      | (.returned (_, some _), w1) =>
        (.returned (c.JSON http.StatusInternalServerError
          (gin.H "error" "failed to update department")), w1)
      | (.returned (deptResp, none), w1) =>
        (.returned (c.JSON http.StatusOK (json.ofDepartmentResponsePtr deptResp)), w1)

/-- Go `func (h *DepartmentHandler) FindDepartmentById(c *gin.Context)`. -/
def DepartmentHandler.FindDepartmentById {σ ρ : Type} (h : DepartmentHandler σ) (c : gin.Context ρ) (w : σ) :
    Outcome (gin.Context ρ) × σ :=
  match strconv.ParseUintBase10 (c.Param "id") 32 with
  | (_, some _) =>
    (.returned (c.JSON http.StatusBadRequest (gin.H "error" "invalid department ID")), w)
  | (id, none) =>
    match h.Service.FindDepartmentById id w with
    | (.panicked, w1) => (.panicked, w1)
    | (.returned (_, some err), w1) =>
      if errors.IsErrRecordNotFound err then
        (.returned (c.JSON http.StatusNotFound (gin.H "error" "department not found")), w1)
      else
        (.returned (c.JSON http.StatusInternalServerError
          (gin.H "error" "something went wrong")), w1)
    | (.returned (deptResp, none), w1) =>
      (.returned (c.JSON http.StatusOK (json.ofDepartmentResponsePtr deptResp)), w1)

/-- Go `func (h *DepartmentHandler) FindAllDepartments(c *gin.Context)`. -/
def DepartmentHandler.FindAllDepartments {σ ρ : Type} (h : DepartmentHandler σ) (c : gin.Context ρ) (w : σ) :
    Outcome (gin.Context ρ) × σ :=
  match h.Service.Count w with
  | (.panicked, w1) => (.panicked, w1)
  | (.returned (_, some _), w1) =>
    (.returned (c.JSON http.StatusInternalServerError (gin.H "error" "failed to count departments")), w1)
  | (.returned (count, none), w1) =>
    let pages := pagination.NewFromRequest c.Request count
    match h.Service.FindAllDepartments pages.Page pages.PerPage w1 with
    | (.panicked, w2) => (.panicked, w2)
    | (.returned (_, some _), w2) =>
      (.returned (c.JSON http.StatusInternalServerError (gin.H "error" "failed to get departments")), w2)
    | (.returned (depts, none), w2) =>
      (.returned (c.JSON http.StatusOK
        (json.ofPages { pages with Items := some (.departments depts) })), w2)

/-- Go `func (h *DepartmentHandler) DeleteDepartmentById(c *gin.Context)`. -/
def DepartmentHandler.DeleteDepartmentById {σ ρ : Type} (h : DepartmentHandler σ) (c : gin.Context ρ) (w : σ) :
    Outcome (gin.Context ρ) × σ :=
  match strconv.ParseUintBase10 (c.Param "id") 32 with
  | (_, some _) =>
    (.returned (c.JSON http.StatusBadRequest (gin.H "error" "invalid department ID")), w)
  | (id, none) =>
    match h.Service.DeleteDepartmentById id w with
    | (.panicked, w1) => (.panicked, w1)
    | (.returned (some err), w1) =>
      (.returned (c.JSON http.StatusInternalServerError (gin.H "error" err.Error)), w1)
    | (.returned none, w1) => (.returned (c.Status http.StatusNoContent), w1)

/-- Go `func (h *DepartmentHandler) DepartmentSetTeacher(c *gin.Context)`. -/
def DepartmentHandler.DepartmentSetTeacher {σ ρ : Type} (h : DepartmentHandler σ) (c : gin.Context ρ) (w : σ) :
    Outcome (gin.Context ρ) × σ :=
  match strconv.ParseUintBase10 (c.Param "departmentId") 32 with
  | (_, some _) =>
    (.returned (c.JSON http.StatusBadRequest (gin.H "error" "invalid department ID")), w)
  | (departmentId, none) =>
    match strconv.ParseUintBase10 (c.Param "teacherId") 32 with
    | (_, some _) =>
      (.returned (c.JSON http.StatusBadRequest (gin.H "error" "invalid teacher ID")), w)
    | (teacherId, none) =>
      match h.Service.DepartmentSetTeacher departmentId teacherId w with
      | (.panicked, w1) => (.panicked, w1)
      | (.returned (_, some err), w1) =>
        if err.Error = "department not found" ∨ err.Error = "teacher not found" then
          (.returned (c.JSON http.StatusNotFound (gin.H "error" err.Error)), w1)
        else
          (.returned (c.JSON http.StatusInternalServerError
            (gin.H "error" "internal server error")), w1)
      | (.returned (departmentResp, none), w1) =>
        (.returned (c.JSON http.StatusOK (json.ofDepartmentResponsePtr departmentResp)), w1)

end department

/-! ## More doubles for running the services and the handlers -/

namespace store

def departmentRepository : department.Repository World where
  ExistsById := fun id w =>
    if w.down then ((false, some connectionRefused), w.record (.DepartmentExistsById id))
    else ((decide (id ∈ w.departments), none), w.record (.DepartmentExistsById id))
  Save := fun _ w => ((none, some unsupported), w.record (.Other "department.Save"))
  Update := fun _ w => ((none, some unsupported), w.record (.Other "department.Update"))
  FindById := fun id w =>
    if id ∈ w.departments then
      ((some (.mk id "" (w.headOf.lookup id) none), none), w.record (.DepartmentFindById id))
    else ((none, some .ErrRecordNotFound), w.record (.DepartmentFindById id))
  FindAll := fun _ _ w => ((none, some unsupported), w.record (.Other "department.FindAll"))
  DeleteById := fun _ w => (some unsupported, w.record (.Other "department.DeleteById"))
  Count := fun w => ((0, some unsupported), w.record (.Other "department.Count"))

def departmentService : department.service World :=
  { departmentRepository := departmentRepository, teacherRepository := teacherRepository }

/-- A store holding department 1 and no teacher. -/
def faculty : World :=
  { courses := [], teachers := [], students := [], teacherOf := [], courseStudent := [],
    down := false, calls := [], departments := [1] }

end store

namespace stub

/-- The canned results of a repository double in the manner of the repository mocks of
the tests: the entity, the list, the count, the existence flag and the error that its
methods return. -/
structure Canned (ε : Type) where
  one : Option ε
  all : Option (List ε)
  count : Int
  found : Bool
  err : Option Error

/-- A course repository that returns the canned results; its world is the number of
calls it has received. -/
def courseRepository (r : Canned entity.Course) : course.Repository Nat where
  ExistsById := fun _ w => ((r.found, r.err), w + 1)
  Save := fun _ w => ((r.one, r.err), w + 1)
  Update := fun _ w => ((r.one, r.err), w + 1)
  FindById := fun _ w => ((r.one, r.err), w + 1)
  FindAll := fun _ _ w => ((r.all, r.err), w + 1)
  DeleteById := fun _ w => (r.err, w + 1)
  Count := fun w => ((r.count, r.err), w + 1)

/-- A student repository that returns the canned results. -/
def studentRepository (r : Canned entity.Student) : student.Repository Nat where
  ExistsById := fun _ w => ((r.found, r.err), w + 1)
  Save := fun _ w => ((r.one, r.err), w + 1)
  Update := fun _ w => ((r.one, r.err), w + 1)
  FindById := fun _ w => ((r.one, r.err), w + 1)
  FindAll := fun _ _ w => ((r.all, r.err), w + 1)
  DeleteById := fun _ w => (r.err, w + 1)
  Count := fun w => ((r.count, r.err), w + 1)

/-- A teacher repository that returns the canned results. -/
def teacherRepository (r : Canned entity.Teacher) : teacher.Repository Nat where
  ExistsById := fun _ w => ((r.found, r.err), w + 1)
  Save := fun _ w => ((r.one, r.err), w + 1)
  Update := fun _ w => ((r.one, r.err), w + 1)
  FindById := fun _ w => ((r.one, r.err), w + 1)
  FindAll := fun _ _ w => ((r.all, r.err), w + 1)
  DeleteById := fun _ w => (r.err, w + 1)
  Count := fun w => ((r.count, r.err), w + 1)

/-- A department repository that returns the canned results. -/
def departmentRepository (r : Canned entity.Department) : department.Repository Nat where
  ExistsById := fun _ w => ((r.found, r.err), w + 1)
  Save := fun _ w => ((r.one, r.err), w + 1)
  Update := fun _ w => ((r.one, r.err), w + 1)
  FindById := fun _ w => ((r.one, r.err), w + 1)
  FindAll := fun _ _ w => ((r.all, r.err), w + 1)
  DeleteById := fun _ w => (r.err, w + 1)
  Count := fun w => ((r.count, r.err), w + 1)

/-- A gorm handle whose statements fail with the given error, or succeed for `none`. -/
def DB (err : Option Error) : gorm.DB Nat where
  UpdateCourseTeacherID := fun _ _ w => (err, w + 1)
  UpdateDepartmentHeadID := fun _ _ w => (err, w + 1)
  AppendStudentCourse := fun _ _ w => (err, w + 1)

/-- Canned results that answer with the entity and no error. -/
def found {ε : Type} (e : ε) : Canned ε :=
  { one := some e, all := some [e], count := 1, found := true, err := none }

/-- Canned results that answer with the error. -/
def failing {ε : Type} (err : Error) : Canned ε :=
  { one := none, all := none, count := 0, found := false, err := some err }

/-- The course `{ID: 1, Title: "Math"}` a repository returns from `Save`. -/
def math : entity.Course := .mk 1 "Math" none none none

/-- The course `{ID: 1, Title: "Stored"}` with no student and no teacher that a
repository returns from `Update` and `FindById`. -/
def storedCourse : entity.Course := .mk 1 "Stored" none (some []) none

/-- The student `{ID: 3, Name: "Eve", Email: "eve@example.com"}` with the course
`{ID: 20, Title: "Physics"}` taught by `{ID: 200, Name: "Dr. Newton"}`, as in the test of
`UpdateStudent`; the course and the teacher carry relations of their own. -/
def eve : entity.Student :=
  .mk 3 "Eve" "eve@example.com"
    (some [.mk 20 "Physics" (some 200) (some [.mk 4 "Bob" "bob@example.com" none])
      (some (.mk 200 "Dr. Newton" (some [.mk 21 "Optics" (some 200) none none]) none))])

/-- The teacher `{ID: 200, Name: "Dr. Newton"}` with one course and one department. -/
def newton : entity.Teacher :=
  .mk 200 "Dr. Newton" (some [.mk 20 "Physics" (some 200) (some []) none])
    (some [.mk 7 "Science" (some 200) none])

/-- The department `{ID: 7, Name: "Science"}` headed by `newton`. -/
def science : entity.Department := .mk 7 "Science" (some 200) (some newton)

/-- The course `{ID: 20, Title: "Physics"}` taught by `newton` with the student `eve`. -/
def physics : entity.Course := .mk 20 "Physics" (some 200) (some [eve]) (some newton)

end stub

/-! ## The specification's reading of the path parameters -/

namespace spec

/-- Whether a text is a base-10 unsigned integer, and then its value: one or more ASCII
digits `0`..`9`, without a sign. -/
def decimalUnsigned (s : String) : Option Nat :=
  if s.data ≠ [] ∧ ∀ d ∈ s.data, d.isDigit = true then
    some (Nat.ofDigits 10 (s.data.reverse.map digitValue))
  else none

/-- The value of a text that is a base-10 unsigned integer in the range `0..2^32-1`;
`none` for every other text. -/
def uint32Value (s : String) : Option Nat :=
  match decimalUnsigned s with
  | none => none
  | some n => if n ≤ 4294967295 then some n else none

end spec

namespace gin

/-- The response of a finished handler call: the writer of the context it returned, or
`none` when the handler panicked. -/
def response {ρ σ : Type} (r : Outcome (Context ρ) × σ) : Option ResponseWriter :=
  match r.1 with
  | .returned c => some c.Writer
  | .panicked => none

/-- A fresh context with the given path parameters and body, and no query string. -/
def newContext {ρ : Type} (param : String → String) (body : Except Error ρ) : Context ρ :=
  { Param := param, Request := { Query := fun _ => [] }, ShouldBindJSON := body,
    Writer := newWriter }

end gin

namespace stub

/-- The world of the saving repositories: the entities passed to `Save`, exactly as they
were passed in, per table. -/
structure Saved where
  students : List entity.Student
  teachers : List entity.Teacher
  courses : List entity.Course
  departments : List entity.Department

/-- The world in which nothing has been saved. -/
def nothing : Saved :=
  { students := [], teachers := [], courses := [], departments := [] }

/-- A student repository whose `Save` assigns the next ID and records the entity it
received. -/
def savingStudentRepository : student.Repository Saved where
  ExistsById := fun id w => ((decide (0 < id ∧ id ≤ w.students.length), none), w)
  Save := fun e w =>
    ((some (.mk (w.students.length + 1) e.Name e.Email e.Courses), none),
      { w with students := w.students ++ [e] })
  Update := fun _ w => ((none, some .ErrRecordNotFound), w)
  FindById := fun _ w => ((none, some .ErrRecordNotFound), w)
  FindAll := fun _ _ w => ((none, none), w)
  DeleteById := fun _ w => (none, w)
  Count := fun w => ((w.students.length, none), w)

/-- A teacher repository whose `Save` assigns the next ID and records the entity it
received. -/
def savingTeacherRepository : teacher.Repository Saved where
  ExistsById := fun id w => ((decide (0 < id ∧ id ≤ w.teachers.length), none), w)
  Save := fun e w =>
    ((some (.mk (w.teachers.length + 1) e.Name e.Courses e.Departments), none),
      { w with teachers := w.teachers ++ [e] })
  Update := fun _ w => ((none, some .ErrRecordNotFound), w)
  FindById := fun _ w => ((none, some .ErrRecordNotFound), w)
  FindAll := fun _ _ w => ((none, none), w)
  DeleteById := fun _ w => (none, w)
  Count := fun w => ((w.teachers.length, none), w)

/-- A course repository whose `Save` assigns the next ID and records the entity it
received. -/
def savingCourseRepository : course.Repository Saved where
  ExistsById := fun id w => ((decide (0 < id ∧ id ≤ w.courses.length), none), w)
  Save := fun e w =>
    ((some (.mk (w.courses.length + 1) e.Title e.TeacherID e.Students e.Teacher), none),
      { w with courses := w.courses ++ [e] })
  Update := fun _ w => ((none, some .ErrRecordNotFound), w)
  FindById := fun _ w => ((none, some .ErrRecordNotFound), w)
  FindAll := fun _ _ w => ((none, none), w)
  DeleteById := fun _ w => (none, w)
  Count := fun w => ((w.courses.length, none), w)

/-- A department repository whose `Save` assigns the next ID and records the entity it
received. -/
def savingDepartmentRepository : department.Repository Saved where
  ExistsById := fun id w => ((decide (0 < id ∧ id ≤ w.departments.length), none), w)
  Save := fun e w =>
    ((some (.mk (w.departments.length + 1) e.Name e.HeadOfDepartmentID
        e.HeadOfDepartment), none),
      { w with departments := w.departments ++ [e] })
  Update := fun _ w => ((none, some .ErrRecordNotFound), w)
  FindById := fun _ w => ((none, some .ErrRecordNotFound), w)
  FindAll := fun _ _ w => ((none, none), w)
  DeleteById := fun _ w => (none, w)
  Count := fun w => ((w.departments.length, none), w)

end stub

/-! ## gorm on the relational store (library and storage, at their documented behaviour)

The tables are the ones the repository tests name: `students (id, name, email)`,
`teachers (id, name)`, `courses (id, title, teacher_id)`, `departments (id, name,
head_of_department_id)` and the junction table `course_student (course_id, student_id)`.
A table is the list of its rows in storage order; a query without `ORDER BY` returns
them in that order.  Foreign keys are not enforced.  While `failure` is set, every
statement fails with that error and changes nothing.  gorm writes the associations of
a value it creates or saves; the entities the services pass have none, and the relation
fields of a value passed to `Create` or `Save` are not read here. -/

namespace gorm

/-- The clauses of a query chain `Preload(..).Limit(..).Offset(..)`. -/
structure Query where
  Preload : List String
  Limit : Option Int
  Offset : Option Int

/-- The rows a query selects from the rows that match: gorm writes `OFFSET` for an offset
above 0 and `LIMIT` for a limit of at least 0, and the store skips, then caps. -/
def Query.rows {α : Type} (q : Query) (matching : List α) : List α :=
  let skipped :=
    match q.Offset with
    | none => matching
    | some n => if n > 0 then matching.drop n.toNat else matching
  match q.Limit with
  | none => skipped
  | some n => if n ≥ 0 then skipped.take n.toNat else skipped

/-- The error of an `INSERT` whose ID is taken. -/
def duplicateKey : Error := .New "duplicate key value violates unique constraint"

/-- The statement of `Create(&value)` on a table whose last sequence value is `seq`, for
a value with the given ID whose columns make the row `row id`: an ID of 0 is replaced by
the next value of the sequence, and the row is inserted unless its ID is taken.  The
result is the error, the ID the value has afterwards, the table and the sequence. -/
def create {α : Type} (key : α → Nat) (table : List α) (seq : Nat) (id : Nat)
    (row : Nat → α) : Option Error × Nat × List α × Nat :=
  let newId := if id = 0 then seq + 1 else id
  let seq1 := if id = 0 then seq + 1 else seq
  if table.any (fun r => key r == newId) then (some duplicateKey, id, table, seq1)
  else (none, newId, table ++ [row newId], seq1)

/-- The statements of `Save(&value)`: a value whose ID is 0 is created; otherwise all
columns of the row with that ID are updated and, when no row was affected, the value is
inserted. -/
def save {α : Type} (key : α → Nat) (table : List α) (seq : Nat) (id : Nat)
    (row : Nat → α) : Option Error × Nat × List α × Nat :=
  if id = 0 then create key table seq id row
  else if table.any (fun r => key r == id) then
    (none, id, table.map (fun r => if key r == id then row id else r), seq)
  else (none, id, table ++ [row id], seq)

/-- The statement of `Model(&T{}).Where("id = ?", id).Updates(..)`: the rows with that
ID are changed; that there is none is no error. -/
def updates {α : Type} (key : α → Nat) (table : List α) (id : Nat) (set : α → α) : List α :=
  table.map (fun r => if key r == id then set r else r)

/-- The statement of `Delete(&T{}, id)`: the rows with that ID are removed; that there is
none is no error. -/
def delete {α : Type} (key : α → Nat) (table : List α) (id : Nat) : List α :=
  table.filter (fun r => key r != id)

/-- The row `First(&value, id)` reads, if there is one; gorm reports `ErrRecordNotFound`
otherwise. -/
def first {α : Type} (key : α → Nat) (table : List α) (id : Nat) : Option α :=
  table.find? (fun r => key r == id)

end gorm

namespace dbcontext

/-- A row of `students`. -/
structure StudentRow where
  id : Nat
  name : String
  email : String

/-- A row of `teachers`. -/
structure TeacherRow where
  id : Nat
  name : String

/-- A row of `courses`. -/
structure CourseRow where
  id : Nat
  title : String
  teacher_id : Option Nat

/-- A row of `departments`. -/
structure DepartmentRow where
  id : Nat
  name : String
  head_of_department_id : Option Nat

/-- The database behind the global `dbcontext.DB`: the tables, the last value of each
ID sequence, and the storage failure in force, if any. -/
structure Database where
  students : List StudentRow
  teachers : List TeacherRow
  courses : List CourseRow
  departments : List DepartmentRow
  course_student : List (Nat × Nat)
  students_id_seq : Nat
  teachers_id_seq : Nat
  courses_id_seq : Nat
  departments_id_seq : Nat
  failure : Option Error

/-- A teacher row as an entity with no relation loaded. -/
def TeacherRow.entity (r : TeacherRow) : entity.Teacher :=
  .mk r.id r.name none none

/-- A student row as an entity with no relation loaded. -/
def StudentRow.entity (r : StudentRow) : entity.Student :=
  .mk r.id r.name r.email none

/-- A course row as an entity with no relation loaded. -/
def CourseRow.entity (r : CourseRow) : entity.Course :=
  .mk r.id r.title r.teacher_id none none

/-- A department row as an entity with no relation loaded. -/
def DepartmentRow.entity (r : DepartmentRow) : entity.Department :=
  .mk r.id r.name r.head_of_department_id none

/-- `Preload("Teacher")` and `Preload("HeadOfDepartment")`: the teacher the foreign key
names, when the key is set and the row exists. -/
def Database.teacherOf (db : Database) (key : Option Nat) : Option entity.Teacher :=
  match key with
  | none => none
  | some id => (db.teachers.find? (fun t => t.id == id)).map TeacherRow.entity

/-- `Preload("Students")` of a course: the students the junction table links to it. -/
def Database.studentsOf (db : Database) (courseId : Nat) : List entity.Student :=
  (db.students.filter (fun s => db.course_student.contains (courseId, s.id))).map
    StudentRow.entity

/-- `Preload("Courses").Preload("Courses.Teacher")` of a student: the courses the
junction table links to it, each with its teacher. -/
def Database.coursesOf (db : Database) (studentId : Nat) : List entity.Course :=
  (db.courses.filter (fun c => db.course_student.contains (c.id, studentId))).map
    (fun c => .mk c.id c.title c.teacher_id none (db.teacherOf c.teacher_id))

/-- `Preload("Courses")` of a teacher: the courses whose `teacher_id` names it. -/
def Database.coursesTaughtBy (db : Database) (teacherId : Nat) : List entity.Course :=
  (db.courses.filter (fun c => c.teacher_id == some teacherId)).map CourseRow.entity

/-- `Preload("Departments")` of a teacher: the departments it heads. -/
def Database.departmentsHeadedBy (db : Database) (teacherId : Nat) :
    List entity.Department :=
  (db.departments.filter (fun d => d.head_of_department_id == some teacherId)).map
    DepartmentRow.entity

/-- A course row loaded with `Preload("Students").Preload("Teacher")`. -/
def Database.loadCourse (db : Database) (r : CourseRow) : entity.Course :=
  .mk r.id r.title r.teacher_id (some (db.studentsOf r.id)) (db.teacherOf r.teacher_id)

/-- A student row loaded with `Preload("Courses").Preload("Courses.Teacher")`. -/
def Database.loadStudent (db : Database) (r : StudentRow) : entity.Student :=
  .mk r.id r.name r.email (some (db.coursesOf r.id))

/-- A teacher row loaded with `Preload("Courses").Preload("Departments")`. -/
def Database.loadTeacher (db : Database) (r : TeacherRow) : entity.Teacher :=
  .mk r.id r.name (some (db.coursesTaughtBy r.id)) (some (db.departmentsHeadedBy r.id))

/-- A department row loaded with `Preload("HeadOfDepartment")`. -/
def Database.loadDepartment (db : Database) (r : DepartmentRow) : entity.Department :=
  .mk r.id r.name r.head_of_department_id (db.teacherOf r.head_of_department_id)

end dbcontext

/-! ## The repositories

The methods of the four `repository` types on the database.  Each reads the global
`dbcontext.DB`, which is the database argument here; the receiver has no fields. -/

namespace student

/-- Go `func (r *repository) ExistsById(id uint) (bool, error)`. -/
def repository.ExistsById (id : Nat) (db : dbcontext.Database) :
    (Bool × Option Error) × dbcontext.Database :=
  match db.failure with
  | some err => ((false, some err), db)
  | none => ((db.students.any (fun r => r.id == id), none), db)

/-- Go `func (r *repository) Save(student *entity.Student) (*entity.Student, error)`: the
value, with the ID `Create` wrote into it, and the error of `Create`. -/
def repository.Save (student : entity.Student) (db : dbcontext.Database) :
    (Option entity.Student × Option Error) × dbcontext.Database :=
  match db.failure with
  | some err => ((some student, some err), db)
  | none =>
    match gorm.create dbcontext.StudentRow.id db.students db.students_id_seq student.ID
        (fun id => { id := id, name := student.Name, email := student.Email }) with
    | (err, id, table, seq) =>
      ((some (.mk id student.Name student.Email student.Courses), err),
        { db with students := table, students_id_seq := seq })

/-- Go `func (r *repository) Update(student *entity.Student) (*entity.Student, error)`:
`DB.Save(&student)`, then the re-read
`Preload("Courses").Preload("Courses.Teacher").First(&updatedStudent, student.ID)` with
the ID the value has after `Save`. -/
def repository.Update (student : entity.Student) (db : dbcontext.Database) :
    (Option entity.Student × Option Error) × dbcontext.Database :=
  match db.failure with
  | some err => ((none, some err), db)
  | none =>
    match gorm.save dbcontext.StudentRow.id db.students db.students_id_seq student.ID
        (fun id => { id := id, name := student.Name, email := student.Email }) with
    | (some err, _, table, seq) =>
      ((none, some err), { db with students := table, students_id_seq := seq })
    | (none, id, table, seq) =>
      let db1 := { db with students := table, students_id_seq := seq }
      match gorm.first dbcontext.StudentRow.id db1.students id with
      | none => ((none, some .ErrRecordNotFound), db1)
      | some row => ((some (db1.loadStudent row), none), db1)

/-- What `Update` leaves in `*student`: `DB.Save(&student)` writes the ID the row has
into the value, which for an ID of 0 is the one the sequence gave; the other fields
stay. -/
def repository.UpdateArgument (student : entity.Student) (db : dbcontext.Database) :
    entity.Student :=
  match db.failure with
  | some _ => student
  | none =>
    match gorm.save dbcontext.StudentRow.id db.students db.students_id_seq student.ID
        (fun id => { id := id, name := student.Name, email := student.Email }) with
    | (_, id, _, _) => .mk id student.Name student.Email student.Courses

/-- Go `func (r *repository) FindById(id uint) (*entity.Student, error)`. -/
def repository.FindById (id : Nat) (db : dbcontext.Database) :
    (Option entity.Student × Option Error) × dbcontext.Database :=
  match db.failure with
  | some err => ((none, some err), db)
  | none =>
    match gorm.first dbcontext.StudentRow.id db.students id with
    | none => ((none, some .ErrRecordNotFound), db)
    | some row => ((some (db.loadStudent row), none), db)

/-- The query chain of `FindAll`:
`Preload("Courses").Preload("Courses.Teacher").Limit(limit).Offset(offset)` with
`offset := (page - 1) * limit`. -/
def repository.FindAllQuery (page limit : Int) : gorm.Query :=
  let offset := mulInt (subInt page 1) limit
  { Preload := ["Courses", "Courses.Teacher"], Limit := some limit, Offset := some offset }

/-- Go `func (r *repository) FindAll(page, limit int) ([]entity.Student, error)`: `Find`
leaves a non-nil slice. -/
def repository.FindAll (page limit : Int) (db : dbcontext.Database) :
    (Option (List entity.Student) × Option Error) × dbcontext.Database :=
  match db.failure with
  | some err => ((none, some err), db)
  | none =>
    ((some (((repository.FindAllQuery page limit).rows db.students).map db.loadStudent),
      none), db)

/-- Go `func (r *repository) DeleteById(id uint) error`. -/
def repository.DeleteById (id : Nat) (db : dbcontext.Database) :
    Option Error × dbcontext.Database :=
  match db.failure with
  | some err => (some err, db)
  | none => (none, { db with students := gorm.delete dbcontext.StudentRow.id db.students id })

/-- Go `func (r *repository) Count() (int, error)`. -/
def repository.Count (db : dbcontext.Database) : (Int × Option Error) × dbcontext.Database :=
  match db.failure with
  | some err => ((0, some err), db)
  | none => ((db.students.length, none), db)

/-- Go `func NewStudentRepository() Repository`. -/
def NewStudentRepository : Repository dbcontext.Database where
  ExistsById := repository.ExistsById
  Save := repository.Save
  Update := repository.Update
  UpdateArgument := repository.UpdateArgument
  FindById := repository.FindById
  FindAll := repository.FindAll
  DeleteById := repository.DeleteById
  Count := repository.Count

end student

namespace teacher

/-- Go `func (r *repository) ExistsById(id uint) (bool, error)`. -/
def repository.ExistsById (id : Nat) (db : dbcontext.Database) :
    (Bool × Option Error) × dbcontext.Database :=
  match db.failure with
  | some err => ((false, some err), db)
  | none => ((db.teachers.any (fun r => r.id == id), none), db)

/-- Go `func (r *repository) Save(teacher *entity.Teacher) (*entity.Teacher, error)`. -/
def repository.Save (teacher : entity.Teacher) (db : dbcontext.Database) :
    (Option entity.Teacher × Option Error) × dbcontext.Database :=
  match db.failure with
  | some err => ((some teacher, some err), db)
  | none =>
    match gorm.create dbcontext.TeacherRow.id db.teachers db.teachers_id_seq teacher.ID
        (fun id => { id := id, name := teacher.Name }) with
    | (err, id, table, seq) =>
      ((some (.mk id teacher.Name teacher.Courses teacher.Departments), err),
        { db with teachers := table, teachers_id_seq := seq })

/-- Go `func (r *repository) Update(teacher *entity.Teacher) (*entity.Teacher, error)`:
`DB.Save(&teacher)`, then the re-read
`Preload("Courses").Preload("Departments").First(&updatedTeacher, teacher.ID)`, whose
value and error are returned as they are; `First` has allocated the value before it
reports that there is no row. -/
def repository.Update (teacher : entity.Teacher) (db : dbcontext.Database) :
    (Option entity.Teacher × Option Error) × dbcontext.Database :=
  match db.failure with
  | some err => ((none, some err), db)
  | none =>
    match gorm.save dbcontext.TeacherRow.id db.teachers db.teachers_id_seq teacher.ID
        (fun id => { id := id, name := teacher.Name }) with
    | (some err, _, table, seq) =>
      ((none, some err), { db with teachers := table, teachers_id_seq := seq })
    | (none, id, table, seq) =>
      let db1 := { db with teachers := table, teachers_id_seq := seq }
      match gorm.first dbcontext.TeacherRow.id db1.teachers id with
      | none => ((some (.mk 0 "" none none), some .ErrRecordNotFound), db1)
      | some row => ((some (db1.loadTeacher row), none), db1)

/-- What `Update` leaves in `*teacher`: `DB.Save(&teacher)` writes the ID the row has
into the value, which for an ID of 0 is the one the sequence gave; the other fields
stay. -/
def repository.UpdateArgument (teacher : entity.Teacher) (db : dbcontext.Database) :
    entity.Teacher :=
  match db.failure with
  | some _ => teacher
  | none =>
    match gorm.save dbcontext.TeacherRow.id db.teachers db.teachers_id_seq teacher.ID
        (fun id => { id := id, name := teacher.Name }) with
    | (_, id, _, _) => .mk id teacher.Name teacher.Courses teacher.Departments

/-- Go `func (r *repository) FindById(id uint) (*entity.Teacher, error)`. -/
def repository.FindById (id : Nat) (db : dbcontext.Database) :
    (Option entity.Teacher × Option Error) × dbcontext.Database :=
  match db.failure with
  | some err => ((none, some err), db)
  | none =>
    match gorm.first dbcontext.TeacherRow.id db.teachers id with
    | none => ((none, some .ErrRecordNotFound), db)
    | some row => ((some (db.loadTeacher row), none), db)

/-- The query chain of `FindAll`: `Preload("Courses").Preload("Departments")
.Offset(offset)` with `offset := (page - 1) * limit`. -/
def repository.FindAllQuery (page limit : Int) : gorm.Query :=
  let offset := mulInt (subInt page 1) limit
  { Preload := ["Courses", "Departments"], Limit := none, Offset := some offset }

/-- Go `func (r *repository) FindAll(page, limit int) ([]entity.Teacher, error)`. -/
def repository.FindAll (page limit : Int) (db : dbcontext.Database) :
    (Option (List entity.Teacher) × Option Error) × dbcontext.Database :=
  match db.failure with
  | some err => ((none, some err), db)
  | none =>
    ((some (((repository.FindAllQuery page limit).rows db.teachers).map db.loadTeacher),
      none), db)

/-- Go `func (r *repository) DeleteById(id uint) error`. -/
def repository.DeleteById (id : Nat) (db : dbcontext.Database) :
    Option Error × dbcontext.Database :=
  match db.failure with
  | some err => (some err, db)
  | none => (none, { db with teachers := gorm.delete dbcontext.TeacherRow.id db.teachers id })

/-- Go `func (r *repository) Count() (int, error)`. -/
def repository.Count (db : dbcontext.Database) : (Int × Option Error) × dbcontext.Database :=
  match db.failure with
  | some err => ((0, some err), db)
  | none => ((db.teachers.length, none), db)

/-- Go `func NewTeacherRepository() Repository`. -/
def NewTeacherRepository : Repository dbcontext.Database where
  ExistsById := repository.ExistsById
  Save := repository.Save
  Update := repository.Update
  UpdateArgument := repository.UpdateArgument
  FindById := repository.FindById
  FindAll := repository.FindAll
  DeleteById := repository.DeleteById
  Count := repository.Count

end teacher

namespace course

/-- Go `func (r *repository) ExistsById(id uint) (bool, error)`. -/
def repository.ExistsById (id : Nat) (db : dbcontext.Database) :
    (Bool × Option Error) × dbcontext.Database :=
  match db.failure with
  | some err => ((false, some err), db)
  | none => ((db.courses.any (fun r => r.id == id), none), db)

/-- Go `func (r *repository) Save(course *entity.Course) (*entity.Course, error)`. -/
def repository.Save (course : entity.Course) (db : dbcontext.Database) :
    (Option entity.Course × Option Error) × dbcontext.Database :=
  match db.failure with
  | some err => ((some course, some err), db)
  | none =>
    match gorm.create dbcontext.CourseRow.id db.courses db.courses_id_seq course.ID
        (fun id => { id := id, title := course.Title, teacher_id := course.TeacherID }) with
    | (err, id, table, seq) =>
      ((some (.mk id course.Title course.TeacherID course.Students course.Teacher), err),
        { db with courses := table, courses_id_seq := seq })

/-- Go `func (r *repository) Update(course *entity.Course) (*entity.Course, error)`: the
statement `Model(&entity.Course{}).Where("id = ?", course.ID).Updates(map[string]
interface{}{"title": course.Title})`, then the re-read
`Preload("Students").Preload("Teacher").First(&updated, course.ID)`. -/
def repository.Update (course : entity.Course) (db : dbcontext.Database) :
    (Option entity.Course × Option Error) × dbcontext.Database :=
  match db.failure with
  | some err => ((none, some err), db)
  | none =>
    let courses := gorm.updates dbcontext.CourseRow.id db.courses course.ID
      (fun r => { r with title := course.Title })
    let db1 := { db with courses := courses }
    match gorm.first dbcontext.CourseRow.id db1.courses course.ID with
    | none => ((none, some .ErrRecordNotFound), db1)
    | some row => ((some (db1.loadCourse row), none), db1)

/-- What `Update` leaves in `*course`: the statement runs on a fresh `&entity.Course{}`
and the re-read fills its own `updated`, so `*course` is as it was. -/
def repository.UpdateArgument (course : entity.Course) (_ : dbcontext.Database) :
    entity.Course :=
  course

/-- Go `func (r *repository) FindById(id uint) (*entity.Course, error)`. -/
def repository.FindById (id : Nat) (db : dbcontext.Database) :
    (Option entity.Course × Option Error) × dbcontext.Database :=
  match db.failure with
  | some err => ((none, some err), db)
  | none =>
    match gorm.first dbcontext.CourseRow.id db.courses id with
    | none => ((none, some .ErrRecordNotFound), db)
    | some row => ((some (db.loadCourse row), none), db)

/-- The query chain of `FindAll`: `Preload("Students").Preload("Teacher").Offset(offset)`
with `offset := (page - 1) * limit`. -/
def repository.FindAllQuery (page limit : Int) : gorm.Query :=
  let offset := mulInt (subInt page 1) limit
  { Preload := ["Students", "Teacher"], Limit := none, Offset := some offset }

/-- Go `func (r *repository) FindAll(page, limit int) ([]entity.Course, error)`. -/
def repository.FindAll (page limit : Int) (db : dbcontext.Database) :
    (Option (List entity.Course) × Option Error) × dbcontext.Database :=
  match db.failure with
  | some err => ((none, some err), db)
  | none =>
    ((some (((repository.FindAllQuery page limit).rows db.courses).map db.loadCourse),
      none), db)

/-- Go `func (r *repository) DeleteById(id uint) error`. -/
def repository.DeleteById (id : Nat) (db : dbcontext.Database) :
    Option Error × dbcontext.Database :=
  match db.failure with
  | some err => (some err, db)
  | none => (none, { db with courses := gorm.delete dbcontext.CourseRow.id db.courses id })

/-- Go `func (r *repository) Count() (int, error)`. -/
def repository.Count (db : dbcontext.Database) : (Int × Option Error) × dbcontext.Database :=
  match db.failure with
  | some err => ((0, some err), db)
  | none => ((db.courses.length, none), db)

/-- Go `func NewCourseRepository() Repository`. -/
def NewCourseRepository : Repository dbcontext.Database where
  ExistsById := repository.ExistsById
  Save := repository.Save
  Update := repository.Update
  UpdateArgument := repository.UpdateArgument
  FindById := repository.FindById
  FindAll := repository.FindAll
  DeleteById := repository.DeleteById
  Count := repository.Count

end course

namespace department

/-- Go `func (r *repository) ExistsById(id uint) (bool, error)`. -/
def repository.ExistsById (id : Nat) (db : dbcontext.Database) :
    (Bool × Option Error) × dbcontext.Database :=
  match db.failure with
  | some err => ((false, some err), db)
  | none => ((db.departments.any (fun r => r.id == id), none), db)

/-- Go `func (r *repository) Save(department *entity.Department) (*entity.Department,
error)`. -/
def repository.Save (department : entity.Department) (db : dbcontext.Database) :
    (Option entity.Department × Option Error) × dbcontext.Database :=
  match db.failure with
  | some err => ((some department, some err), db)
  | none =>
    match gorm.create dbcontext.DepartmentRow.id db.departments db.departments_id_seq
        department.ID
        (fun id => { id := id, name := department.Name,
                     head_of_department_id := department.HeadOfDepartmentID }) with
    | (err, id, table, seq) =>
      ((some (.mk id department.Name department.HeadOfDepartmentID
          department.HeadOfDepartment), err),
        { db with departments := table, departments_id_seq := seq })

/-- Go `func (r *repository) Update(department *entity.Department) (*entity.Department,
error)`: the statement `Model(&entity.Department{}).Where("id = ?", department.ID)
.Updates(map[string]interface{}{"name": department.Name})`, then the re-read
`Preload("HeadOfDepartment").First(&updatedDepartment, department.ID)`. -/
def repository.Update (department : entity.Department) (db : dbcontext.Database) :
    (Option entity.Department × Option Error) × dbcontext.Database :=
  match db.failure with
  | some err => ((none, some err), db)
  | none =>
    let departments := gorm.updates dbcontext.DepartmentRow.id db.departments
      department.ID (fun r => { r with name := department.Name })
    let db1 := { db with departments := departments }
    match gorm.first dbcontext.DepartmentRow.id db1.departments department.ID with
    | none => ((none, some .ErrRecordNotFound), db1)
    | some row => ((some (db1.loadDepartment row), none), db1)

/-- Go `func (r *repository) FindById(id uint) (*entity.Department, error)`. -/
def repository.FindById (id : Nat) (db : dbcontext.Database) :
    (Option entity.Department × Option Error) × dbcontext.Database :=
  match db.failure with
  | some err => ((none, some err), db)
  | none =>
    match gorm.first dbcontext.DepartmentRow.id db.departments id with
    | none => ((none, some .ErrRecordNotFound), db)
    | some row => ((some (db.loadDepartment row), none), db)

/-- The query chain of `FindAll`: `Preload("HeadOfDepartment").Offset(offset)` with
`offset := (page - 1) * limit`. -/
def repository.FindAllQuery (page limit : Int) : gorm.Query :=
  let offset := mulInt (subInt page 1) limit
  { Preload := ["HeadOfDepartment"], Limit := none, Offset := some offset }

/-- Go `func (r *repository) FindAll(page, limit int) ([]entity.Department, error)`. -/
def repository.FindAll (page limit : Int) (db : dbcontext.Database) :
    (Option (List entity.Department) × Option Error) × dbcontext.Database :=
  match db.failure with
  | some err => ((none, some err), db)
  | none =>
    ((some (((repository.FindAllQuery page limit).rows db.departments).map
      db.loadDepartment), none), db)

/-- Go `func (r *repository) DeleteById(id uint) error`. -/
def repository.DeleteById (id : Nat) (db : dbcontext.Database) :
    Option Error × dbcontext.Database :=
  match db.failure with
  | some err => (some err, db)
  | none =>
    let departments := gorm.delete dbcontext.DepartmentRow.id db.departments id
    (none, { db with departments := departments })

/-- Go `func (r *repository) Count() (int, error)`. -/
def repository.Count (db : dbcontext.Database) : (Int × Option Error) × dbcontext.Database :=
  match db.failure with
  | some err => ((0, some err), db)
  | none => ((db.departments.length, none), db)

/-- Go `func NewDepartmentRepository() Repository`. -/
def NewDepartmentRepository : Repository dbcontext.Database where
  ExistsById := repository.ExistsById
  Save := repository.Save
  Update := repository.Update
  FindById := repository.FindById
  FindAll := repository.FindAll
  DeleteById := repository.DeleteById
  Count := repository.Count

end department

namespace dbcontext

/-- The global `DB` as the services use it directly.  `Association("Courses").Append`
writes the course and the junction row with `ON CONFLICT DO NOTHING`: a course that is
not there is inserted with its zero columns, and a link that is there is left alone. -/
def DB : gorm.DB Database where
  UpdateCourseTeacherID := fun courseId teacherId db =>
    match db.failure with
    | some err => (some err, db)
    | none =>
      let courses := gorm.updates CourseRow.id db.courses courseId
        (fun r => { r with teacher_id := some teacherId })
      (none, { db with courses := courses })
  UpdateDepartmentHeadID := fun departmentId teacherId db =>
    match db.failure with
    | some err => (some err, db)
    | none =>
      let departments := gorm.updates DepartmentRow.id db.departments departmentId
        (fun r => { r with head_of_department_id := some teacherId })
      (none, { db with departments := departments })
  AppendStudentCourse := fun studentId courseId db =>
    match db.failure with
    | some err => (some err, db)
    | none =>
      let courses :=
        if db.courses.any (fun r => r.id == courseId) then db.courses
        else db.courses ++ [{ id := courseId, title := "", teacher_id := none }]
      let links :=
        if db.course_student.contains (courseId, studentId) then db.course_student
        else db.course_student ++ [(courseId, studentId)]
      (none, { db with courses := courses, course_student := links })

/-- A database with three students, two teachers, three courses and two departments:
Ann takes Math and Physics, Bob takes Math; Dr. Smith teaches Math and heads Science. -/
def campus : Database :=
  { students := [{ id := 1, name := "Ann", email := "ann@example.com" },
                 { id := 2, name := "Bob", email := "bob@example.com" },
                 { id := 3, name := "Cid", email := "cid@example.com" }]
    teachers := [{ id := 1, name := "Dr. Smith" }, { id := 2, name := "Prof. Jane" }]
    courses := [{ id := 1, title := "Math", teacher_id := some 1 },
                { id := 2, title := "Physics", teacher_id := none },
                { id := 3, title := "Art", teacher_id := none }]
    departments := [{ id := 1, name := "Science", head_of_department_id := some 1 },
                    { id := 2, name := "Arts", head_of_department_id := none },
                    { id := 3, name := "Law", head_of_department_id := none }]
    course_student := [(1, 1), (2, 1), (1, 2)]
    students_id_seq := 3
    teachers_id_seq := 2
    courses_id_seq := 3
    departments_id_seq := 3
    failure := none }

/-- The sample database while its connection is down: every statement fails. -/
def unreachable : Database :=
  { campus with failure := some (.New "dial tcp: connection refused") }

end dbcontext

/-! ## A repository double for a row that is gone at the re-read -/

namespace stub

end stub

/-! ## A service double for the list handlers -/

namespace stub

/-- A course service in the manner of the service mocks of the handler tests: `Count`
answers the given count and error, `FindAllCourse` answers the given list, and the world
is the list of (page, limit) pairs `FindAllCourse` was called with. -/
def listingCourseService (count : Int) (countErr : Option Error)
    (items : Option (List response.CourseResponse)) : course.Service (List (Int × Int)) where
  CreateCourse := fun _ w => (.returned (none, some (.New "unexpected call")), w)
  UpdateCourse := fun _ _ w => (.returned (none, some (.New "unexpected call")), w)
  FindCourseById := fun _ w => (.returned (none, some (.New "unexpected call")), w)
  FindAllCourse := fun page limit w => (.returned (items, none), w ++ [(page, limit)])
  DeleteCourseById := fun _ w => (.returned (some (.New "unexpected call")), w)
  SetTeacherToCourse := fun _ _ w => (.returned (none, some (.New "unexpected call")), w)
  Count := fun w => (.returned (count, countErr), w)

end stub

/-! ## Lemmas on machine arithmetic -/

open pagination

theorem wrapInt_eq_self {x : Int} (h : IsInt x) : wrapInt x = x := by
  unfold IsInt minInt maxInt at h
  unfold wrapInt
  omega

theorem wrapInt_isInt (x : Int) : IsInt (wrapInt x) := by
  unfold IsInt minInt maxInt wrapInt
  omega

theorem wrapInt_mul_wrapInt (a b : Int) : wrapInt (wrapInt a * b) = wrapInt (a * b) := by
  unfold wrapInt
  have h : (a + 9223372036854775808) % 18446744073709551616 - 9223372036854775808
      = a - 18446744073709551616 * ((a + 9223372036854775808) / 18446744073709551616) := by
    omega
  rw [h]
  have h2 : (a - 18446744073709551616 * ((a + 9223372036854775808) / 18446744073709551616)) * b
      + 9223372036854775808
      = (a * b + 9223372036854775808)
        + 18446744073709551616 * (-(((a + 9223372036854775808) / 18446744073709551616) * b)) := by
    ring
  rw [h2, Int.add_mul_emod_self_left]

/-- Ceiling division: for `0 ≤ t` and `1 ≤ p`, the truncated quotient `(t + p - 1) / p`
is the least `n` with `t ≤ n * p`. -/
theorem tdiv_ceil {t p : Int} (ht : 0 ≤ t) (hp : 1 ≤ p) :
    t ≤ Int.tdiv (t + p - 1) p * p ∧ ∀ n : Int, t ≤ n * p → Int.tdiv (t + p - 1) p ≤ n := by
  have hnum : 0 ≤ t + p - 1 := by omega
  have hq : Int.tdiv (t + p - 1) p = (t + p - 1) / p := Int.tdiv_eq_ediv hnum (by omega)
  rw [hq]
  have hdm := Int.ediv_add_emod (t + p - 1) p
  have hr0 := Int.emod_nonneg (t + p - 1) (show p ≠ 0 by omega)
  have hr1 := Int.emod_lt_of_pos (t + p - 1) (show 0 < p by omega)
  constructor
  · nlinarith
  · intro n hn
    by_contra hlt
    have hle : n + 1 ≤ (t + p - 1) / p := by omega
    have := Int.mul_le_mul_of_nonneg_left hle (show 0 ≤ p by omega)
    nlinarith

/-! ## Lemmas on `pagination.New` -/

theorem New_perPage_bounds (page perPage total : Int) :
    1 ≤ (New page perPage total).PerPage ∧ (New page perPage total).PerPage ≤ 1000 := by
  simp only [New, DefaultPageSize, MaxPageSize]
  split_ifs <;> omega

theorem New_pageCount_eq (page perPage total : Int) (h0 : 0 ≤ total) :
    (New page perPage total).PageCount
      = divInt (subInt (addInt total (New page perPage total).PerPage) 1)
          (New page perPage total).PerPage := by
  simp only [New]
  rw [if_pos (show total ≥ 0 from h0)]

theorem New_page_eq (page perPage total : Int) :
    (New page perPage total).Page
      = (if (if total ≥ 0 then
              (if page > (New page perPage total).PageCount
                then (New page perPage total).PageCount else page)
              else page) < 1 then 1
         else (if total ≥ 0 then
              (if page > (New page perPage total).PageCount
                then (New page perPage total).PageCount else page)
              else page)) := rfl

theorem New_pageCount_of_fits (page perPage total : Int) (h0 : 0 ≤ total)
    (hfit : total + (New page perPage total).PerPage - 1 ≤ maxInt) :
    (New page perPage total).PageCount
      = Int.tdiv (total + (New page perPage total).PerPage - 1)
          (New page perPage total).PerPage := by
  obtain ⟨hp1, hp2⟩ := New_perPage_bounds page perPage total
  rw [New_pageCount_eq page perPage total h0]
  generalize (New page perPage total).PerPage = pp at *
  have hnum : subInt (addInt total pp) 1 = total + pp - 1 := by
    unfold subInt addInt wrapInt
    unfold maxInt at hfit
    omega
  rw [hnum]
  unfold divInt
  apply wrapInt_eq_self
  have hnn : 0 ≤ total + pp - 1 := by omega
  rw [Int.tdiv_eq_ediv hnn (by omega)]
  have hle : (total + pp - 1) / pp ≤ total + pp - 1 := Int.ediv_le_self _ hnn
  have hge : 0 ≤ (total + pp - 1) / pp := Int.ediv_nonneg hnn (by omega)
  unfold maxInt at hfit
  unfold IsInt minInt maxInt
  omega

theorem Offset_eq_wrapInt (p : Pages) : p.Offset = wrapInt ((p.Page - 1) * p.PerPage) := by
  unfold Pages.Offset mulInt subInt
  exact wrapInt_mul_wrapInt _ _

/-- For a non-negative total the offset of the clamped page never leaves the `int`
range: the page is at most the page count, and page count times page size is at most
the (wrapped) numerator of the division. -/
theorem New_offset_fits (page perPage total : Int) (h0 : 0 ≤ total) :
    IsInt (((New page perPage total).Page - 1) * (New page perPage total).PerPage) := by
  obtain ⟨hp1, hp2⟩ := New_perPage_bounds page perPage total
  have hpc := New_pageCount_eq page perPage total h0
  have hpage := New_page_eq page perPage total
  rw [if_pos (show total ≥ 0 from h0)] at hpage
  generalize (New page perPage total).PerPage = pp at *
  generalize (New page perPage total).PageCount = pc at *
  generalize (New page perPage total).Page = pg at *
  obtain ⟨hn1, hn2⟩ := wrapInt_isInt (addInt total pp - 1)
  change minInt ≤ subInt (addInt total pp) 1 at hn1
  change subInt (addInt total pp) 1 ≤ maxInt at hn2
  generalize subInt (addInt total pp) 1 = num at *
  unfold minInt at hn1
  unfold maxInt at hn2
  unfold IsInt minInt maxInt
  by_cases hpg : pg ≤ 1
  · have hpg1 : pg = 1 := by
      rw [hpage]; rw [hpage] at hpg
      split_ifs at hpg ⊢ <;> omega
    subst hpg1
    simp
  · have hle : pg ≤ pc := by
      rw [hpage]
      split_ifs <;> omega
    have hnumpos : 0 ≤ num := by
      by_contra hneg
      have h1 : Int.tdiv num pp = -(Int.tdiv (-num) pp) := by
        rw [Int.neg_tdiv, neg_neg]
      have h2 : 0 ≤ Int.tdiv (-num) pp := Int.tdiv_nonneg (by omega) (by omega)
      have h3 : Int.tdiv (-num) pp ≤ -num := by
        rw [Int.tdiv_eq_ediv (by omega) (by omega)]
        exact Int.ediv_le_self _ (by omega)
      have hw : wrapInt (Int.tdiv num pp) = Int.tdiv num pp := by
        apply wrapInt_eq_self
        unfold IsInt minInt maxInt; omega
      unfold divInt at hpc
      omega
    have hq : pc = num / pp := by
      rw [hpc]; unfold divInt
      rw [Int.tdiv_eq_ediv hnumpos (by omega)]
      apply wrapInt_eq_self
      have := Int.ediv_le_self pp hnumpos
      have := Int.ediv_nonneg hnumpos (show 0 ≤ pp by omega)
      unfold IsInt minInt maxInt; omega
    have hdm := Int.ediv_add_emod num pp
    have hr0 := Int.emod_nonneg num (show pp ≠ 0 by omega)
    have hmul : (pg - 1) * pp ≤ pc * pp :=
      Int.mul_le_mul_of_nonneg_right (by omega) (by omega)
    have hnn : 0 ≤ (pg - 1) * pp := Int.mul_nonneg (by omega) (by omega)
    constructor
    · omega
    · rw [hq] at hmul
      nlinarith

/-! ## Lemmas on `strconv.Atoi` and `parseInt` -/

theorem isDigit_iff (c : Char) : c.isDigit = true ↔ 48 ≤ c.toNat ∧ c.toNat ≤ 57 := by
  simp [Char.isDigit, Char.toNat, UInt32.le_def, Fin.le_def]
  rfl

theorem digits_value_cons (c : Char) (cs : List Char) :
    Nat.ofDigits 10 ((c :: cs).reverse.map spec.digitValue)
      = spec.digitValue c * 10 ^ cs.length
        + Nat.ofDigits 10 (cs.reverse.map spec.digitValue) := by
  rw [List.reverse_cons, List.map_append, Nat.ofDigits_append]
  simp [Nat.ofDigits_singleton]
  ring

theorem loop_step_value (n : Nat) (c : Char) (cs : List Char) :
    n * 10 ^ (c :: cs).length + Nat.ofDigits 10 ((c :: cs).reverse.map spec.digitValue)
      = (n * 10 + (c.toNat - 48)) * 10 ^ cs.length
        + Nat.ofDigits 10 (cs.reverse.map spec.digitValue) := by
  rw [digits_value_cons, List.length_cons, pow_succ]
  unfold spec.digitValue
  ring

theorem parseUintLoop_ok (cs : List Char) : ∀ n : Nat,
    (∀ c ∈ cs, c.isDigit = true) →
    n * 10 ^ cs.length + Nat.ofDigits 10 (cs.reverse.map spec.digitValue) ≤ strconv.maxUint64 →
    strconv.parseUintLoop cs n
      = .ok (n * 10 ^ cs.length + Nat.ofDigits 10 (cs.reverse.map spec.digitValue)) := by
  induction cs with
  | nil => intro n _ _; simp [strconv.parseUintLoop]
  | cons c cs ih =>
    intro n hall hle
    have hc : 48 ≤ c.toNat ∧ c.toNat ≤ 57 := (isDigit_iff c).1 (hall c (List.mem_cons_self _ _))
    have hcs : ∀ x ∈ cs, x.isDigit = true := fun x hx => hall x (List.mem_cons_of_mem _ hx)
    rw [loop_step_value] at hle ⊢
    have hpow : 1 ≤ 10 ^ cs.length := Nat.one_le_pow _ _ (by norm_num)
    have hn1 : n * 10 + (c.toNat - 48) ≤ strconv.maxUint64 := by
      calc n * 10 + (c.toNat - 48) = (n * 10 + (c.toNat - 48)) * 1 := by ring
        _ ≤ (n * 10 + (c.toNat - 48)) * 10 ^ cs.length := Nat.mul_le_mul_left _ hpow
        _ ≤ _ := Nat.le_trans (Nat.le_add_right _ _) hle
    have hcut : ¬ n ≥ strconv.maxUint64 / 10 + 1 := by
      unfold strconv.maxUint64 at hn1 ⊢
      omega
    rw [strconv.parseUintLoop, if_pos hc, if_neg hcut]
    simp only []
    rw [if_neg (by omega)]
    exact ih _ hcs hle

theorem parseUintLoop_error (cs : List Char) : ∀ n : Nat, n ≤ strconv.maxUint64 →
    ¬ ((∀ c ∈ cs, c.isDigit = true) ∧
      n * 10 ^ cs.length + Nat.ofDigits 10 (cs.reverse.map spec.digitValue)
        ≤ strconv.maxUint64) →
    ∃ e, strconv.parseUintLoop cs n = .error e := by
  induction cs with
  | nil =>
    intro n hn h
    exfalso; apply h
    simpa using hn
  | cons c cs ih =>
    intro n hn h
    rw [strconv.parseUintLoop]
    by_cases hc : 48 ≤ c.toNat ∧ c.toNat ≤ 57
    · rw [if_pos hc]
      by_cases hcut : n ≥ strconv.maxUint64 / 10 + 1
      · rw [if_pos hcut]; exact ⟨_, rfl⟩
      · rw [if_neg hcut]
        simp only []
        by_cases hn1 : n * 10 + (c.toNat - 48) > strconv.maxUint64
        · rw [if_pos hn1]; exact ⟨_, rfl⟩
        · rw [if_neg hn1]
          apply ih _ (by omega)
          intro hcontra
          apply h
          refine ⟨?_, ?_⟩
          · intro x hx
            rcases List.mem_cons.1 hx with rfl | hx
            · exact (isDigit_iff _).2 hc
            · exact hcontra.1 x hx
          · rw [loop_step_value]
            exact hcontra.2
    · rw [if_neg hc]; exact ⟨_, rfl⟩

theorem parseInt_cons (s : String) (d : Int) (c : Char) (rest : List Char)
    (hs : s.data = c :: rest) :
    parseInt s d
      = (match strconv.ParseUint (if c = '+' ∨ c = '-' then rest else c :: rest) with
         | .error _ => d
         | .ok un =>
           if (c ≠ '-' ∧ un ≥ 9223372036854775808) ∨ (c = '-' ∧ un > 9223372036854775808)
           then d else (if c = '-' then -(un : Int) else (un : Int))) := by
  have hne : s ≠ "" := by
    intro h; rw [h] at hs; simp at hs
  unfold parseInt
  rw [if_neg hne]
  unfold strconv.Atoi
  rw [hs]
  simp only [beq_iff_eq]
  generalize strconv.ParseUint (if c = '+' ∨ c = '-' then rest else c :: rest) = r
  rcases r with e | un
  · cases e
    · simp
    · simp only []
      split_ifs <;> rfl
  · by_cases hneg : c = '-'
    · simp [hneg]
      split_ifs <;> simp_all
    · simp [hneg]
      split_ifs <;> simp_all

/-- The function `parseInt` returns the value of a decimal integer that is an `int`, and
the default for every other text. -/
theorem parseInt_eq_spec (s : String) (d : Int) :
    parseInt s d
      = (match spec.decimalInteger s with
         | none => d
         | some n => if IsInt n then n else d) := by
  rcases hs : s.data with _ | ⟨c, rest⟩
  · have h0 : s = "" := by
      cases s; simp_all
    subst h0
    simp [parseInt, spec.decimalInteger]
  · rw [parseInt_cons s d c rest hs]
    unfold spec.decimalInteger
    rw [hs]
    simp only []
    generalize (if c = '+' ∨ c = '-' then rest else c :: rest) = body
    by_cases hgood : body ≠ [] ∧ ∀ x ∈ body, x.isDigit = true
    · rw [if_pos hgood]
      obtain ⟨hne, hall⟩ := hgood
      have hPU : strconv.ParseUint body = strconv.parseUintLoop body 0 := by
        cases body with
        | nil => exact absurd rfl hne
        | cons _ _ => rfl
      rw [hPU]
      by_cases hmax : Nat.ofDigits 10 (body.reverse.map spec.digitValue) ≤ strconv.maxUint64
      · have hok := parseUintLoop_ok body 0 hall (by simpa using hmax)
        simp only [Nat.zero_mul, Nat.zero_add] at hok
        rw [hok]
        simp only []
        clear hok hmax
        generalize Nat.ofDigits 10 (body.reverse.map spec.digitValue) = v
        unfold IsInt minInt maxInt
        by_cases hneg : c = '-'
        · simp only [hneg, if_true, ne_eq, not_true_eq_false, false_and, true_and, false_or]
          split_ifs <;> first | rfl | (exfalso; omega)
        · simp only [hneg, if_false, ne_eq, not_false_eq_true, false_and, true_and, or_false]
          split_ifs <;> first | rfl | (exfalso; omega)
      · obtain ⟨e, he⟩ := parseUintLoop_error body 0 (by unfold strconv.maxUint64; omega)
          (by
            intro hc
            apply hmax
            simpa using hc.2)
        rw [he]
        simp only []
        have hbig : ¬ IsInt (if c = '-'
            then -((Nat.ofDigits 10 (body.reverse.map spec.digitValue) : Nat) : Int)
            else ((Nat.ofDigits 10 (body.reverse.map spec.digitValue) : Nat) : Int)) := by
          unfold strconv.maxUint64 at hmax
          unfold IsInt minInt maxInt
          split_ifs <;> omega
        rw [if_neg hbig]
    · rw [if_neg hgood]
      simp only []
      by_cases hnil : body = []
      · subst hnil
        rfl
      · have hPU : strconv.ParseUint body = strconv.parseUintLoop body 0 := by
          cases body with
          | nil => exact absurd rfl hnil
          | cons _ _ => rfl
        obtain ⟨e, he⟩ := parseUintLoop_error body 0 (by unfold strconv.maxUint64; omega)
          (by
            intro hc
            exact hgood ⟨hnil, hc.1⟩)
        rw [hPU, he]

theorem parseInt_Get_eq (v : url.Values) (key : String) (d : Int) :
    parseInt (v.Get key) d = spec.queryInt (v key) d := by
  unfold url.Values.Get spec.queryInt
  rcases v key with _ | ⟨x, xs⟩
  · simp [parseInt]
  · simp only []
    by_cases hx : x = ""
    · rw [if_pos hx, hx]; simp [parseInt]
    · rw [if_neg hx, parseInt_eq_spec]

theorem NewFromRequest_unfold (req : http.Request) (count : Int) :
    NewFromRequest req count
      = New (spec.queryInt (req.Query "page") 1) (spec.queryInt (req.Query "per_page") 100)
          count := by
  unfold NewFromRequest
  simp only [PageVar, PageSizeVar, DefaultPageSize]
  rw [parseInt_Get_eq, parseInt_Get_eq]

/-! ## Claims on `pkg/pagination` -/

/-- C1 (amended): for every page, every perPage and every total `≥ 0` for which the sum
`total + PerPage - 1` (with `PerPage` the normalised page size) does not exceed the
largest `int`, `New` returns a `PageCount` that is the ceiling of `total / PerPage`,
namely the least `n` with `n * PerPage ≥ total`, and a `TotalCount` equal to total; and
`New(2, 20, 50)` has Page 2, PerPage 20, PageCount 3, Offset 20 and Limit 20. -/
theorem New_pageCount_ceiling (page perPage total : Int) (h0 : 0 ≤ total)
    (hfit : total + (New page perPage total).PerPage - 1 ≤ maxInt) :
    (total ≤ (New page perPage total).PageCount * (New page perPage total).PerPage
      ∧ (∀ n : Int, total ≤ n * (New page perPage total).PerPage →
          (New page perPage total).PageCount ≤ n)
      ∧ (New page perPage total).TotalCount = total)
    ∧ ((New 2 20 50).Page = 2 ∧ (New 2 20 50).PerPage = 20 ∧ (New 2 20 50).PageCount = 3
      ∧ (New 2 20 50).Offset = 20 ∧ (New 2 20 50).Limit = 20) := by
  obtain ⟨hp1, _⟩ := New_perPage_bounds page perPage total
  have hpc := New_pageCount_of_fits page perPage total h0 hfit
  obtain ⟨hc1, hc2⟩ := tdiv_ceil h0 hp1
  refine ⟨⟨?_, ?_, rfl⟩, by decide⟩
  · rw [hpc]; exact hc1
  · rw [hpc]; exact hc2

/-- Witness of C1 at `New(7, 30, 91)`: four pages of thirty rows. -/
theorem New_pageCount_ceiling_witness :
    ((0 : Int) ≤ 91 ∧ 91 + (New 7 30 91).PerPage - 1 ≤ maxInt)
    ∧ (91 ≤ (New 7 30 91).PageCount * (New 7 30 91).PerPage
      ∧ (∀ n : Int, 91 ≤ n * (New 7 30 91).PerPage → (New 7 30 91).PageCount ≤ n)
      ∧ (New 7 30 91).TotalCount = 91)
    ∧ ((New 2 20 50).Page = 2 ∧ (New 2 20 50).PerPage = 20 ∧ (New 2 20 50).PageCount = 3
      ∧ (New 2 20 50).Offset = 20 ∧ (New 2 20 50).Limit = 20) :=
  ⟨by decide, New_pageCount_ceiling 7 30 91 (by decide) (by decide)⟩

/-- C1 fails as stated: for total `2^63 - 1` and perPage 20 the sum `total + perPage - 1`
wraps around, `New` returns the negative PageCount `-461168601842738789`, and that is
not a number of pages covering total. -/
theorem New_pageCount_wraps :
    (0 : Int) ≤ 9223372036854775807 ∧ IsInt 9223372036854775807
    ∧ (New 1 20 9223372036854775807).PerPage = 20
    ∧ (New 1 20 9223372036854775807).PageCount = -461168601842738789
    ∧ ¬ ((9223372036854775807 : Int)
          ≤ (New 1 20 9223372036854775807).PageCount
              * (New 1 20 9223372036854775807).PerPage) := by
  decide

/-- C2 (amended): for every perPage and every total `≥ 1` for which `total + PerPage - 1`
does not exceed the largest `int`, whenever the requested page exceeds the computed
PageCount, `New` returns Page equal to PageCount; and `New(10, 20, 50)` has Page 3 and
Offset 40. -/
theorem New_clamps_to_last_page (page perPage total : Int) (h1 : 1 ≤ total)
    (hfit : total + (New page perPage total).PerPage - 1 ≤ maxInt)
    (hgt : page > (New page perPage total).PageCount) :
    (New page perPage total).Page = (New page perPage total).PageCount
    ∧ ((New 10 20 50).Page = 3 ∧ (New 10 20 50).Offset = 40) := by
  refine ⟨?_, by decide⟩
  obtain ⟨hp1, _⟩ := New_perPage_bounds page perPage total
  have hpc := New_pageCount_of_fits page perPage total (by omega) hfit
  obtain ⟨hc1, _⟩ := tdiv_ceil (show 0 ≤ total by omega) hp1
  rw [← hpc] at hc1
  have hpos : 1 ≤ (New page perPage total).PageCount := by
    by_contra hneg
    have hle : (New page perPage total).PageCount ≤ 0 := by omega
    have := Int.mul_le_mul_of_nonneg_right hle
      (show 0 ≤ (New page perPage total).PerPage by omega)
    omega
  rw [New_page_eq, if_pos (show total ≥ 0 by omega), if_pos hgt]
  split_ifs <;> omega

/-- Witness of C2 at `New(10, 20, 50)`. -/
theorem New_clamps_to_last_page_witness :
    ((1 : Int) ≤ 50 ∧ 50 + (New 10 20 50).PerPage - 1 ≤ maxInt
      ∧ (10 : Int) > (New 10 20 50).PageCount)
    ∧ (New 10 20 50).Page = (New 10 20 50).PageCount
    ∧ ((New 10 20 50).Page = 3 ∧ (New 10 20 50).Offset = 40) :=
  ⟨by decide, New_clamps_to_last_page 10 20 50 (by decide) (by decide) (by decide)⟩

/-- C2 fails as stated: for total `2^63 - 1` and perPage 20 the PageCount has wrapped to
a negative number, the requested page 1 exceeds it, and `New` returns Page 1, which is
not the PageCount. -/
theorem New_last_page_wraps :
    (1 : Int) ≤ 9223372036854775807 ∧ IsInt 9223372036854775807
    ∧ (1 : Int) > (New 1 20 9223372036854775807).PageCount
    ∧ (New 1 20 9223372036854775807).Page = 1
    ∧ (New 1 20 9223372036854775807).Page ≠ (New 1 20 9223372036854775807).PageCount := by
  decide

/-- C3: for every perPage and every total, of any sign, `New` called with a page below 1
returns Page 1 and Offset 0; for total 0 the PageCount is 0; `New(0, 20, 50)` has Page 1,
and `New(1, 20, 0)` has Page 1 with PageCount 0. -/
theorem New_page_below_one (page perPage total : Int) (h : page < 1) :
    ((New page perPage total).Page = 1 ∧ (New page perPage total).Offset = 0)
    ∧ (New page perPage 0).PageCount = 0
    ∧ (New 0 20 50).Page = 1
    ∧ ((New 1 20 0).Page = 1 ∧ (New 1 20 0).PageCount = 0) := by
  have hpage : (New page perPage total).Page = 1 := by
    rw [New_page_eq]
    split_ifs <;> omega
  refine ⟨⟨hpage, ?_⟩, ?_, by decide, by decide⟩
  · rw [Offset_eq_wrapInt, hpage]
    simp [wrapInt]
  · obtain ⟨hp1, hp2⟩ := New_perPage_bounds page perPage 0
    rw [New_pageCount_of_fits page perPage 0 (le_refl 0) (by unfold maxInt; omega)]
    rw [Int.tdiv_eq_ediv (by omega) (by omega)]
    exact Int.ediv_eq_zero_of_lt (by omega) (by omega)

/-- Witness of C3 at `New(0, 20, -7)` and `New(-3, 0, 12)`. -/
theorem New_page_below_one_witness :
    ((0 : Int) < 1 ∧ (-3 : Int) < 1)
    ∧ (((New 0 20 (-7)).Page = 1 ∧ (New 0 20 (-7)).Offset = 0)
      ∧ (New 0 20 0).PageCount = 0
      ∧ (New 0 20 50).Page = 1
      ∧ ((New 1 20 0).Page = 1 ∧ (New 1 20 0).PageCount = 0))
    ∧ ((New (-3) 0 12).Page = 1 ∧ (New (-3) 0 12).Offset = 0) :=
  ⟨by decide, New_page_below_one 0 20 (-7) (by decide),
    (New_page_below_one (-3) 0 12 (by decide)).1⟩

/-- C4: for every page and total, `New` returns PerPage 100 when the given perPage is
`≤ 0`, PerPage 1000 when it is `> 1000`, and the given perPage otherwise; `Limit()`
always equals that PerPage. -/
theorem New_perPage_normalised (page perPage total : Int) :
    (perPage ≤ 0 → (New page perPage total).PerPage = 100)
    ∧ (perPage > 1000 → (New page perPage total).PerPage = 1000)
    ∧ (0 < perPage ∧ perPage ≤ 1000 → (New page perPage total).PerPage = perPage)
    ∧ (New page perPage total).Limit = (New page perPage total).PerPage := by
  refine ⟨?_, ?_, ?_, rfl⟩ <;>
    · intro h
      simp only [New, DefaultPageSize, MaxPageSize]
      split_ifs <;> omega

/-- Witness of C4 at the perPage values -1, 10000 and 20. -/
theorem New_perPage_normalised_witness :
    ((-1 : Int) ≤ 0 ∧ (10000 : Int) > 1000 ∧ ((0 : Int) < 20 ∧ (20 : Int) ≤ 1000))
    ∧ (New 1 (-1) 50).PerPage = 100 ∧ (New 1 10000 50).PerPage = 1000
    ∧ (New 1 20 50).PerPage = 20 ∧ (New 1 10000 50).Limit = (New 1 10000 50).PerPage :=
  ⟨by decide,
   (New_perPage_normalised 1 (-1) 50).1 (by decide),
   (New_perPage_normalised 1 10000 50).2.1 (by decide),
   (New_perPage_normalised 1 20 50).2.2.1 (by decide),
   (New_perPage_normalised 1 10000 50).2.2.2⟩

/-- C5 (amended): for every page, every perPage and every total `< 0`, `New` returns
PageCount -1 and does not clamp Page to the page count: the returned Page is the page
passed in when that is at least 1, and 1 when it is below 1. -/
theorem New_negative_total (page perPage total : Int) (h : total < 0) :
    (New page perPage total).PageCount = -1
    ∧ (1 ≤ page → (New page perPage total).Page = page)
    ∧ (page < 1 → (New page perPage total).Page = 1) := by
  have hpc : (New page perPage total).PageCount = -1 := by
    simp only [New]
    rw [if_neg (show ¬ total ≥ 0 by omega)]
  refine ⟨hpc, ?_, ?_⟩
  · intro hp
    rw [New_page_eq, if_neg (show ¬ total ≥ 0 by omega), if_neg (show ¬ page < 1 by omega)]
  · intro hp
    rw [New_page_eq, if_neg (show ¬ total ≥ 0 by omega), if_pos hp]

/-- Witness of C5 at `New(5, 20, -1)` and `New(0, 20, -1)`. -/
theorem New_negative_total_witness :
    ((-1 : Int) < 0 ∧ (1 : Int) ≤ 5 ∧ (0 : Int) < 1)
    ∧ (New 5 20 (-1)).PageCount = -1 ∧ (New 5 20 (-1)).Page = 5
    ∧ (New 0 20 (-1)).Page = 1 :=
  ⟨by decide, (New_negative_total 5 20 (-1) (by decide)).1,
   (New_negative_total 5 20 (-1) (by decide)).2.1 (by decide),
   (New_negative_total 0 20 (-1) (by decide)).2.2 (by decide)⟩

/-- C5 fails as stated: `New(0, 20, -1)` has a negative total and returns PageCount -1,
but its Page is 1 and not the page 0 that was passed in. -/
theorem New_negative_total_clamps_low_page :
    (-1 : Int) < 0 ∧ (New 0 20 (-1)).PageCount = -1 ∧ (New 0 20 (-1)).Page = 1
    ∧ (New 0 20 (-1)).Page ≠ 0 := by
  decide

/-- C6 (amended): for every Pages value `Limit()` returns PerPage and `Offset()` returns
the two's complement wrap-around of `(Page - 1) * PerPage`, which is `(Page - 1) * PerPage`
itself whenever that product is an `int`; for every result of `New` with total `≥ 0` the
product is an `int`, so there the pair (Offset, Limit) is exactly the SQL OFFSET and
LIMIT of the clamped page. -/
theorem Offset_Limit_exact :
    (∀ p : Pages, p.Limit = p.PerPage ∧ p.Offset = wrapInt ((p.Page - 1) * p.PerPage))
    ∧ (∀ p : Pages, IsInt ((p.Page - 1) * p.PerPage) →
        p.Offset = (p.Page - 1) * p.PerPage)
    ∧ (∀ page perPage total : Int, 0 ≤ total →
        (New page perPage total).Offset
            = ((New page perPage total).Page - 1) * (New page perPage total).PerPage
          ∧ (New page perPage total).Limit = (New page perPage total).PerPage) := by
  refine ⟨fun p => ⟨rfl, Offset_eq_wrapInt p⟩, ?_, ?_⟩
  · intro p hfit
    rw [Offset_eq_wrapInt, wrapInt_eq_self hfit]
  · intro page perPage total h0
    exact ⟨by rw [Offset_eq_wrapInt, wrapInt_eq_self (New_offset_fits page perPage total h0)],
      rfl⟩

/-- Witness of C6 at the Pages value of page 3 with 20 rows per page, and at
`New(10, 20, 50)`. -/
theorem Offset_Limit_exact_witness :
    (IsInt (((3 : Int) - 1) * 20) ∧ (0 : Int) ≤ 50)
    ∧ (Pages.mk 3 20 3 50 none).Offset = (3 - 1) * 20
    ∧ ((New 10 20 50).Offset = ((New 10 20 50).Page - 1) * (New 10 20 50).PerPage
      ∧ (New 10 20 50).Limit = (New 10 20 50).PerPage) :=
  ⟨by decide, Offset_Limit_exact.2.1 (Pages.mk 3 20 3 50 none) (by decide),
    Offset_Limit_exact.2.2 10 20 50 (by decide)⟩

/-- C6 fails as stated: `New(2^63 - 1, 1000, -1)` keeps Page `2^63 - 1` with PerPage
1000, and its `Offset()` is -2000, not `(Page - 1) * PerPage`. -/
theorem Offset_wraps :
    IsInt 9223372036854775807 ∧ IsInt 1000 ∧ IsInt (-1)
    ∧ (New 9223372036854775807 1000 (-1)).Page = 9223372036854775807
    ∧ (New 9223372036854775807 1000 (-1)).PerPage = 1000
    ∧ (New 9223372036854775807 1000 (-1)).Offset = -2000
    ∧ (New 9223372036854775807 1000 (-1)).Offset
        ≠ ((New 9223372036854775807 1000 (-1)).Page - 1)
            * (New 9223372036854775807 1000 (-1)).PerPage := by
  decide

/-- C7: for every request and count, `NewFromRequest(req, count)` equals `New(p, n, count)`
where `p` is the integer value of the query parameter `page`, or 1 when it is absent,
empty or not a decimal integer, and `n` is the integer value of `per_page`, or 100 in
those cases; `parseInt` returns the value of a text that is a decimal integer (an
optional sign and ASCII digits, denoting an `int`) and the supplied default for every
other text.  The request `page=2&per_page=30` with count 90 gives Page 2, PerPage 30,
PageCount 3 and Offset 30, and `parseInt` maps `"42"`, `""` and `"abc"` with default 10
to 42, 10 and 10. -/
theorem NewFromRequest_eq_New (req : http.Request) (count : Int) :
    NewFromRequest req count
      = New (spec.queryInt (req.Query "page") 1) (spec.queryInt (req.Query "per_page") 100)
          count
    ∧ (∀ (value : String) (defaultValue : Int),
        parseInt value defaultValue
          = (match spec.decimalInteger value with
             | none => defaultValue
             | some n => if IsInt n then n else defaultValue))
    ∧ ((NewFromRequest http.sampleRequest 90).Page = 2
      ∧ (NewFromRequest http.sampleRequest 90).PerPage = 30
      ∧ (NewFromRequest http.sampleRequest 90).PageCount = 3
      ∧ (NewFromRequest http.sampleRequest 90).Offset = 30)
    ∧ (parseInt "42" 10 = 42 ∧ parseInt "" 10 = 10 ∧ parseInt "abc" 10 = 10) := by
  refine ⟨NewFromRequest_unfold req count, parseInt_eq_spec, ?_, ?_⟩
  · decide
  · decide

/-! ## Claims on relationship assignment -/

/-- The condition `err != nil || !exists` of the services holds when the existence
check reported an error or answered false. -/
theorem check_failed {α : Type} (r : (Bool × Option Error) × α)
    (h : r.1.2 ≠ none ∨ r.1.1 = false) : (r.1.2.isSome || !r.1.1) = true := by
  rcases r with ⟨⟨ex, err⟩, w1⟩
  rcases h with h | h
  · cases err with
    | none => exact absurd rfl h
    | some e => rfl
  · simp only [] at h
    subst h
    simp

/-- The condition `err != nil || !exists` of the services fails when the existence
check answered true without an error. -/
theorem check_passed {α : Type} (r : (Bool × Option Error) × α)
    (h : r.1.2 = none ∧ r.1.1 = true) : (r.1.2.isSome || !r.1.1) = false := by
  rcases r with ⟨⟨ex, err⟩, w1⟩
  obtain ⟨h1, h2⟩ := h
  simp only [] at h1 h2
  subst h1 h2
  rfl

/-- C8: for every courseId and teacherId, if the course repository's `ExistsById(courseId)`
returns false or returns an error, `SetTeacherToCourse` returns a nil response and an
error whose message is exactly "course not found"; the world it leaves is the one the
existence check left, whatever the teacher repository and the gorm handle are, so the
teacher repository is not consulted and neither the `teacher_id` update nor any other
write is executed. -/
theorem SetTeacherToCourse_course_not_found {σ : Type} (s : course.service σ)
    (DB : gorm.DB σ) (courseId teacherId : Nat) (w : σ)
    (h : (s.courseRepository.ExistsById courseId w).1.2 ≠ none
          ∨ (s.courseRepository.ExistsById courseId w).1.1 = false) :
    s.SetTeacherToCourse DB courseId teacherId w
      = (.returned (none, some (.New "course not found")),
          (s.courseRepository.ExistsById courseId w).2)
    ∧ (Error.New "course not found").Error = "course not found" := by
  refine ⟨?_, rfl⟩
  have hc := check_failed _ h
  unfold course.service.SetTeacherToCourse
  simp only []
  rw [if_pos hc]

/-- Witness of C8 on the empty recording store: the only call recorded is the course
existence check, and no `teacher_id` was written; the same holds on the store whose
connection is down, where the check returns an error. -/
theorem SetTeacherToCourse_course_not_found_witness :
    (store.courseService.courseRepository.ExistsById 1 store.empty).1.1 = false
    ∧ (store.courseService.SetTeacherToCourse store.DB 1 10 store.empty
        = (.returned (none, some (.New "course not found")),
            (store.courseService.courseRepository.ExistsById 1 store.empty).2)
      ∧ (Error.New "course not found").Error = "course not found")
    ∧ (store.courseService.SetTeacherToCourse store.DB 1 10 store.empty).2.calls
        = [.CourseExistsById 1]
    ∧ (store.courseService.SetTeacherToCourse store.DB 1 10 store.empty).2.teacherOf = []
    ∧ ((store.courseService.courseRepository.ExistsById 1 store.offline).1.2 ≠ none
      ∧ (store.courseService.SetTeacherToCourse store.DB 1 2 store.offline).1
          = .returned (none, some (.New "course not found"))
      ∧ (store.courseService.SetTeacherToCourse store.DB 1 2 store.offline).2.calls
          = [.CourseExistsById 1]) :=
  ⟨rfl,
    SetTeacherToCourse_course_not_found store.courseService store.DB 1 10 store.empty
      (Or.inr rfl),
    rfl, rfl, (fun h => nomatch h), rfl, rfl⟩

/-- C9: for every courseId and teacherId, if the course exists but the teacher
repository's `ExistsById(teacherId)` returns false or returns an error,
`SetTeacherToCourse` returns a nil response and an error whose message is exactly
"teacher not found"; the world it leaves is the one the two existence checks left,
whatever the gorm handle is, so the `teacher_id` of the course row is not modified. -/
theorem SetTeacherToCourse_teacher_not_found {σ : Type} (s : course.service σ)
    (DB : gorm.DB σ) (courseId teacherId : Nat) (w : σ)
    (hcourse : (s.courseRepository.ExistsById courseId w).1.2 = none
          ∧ (s.courseRepository.ExistsById courseId w).1.1 = true)
    (hteacher :
      (s.teacherRepository.ExistsById teacherId
          (s.courseRepository.ExistsById courseId w).2).1.2 ≠ none
      ∨ (s.teacherRepository.ExistsById teacherId
          (s.courseRepository.ExistsById courseId w).2).1.1 = false) :
    s.SetTeacherToCourse DB courseId teacherId w
      = (.returned (none, some (.New "teacher not found")),
          (s.teacherRepository.ExistsById teacherId
            (s.courseRepository.ExistsById courseId w).2).2)
    ∧ (Error.New "teacher not found").Error = "teacher not found" := by
  refine ⟨?_, rfl⟩
  have hc1 := check_passed _ hcourse
  have hc2 := check_failed _ hteacher
  unfold course.service.SetTeacherToCourse
  simp only []
  rw [if_neg (by rw [hc1]; exact Bool.false_ne_true), if_pos hc2]

/-- Witness of C9 on the recording store that holds course 1 and no teacher: the two
existence checks are the only calls recorded, and no `teacher_id` was written. -/
theorem SetTeacherToCourse_teacher_not_found_witness :
    ((store.courseService.courseRepository.ExistsById 1 store.sample).1.2 = none
      ∧ (store.courseService.courseRepository.ExistsById 1 store.sample).1.1 = true)
    ∧ (store.courseService.SetTeacherToCourse store.DB 1 2 store.sample
        = (.returned (none, some (.New "teacher not found")),
            (store.courseService.teacherRepository.ExistsById 2
              (store.courseService.courseRepository.ExistsById 1 store.sample).2).2)
      ∧ (Error.New "teacher not found").Error = "teacher not found")
    ∧ (store.courseService.SetTeacherToCourse store.DB 1 2 store.sample).2.calls
        = [.CourseExistsById 1, .TeacherExistsById 2]
    ∧ (store.courseService.SetTeacherToCourse store.DB 1 2 store.sample).2.teacherOf
        = store.sample.teacherOf :=
  ⟨⟨rfl, rfl⟩,
    SetTeacherToCourse_teacher_not_found store.courseService store.DB 1 2 store.sample
      ⟨rfl, rfl⟩ (Or.inr rfl),
    rfl, rfl⟩

/-- C10: for every studentId and courseId, `AddCourseToStudent` returns a nil response
and the error "student not found" when the student does not exist, also when the course
is missing too: the student is checked first and the world left is the one that check
left, so the course repository is not consulted; and it returns a nil response and the
error "course not found" when the student exists but the course does not, leaving the
world the two existence checks left.  In both cases no junction row is appended. -/
theorem AddCourseToStudent_not_found {σ : Type} (s : student.service σ)
    (DB : gorm.DB σ) (studentId courseId : Nat) (w : σ) :
    (((s.studentRepository.ExistsById studentId w).1.2 ≠ none
        ∨ (s.studentRepository.ExistsById studentId w).1.1 = false) →
      s.AddCourseToStudent DB studentId courseId w
        = (.returned (none, some (.New "student not found")),
            (s.studentRepository.ExistsById studentId w).2))
    ∧ (((s.studentRepository.ExistsById studentId w).1.2 = none
          ∧ (s.studentRepository.ExistsById studentId w).1.1 = true) →
        ((s.courseRepository.ExistsById courseId
            (s.studentRepository.ExistsById studentId w).2).1.2 ≠ none
          ∨ (s.courseRepository.ExistsById courseId
            (s.studentRepository.ExistsById studentId w).2).1.1 = false) →
      s.AddCourseToStudent DB studentId courseId w
        = (.returned (none, some (.New "course not found")),
            (s.courseRepository.ExistsById courseId
              (s.studentRepository.ExistsById studentId w).2).2))
    ∧ ((Error.New "student not found").Error = "student not found"
      ∧ (Error.New "course not found").Error = "course not found") := by
  refine ⟨?_, ?_, rfl, rfl⟩
  · intro h
    have hc := check_failed _ h
    unfold student.service.AddCourseToStudent
    simp only []
    rw [if_pos hc]
  · intro hstudent hcourse
    have hc1 := check_passed _ hstudent
    have hc2 := check_failed _ hcourse
    unfold student.service.AddCourseToStudent
    simp only []
    rw [if_neg (by rw [hc1]; exact Bool.false_ne_true), if_pos hc2]

/-- Witness of C10 on the recording stores: on the empty store only the student check
is recorded, on the store with student 1 and without course 10 the two checks are, and
the junction table stays empty in both. -/
theorem AddCourseToStudent_not_found_witness :
    ((store.studentService.studentRepository.ExistsById 1 store.empty).1.1 = false
      ∧ store.studentService.AddCourseToStudent store.DB 1 10 store.empty
        = (.returned (none, some (.New "student not found")),
            (store.studentService.studentRepository.ExistsById 1 store.empty).2)
      ∧ (store.studentService.AddCourseToStudent store.DB 1 10 store.empty).2.calls
        = [.StudentExistsById 1]
      ∧ (store.studentService.AddCourseToStudent store.DB 1 10 store.empty).2.courseStudent
        = [])
    ∧ ((store.studentService.studentRepository.ExistsById 1 store.sample).1.1 = true
      ∧ store.studentService.AddCourseToStudent store.DB 1 10 store.sample
        = (.returned (none, some (.New "course not found")),
            (store.studentService.courseRepository.ExistsById 10
              (store.studentService.studentRepository.ExistsById 1 store.sample).2).2)
      ∧ (store.studentService.AddCourseToStudent store.DB 1 10 store.sample).2.calls
        = [.StudentExistsById 1, .CourseExistsById 10]
      ∧ (store.studentService.AddCourseToStudent store.DB 1 10 store.sample).2.courseStudent
        = []) :=
  ⟨⟨rfl,
    (AddCourseToStudent_not_found store.studentService store.DB 1 10 store.empty).1
      (Or.inr rfl),
    rfl, rfl⟩,
   ⟨rfl,
    (AddCourseToStudent_not_found store.studentService store.DB 1 10 store.sample).2.1
      ⟨rfl, rfl⟩ (Or.inr rfl),
    rfl, rfl⟩⟩

/-! ## Lemmas on `strconv.ParseUint` -/

theorem parseUintLoopTo_ok (maxVal : Nat) (cs : List Char) : ∀ n : Nat,
    maxVal ≤ strconv.maxUint64 →
    (∀ c ∈ cs, c.isDigit = true) →
    n * 10 ^ cs.length + Nat.ofDigits 10 (cs.reverse.map spec.digitValue) ≤ maxVal →
    strconv.parseUintLoopTo maxVal cs n
      = .ok (n * 10 ^ cs.length + Nat.ofDigits 10 (cs.reverse.map spec.digitValue)) := by
  induction cs with
  | nil => intro n _ _ _; simp [strconv.parseUintLoopTo]
  | cons c cs ih =>
    intro n hmax hall hle
    have hc : 48 ≤ c.toNat ∧ c.toNat ≤ 57 := (isDigit_iff c).1 (hall c (List.mem_cons_self _ _))
    have hcs : ∀ x ∈ cs, x.isDigit = true := fun x hx => hall x (List.mem_cons_of_mem _ hx)
    rw [loop_step_value] at hle ⊢
    have hpow : 1 ≤ 10 ^ cs.length := Nat.one_le_pow _ _ (by norm_num)
    have hn1 : n * 10 + (c.toNat - 48) ≤ maxVal := by
      calc n * 10 + (c.toNat - 48) = (n * 10 + (c.toNat - 48)) * 1 := by ring
        _ ≤ (n * 10 + (c.toNat - 48)) * 10 ^ cs.length := Nat.mul_le_mul_left _ hpow
        _ ≤ _ := Nat.le_trans (Nat.le_add_right _ _) hle
    have hcut : ¬ n ≥ strconv.maxUint64 / 10 + 1 := by
      unfold strconv.maxUint64 at hmax ⊢
      omega
    rw [strconv.parseUintLoopTo, if_pos hc, if_neg hcut]
    simp only []
    rw [if_neg (by omega)]
    exact ih _ hmax hcs hle

theorem parseUintLoopTo_error (maxVal : Nat) (cs : List Char) : ∀ n : Nat, n ≤ maxVal →
    ¬ ((∀ c ∈ cs, c.isDigit = true) ∧
      n * 10 ^ cs.length + Nat.ofDigits 10 (cs.reverse.map spec.digitValue) ≤ maxVal) →
    ∃ e, strconv.parseUintLoopTo maxVal cs n = .error e := by
  induction cs with
  | nil =>
    intro n hn h
    exfalso; apply h
    simpa using hn
  | cons c cs ih =>
    intro n hn h
    rw [strconv.parseUintLoopTo]
    by_cases hc : 48 ≤ c.toNat ∧ c.toNat ≤ 57
    · rw [if_pos hc]
      by_cases hcut : n ≥ strconv.maxUint64 / 10 + 1
      · rw [if_pos hcut]; exact ⟨_, rfl⟩
      · rw [if_neg hcut]
        simp only []
        by_cases hn1 : n * 10 + (c.toNat - 48) > strconv.maxUint64
            ∨ n * 10 + (c.toNat - 48) > maxVal
        · rw [if_pos hn1]; exact ⟨_, rfl⟩
        · rw [if_neg hn1]
          apply ih _ (by omega)
          intro hcontra
          apply h
          refine ⟨?_, ?_⟩
          · intro x hx
            rcases List.mem_cons.1 hx with rfl | hx
            · exact (isDigit_iff _).2 hc
            · exact hcontra.1 x hx
          · rw [loop_step_value]
            exact hcontra.2
    · rw [if_neg hc]; exact ⟨_, rfl⟩

/-- The function `strconv.ParseUint(s, 10, 32)` returns the value of a text that is a
base-10 unsigned integer in `0..2^32-1`, and an error for every other text. -/
theorem ParseUintBase10_32 (s : String) :
    (∀ n, spec.uint32Value s = some n → strconv.ParseUintBase10 s 32 = (n, none))
    ∧ (spec.uint32Value s = none →
        ∃ v e, strconv.ParseUintBase10 s 32 = (v, some e)) := by
  unfold spec.uint32Value spec.decimalUnsigned strconv.ParseUintBase10
  have h32 : (2 : Nat) ^ 32 - 1 = 4294967295 := by norm_num
  rw [h32]
  rcases hs : s.data with _ | ⟨c, rest⟩
  · simp
  · simp only []
    by_cases hall : ∀ d ∈ c :: rest, d.isDigit = true
    · rw [if_pos ⟨List.cons_ne_nil _ _, hall⟩]
      simp only []
      by_cases hle : Nat.ofDigits 10 ((c :: rest).reverse.map spec.digitValue) ≤ 4294967295
      · rw [if_pos hle]
        have hok := parseUintLoopTo_ok 4294967295 (c :: rest) 0
          (by unfold strconv.maxUint64; omega) hall (by simpa using hle)
        simp only [Nat.zero_mul, Nat.zero_add] at hok
        rw [hok]
        constructor
        · intro n hn
          simp only [Option.some.injEq] at hn
          rw [hn]
        · intro h; cases h
      · rw [if_neg hle]
        obtain ⟨e, he⟩ := parseUintLoopTo_error 4294967295 (c :: rest) 0 (by omega)
          (by intro hc; apply hle; simpa using hc.2)
        rw [he]
        constructor
        · intro n hn; cases hn
        · intro _
          cases e
          · exact ⟨_, _, rfl⟩
          · exact ⟨_, _, rfl⟩
    · rw [if_neg (fun h => hall h.2)]
      obtain ⟨e, he⟩ := parseUintLoopTo_error 4294967295 (c :: rest) 0 (by omega)
        (by intro hc; exact hall hc.1)
      rw [he]
      constructor
      · intro n hn; cases hn
      · intro _
        cases e
        · exact ⟨_, _, rfl⟩
        · exact ⟨_, _, rfl⟩

/-! ## Lemmas on the slices and summaries the services build -/

theorem makeAll_getD {α β : Type} (xs : Option (List α)) (f : α → β) :
    (makeAll xs f).getD [] = (xs.getD []).map f := rfl

theorem appendAll_getD {α β : Type} (xs : Option (List α)) (f : α → β) :
    (appendAll xs f).getD [] = (xs.getD []).map f := by
  unfold appendAll
  rcases xs.getD [] with _ | ⟨x, rest⟩ <;> rfl

theorem teacherResp_summary (t : Option entity.Teacher) :
    (teacherResp t).map (fun r => (r.ID, r.Name)) = t.map (fun e => (e.ID, e.Name))
    ∧ ∀ r, teacherResp t = some r → r.Courses = none ∧ r.Departments = none := by
  cases t with
  | none => exact ⟨rfl, fun r h => by cases h⟩
  | some e =>
    refine ⟨rfl, fun r h => ?_⟩
    simp only [teacherResp, Option.some.injEq] at h
    subst h
    exact ⟨rfl, rfl⟩

/-- The course service writes the teacher summary inline; it is `teacherResp`. -/
theorem inline_teacherResp (t : Option entity.Teacher) :
    (match t with
      | none => none
      | some t => some (response.TeacherResponse.mk t.ID t.Name none none))
      = teacherResp t := by
  cases t <;> rfl

/-! ## Claims on the services -/

/-- C11: for every departmentId and teacherId, `DepartmentSetTeacher` returns a nil
response and the error "department not found" when the department's existence check
answers false or fails, and the world left is the one that check left, so the teacher
repository is not consulted; it returns a nil response and the error "teacher not
found" when the department exists but the teacher's existence check answers false or
fails, leaving the world the two checks left.  In both cases the statement that updates
`head_of_department_id` is not executed. -/
theorem DepartmentSetTeacher_not_found {σ : Type} (s : department.service σ)
    (DB : gorm.DB σ) (departmentId teacherId : Nat) (w : σ) :
    (((s.departmentRepository.ExistsById departmentId w).1.2 ≠ none
        ∨ (s.departmentRepository.ExistsById departmentId w).1.1 = false) →
      s.DepartmentSetTeacher DB departmentId teacherId w
        = (.returned (none, some (.New "department not found")),
            (s.departmentRepository.ExistsById departmentId w).2))
    ∧ (((s.departmentRepository.ExistsById departmentId w).1.2 = none
          ∧ (s.departmentRepository.ExistsById departmentId w).1.1 = true) →
        ((s.teacherRepository.ExistsById teacherId
            (s.departmentRepository.ExistsById departmentId w).2).1.2 ≠ none
          ∨ (s.teacherRepository.ExistsById teacherId
            (s.departmentRepository.ExistsById departmentId w).2).1.1 = false) →
      s.DepartmentSetTeacher DB departmentId teacherId w
        = (.returned (none, some (.New "teacher not found")),
            (s.teacherRepository.ExistsById teacherId
              (s.departmentRepository.ExistsById departmentId w).2).2))
    ∧ ((Error.New "department not found").Error = "department not found"
      ∧ (Error.New "teacher not found").Error = "teacher not found") := by
  refine ⟨?_, ?_, rfl, rfl⟩
  · intro h
    have hc := check_failed _ h
    unfold department.service.DepartmentSetTeacher
    simp only []
    rw [if_pos hc]
  · intro hdept hteacher
    have hc1 := check_passed _ hdept
    have hc2 := check_failed _ hteacher
    unfold department.service.DepartmentSetTeacher
    simp only []
    rw [if_neg (by rw [hc1]; exact Bool.false_ne_true), if_pos hc2]

/-- Witness of C11 on the recording stores: on the empty store only the department
check is recorded, on the store with department 1 and no teacher the two checks are,
and no `head_of_department_id` is written in either. -/
theorem DepartmentSetTeacher_not_found_witness :
    ((store.departmentService.departmentRepository.ExistsById 1 store.empty).1.1 = false
      ∧ store.departmentService.DepartmentSetTeacher store.DB 1 2 store.empty
        = (.returned (none, some (.New "department not found")),
            (store.departmentService.departmentRepository.ExistsById 1 store.empty).2)
      ∧ (store.departmentService.DepartmentSetTeacher store.DB 1 2 store.empty).2.calls
        = [.DepartmentExistsById 1]
      ∧ (store.departmentService.DepartmentSetTeacher store.DB 1 2 store.empty).2.headOf
        = [])
    ∧ ((store.departmentService.departmentRepository.ExistsById 1 store.faculty).1.1 = true
      ∧ store.departmentService.DepartmentSetTeacher store.DB 1 2 store.faculty
        = (.returned (none, some (.New "teacher not found")),
            (store.departmentService.teacherRepository.ExistsById 2
              (store.departmentService.departmentRepository.ExistsById 1
                store.faculty).2).2)
      ∧ (store.departmentService.DepartmentSetTeacher store.DB 1 2 store.faculty).2.calls
        = [.DepartmentExistsById 1, .TeacherExistsById 2]
      ∧ (store.departmentService.DepartmentSetTeacher store.DB 1 2 store.faculty).2.headOf
        = []) :=
  ⟨⟨rfl,
    (DepartmentSetTeacher_not_found store.departmentService store.DB 1 2 store.empty).1
      (Or.inr rfl),
    rfl, rfl⟩,
   ⟨rfl,
    (DepartmentSetTeacher_not_found store.departmentService store.DB 1 2 store.faculty).2.1
      ⟨rfl, rfl⟩ (Or.inr rfl),
    rfl, rfl⟩⟩

/-- C12: for every creation request and every repository `Save` that succeeds on it,
`CreateStudent`, `CreateTeacher`, `CreateCourse` and `CreateDepartment` make their one
repository call, `Save`, on the entity that has the request's scalar fields, ID 0 and no
foreign key or relation set, and return a response whose ID, name, email or title are
those of the saved entity, with no relation set; hence the response carries the
request's fields when `Save` only assigns the ID. -/
theorem Create_maps_saved_entity {σ : Type} :
    (∀ (s : student.service σ) (input : request.StudentRequest) (w w1 : σ)
        (saved : entity.Student),
      s.studentRepository.Save (.mk 0 input.Name input.Email none) w
          = ((some saved, none), w1) →
      s.CreateStudent input w
          = (.returned (some (.mk saved.ID saved.Name saved.Email none), none), w1)
        ∧ (saved.Name = input.Name → saved.Email = input.Email →
            s.CreateStudent input w
              = (.returned (some (.mk saved.ID input.Name input.Email none), none), w1)))
    ∧ (∀ (s : teacher.service σ) (input : request.TeacherRequest) (w w1 : σ)
        (saved : entity.Teacher),
      s.repo.Save (.mk 0 input.Name none none) w = ((some saved, none), w1) →
      s.CreateTeacher input w
          = (.returned (some (.mk saved.ID saved.Name none none), none), w1)
        ∧ (saved.Name = input.Name →
            s.CreateTeacher input w
              = (.returned (some (.mk saved.ID input.Name none none), none), w1)))
    ∧ (∀ (s : course.service σ) (input : request.CourseRequest) (w w1 : σ)
        (saved : entity.Course),
      s.courseRepository.Save (.mk 0 input.Title none none none) w
          = ((some saved, none), w1) →
      s.CreateCourse input w
          = (.returned (some (.mk saved.ID saved.Title none none), none), w1)
        ∧ (saved.Title = input.Title →
            s.CreateCourse input w
              = (.returned (some (.mk saved.ID input.Title none none), none), w1)))
    ∧ (∀ (s : department.service σ) (input : request.DepartmentRequest) (w w1 : σ)
        (saved : entity.Department),
      s.departmentRepository.Save (.mk 0 input.Name none none) w
          = ((some saved, none), w1) →
      s.CreateDepartment input w
          = (.returned (some (.mk saved.ID saved.Name none), none), w1)
        ∧ (saved.Name = input.Name →
            s.CreateDepartment input w
              = (.returned (some (.mk saved.ID input.Name none), none), w1))) := by
  refine ⟨?_, ?_, ?_, ?_⟩
  · intro s input w w1 saved h
    have h1 : s.CreateStudent input w
        = (.returned (some (.mk saved.ID saved.Name saved.Email none), none), w1) := by
      unfold student.service.CreateStudent
      rw [h]
    exact ⟨h1, fun hn he => by rw [h1, hn, he]⟩
  · intro s input w w1 saved h
    have h1 : s.CreateTeacher input w
        = (.returned (some (.mk saved.ID saved.Name none none), none), w1) := by
      unfold teacher.service.CreateTeacher
      rw [h]
    exact ⟨h1, fun hn => by rw [h1, hn]⟩
  · intro s input w w1 saved h
    have h1 : s.CreateCourse input w
        = (.returned (some (.mk saved.ID saved.Title none none), none), w1) := by
      unfold course.service.CreateCourse
      rw [h]
    exact ⟨h1, fun hn => by rw [h1, hn]⟩
  · intro s input w w1 saved h
    have h1 : s.CreateDepartment input w
        = (.returned (some (.mk saved.ID saved.Name none), none), w1) := by
      unfold department.service.CreateDepartment
      rw [h]
    exact ⟨h1, fun hn => by rw [h1, hn]⟩

/-- Witness of C12 on the repositories that record what `Save` receives: the student,
teacher, course and department passed to `Save` have ID 0, the request's fields and no
relation, and the responses carry the assigned ID 1 and the request's fields. -/
theorem Create_maps_saved_entity_witness :
    (stub.savingStudentRepository.Save (.mk 0 "John" "john@example.com" none) stub.nothing
        = ((some (.mk 1 "John" "john@example.com" none), none),
            { stub.nothing with students := [.mk 0 "John" "john@example.com" none] })
      ∧ student.service.CreateStudent
          { studentRepository := stub.savingStudentRepository,
            courseRepository := stub.savingCourseRepository }
          { Name := "John", Email := "john@example.com" } stub.nothing
        = (.returned (some (.mk 1 "John" "john@example.com" none), none),
            { stub.nothing with students := [.mk 0 "John" "john@example.com" none] }))
    ∧ (teacher.service.CreateTeacher { repo := stub.savingTeacherRepository }
          { Name := "Dr. Smith" } stub.nothing
        = (.returned (some (.mk 1 "Dr. Smith" none none), none),
            { stub.nothing with teachers := [.mk 0 "Dr. Smith" none none] }))
    ∧ (course.service.CreateCourse
          { courseRepository := stub.savingCourseRepository,
            teacherRepository := stub.savingTeacherRepository }
          { Title := "Math" } stub.nothing
        = (.returned (some (.mk 1 "Math" none none), none),
            { stub.nothing with courses := [.mk 0 "Math" none none none] }))
    ∧ (department.service.CreateDepartment
          { departmentRepository := stub.savingDepartmentRepository,
            teacherRepository := stub.savingTeacherRepository }
          { Name := "Physics" } stub.nothing
        = (.returned (some (.mk 1 "Physics" none), none),
            { stub.nothing with departments := [.mk 0 "Physics" none none] })) :=
  ⟨⟨rfl,
    ((Create_maps_saved_entity.1
      { studentRepository := stub.savingStudentRepository,
        courseRepository := stub.savingCourseRepository }
      { Name := "John", Email := "john@example.com" } stub.nothing _ _ rfl).2 rfl rfl)⟩,
   ((Create_maps_saved_entity.2.1 { repo := stub.savingTeacherRepository }
      { Name := "Dr. Smith" } stub.nothing _ _ rfl).2 rfl),
   ((Create_maps_saved_entity.2.2.1
      { courseRepository := stub.savingCourseRepository,
        teacherRepository := stub.savingTeacherRepository }
      { Title := "Math" } stub.nothing _ _ rfl).2 rfl),
   ((Create_maps_saved_entity.2.2.2
      { departmentRepository := stub.savingDepartmentRepository,
        teacherRepository := stub.savingTeacherRepository }
      { Name := "Physics" } stub.nothing _ _ rfl).2 rfl)⟩

/-- C13: for each of the four services and each of Create, Update, FindById and FindAll,
whenever the repository call returns an error `e`, whatever comes with it, the service
returns a nil response (a nil slice for FindAll) together with exactly `e`, not wrapped,
and makes no further call; `DeleteXById` and `Count` return exactly what the repository
returns. -/
theorem service_returns_repository_error {σ : Type} :
    (∀ (s : student.service σ) (w : σ),
      (∀ input x e w1, s.studentRepository.Save (.mk 0 input.Name input.Email none) w
          = ((x, some e), w1) →
        s.CreateStudent input w = (.returned (none, some e), w1))
      ∧ (∀ id input x e w1,
        s.studentRepository.Update (.mk id input.Name input.Email none) w
          = ((x, some e), w1) →
        s.UpdateStudent id input w = (.returned (none, some e), w1))
      ∧ (∀ id x e w1, s.studentRepository.FindById id w = ((x, some e), w1) →
        s.FindStudentById id w = (.returned (none, some e), w1))
      ∧ (∀ page limit x e w1, s.studentRepository.FindAll page limit w = ((x, some e), w1) →
        s.FindAllStudent page limit w = (.returned (none, some e), w1))
      ∧ (∀ id, s.DeleteStudentById id w
          = (.returned (s.studentRepository.DeleteById id w).1,
              (s.studentRepository.DeleteById id w).2))
      ∧ s.Count w = (.returned (s.studentRepository.Count w).1,
          (s.studentRepository.Count w).2))
    ∧ (∀ (s : course.service σ) (w : σ),
      (∀ input x e w1, s.courseRepository.Save (.mk 0 input.Title none none none) w
          = ((x, some e), w1) →
        s.CreateCourse input w = (.returned (none, some e), w1))
      ∧ (∀ id input x e w1,
        s.courseRepository.Update (.mk id input.Title none none none) w
          = ((x, some e), w1) →
        s.UpdateCourse id input w = (.returned (none, some e), w1))
      ∧ (∀ id x e w1, s.courseRepository.FindById id w = ((x, some e), w1) →
        s.FindCourseById id w = (.returned (none, some e), w1))
      ∧ (∀ page limit x e w1, s.courseRepository.FindAll page limit w = ((x, some e), w1) →
        s.FindAllCourse page limit w = (.returned (none, some e), w1))
      ∧ (∀ id, s.DeleteCourseById id w
          = (.returned (s.courseRepository.DeleteById id w).1,
              (s.courseRepository.DeleteById id w).2))
      ∧ s.Count w = (.returned (s.courseRepository.Count w).1,
          (s.courseRepository.Count w).2))
    ∧ (∀ (s : teacher.service σ) (w : σ),
      (∀ input x e w1, s.repo.Save (.mk 0 input.Name none none) w = ((x, some e), w1) →
        s.CreateTeacher input w = (.returned (none, some e), w1))
      ∧ (∀ id input x e w1, s.repo.Update (.mk id input.Name none none) w
          = ((x, some e), w1) →
        s.UpdateTeacher id input w = (.returned (none, some e), w1))
      ∧ (∀ id x e w1, s.repo.FindById id w = ((x, some e), w1) →
        s.FindTeacherById id w = (.returned (none, some e), w1))
      ∧ (∀ page limit x e w1, s.repo.FindAll page limit w = ((x, some e), w1) →
        s.FindAllTeachers page limit w = (.returned (none, some e), w1))
      ∧ (∀ id, s.DeleteTeacherById id w
          = (.returned (s.repo.DeleteById id w).1, (s.repo.DeleteById id w).2))
      ∧ s.Count w = (.returned (s.repo.Count w).1, (s.repo.Count w).2))
    ∧ (∀ (s : department.service σ) (w : σ),
      (∀ input x e w1, s.departmentRepository.Save (.mk 0 input.Name none none) w
          = ((x, some e), w1) →
        s.CreateDepartment input w = (.returned (none, some e), w1))
      ∧ (∀ id input x e w1, s.departmentRepository.Update (.mk id input.Name none none) w
          = ((x, some e), w1) →
        s.UpdateDepartment id input w = (.returned (none, some e), w1))
      ∧ (∀ id x e w1, s.departmentRepository.FindById id w = ((x, some e), w1) →
        s.FindDepartmentById id w = (.returned (none, some e), w1))
      ∧ (∀ page limit x e w1,
        s.departmentRepository.FindAll page limit w = ((x, some e), w1) →
        s.FindAllDepartments page limit w = (.returned (none, some e), w1))
      ∧ (∀ id, s.DeleteDepartmentById id w
          = (.returned (s.departmentRepository.DeleteById id w).1,
              (s.departmentRepository.DeleteById id w).2))
      ∧ s.Count w = (.returned (s.departmentRepository.Count w).1,
          (s.departmentRepository.Count w).2)) := by
  refine ⟨fun s w => ⟨?_, ?_, ?_, ?_, fun _ => rfl, rfl⟩,
    fun s w => ⟨?_, ?_, ?_, ?_, fun _ => rfl, rfl⟩,
    fun s w => ⟨?_, ?_, ?_, ?_, fun _ => rfl, rfl⟩,
    fun s w => ⟨?_, ?_, ?_, ?_, fun _ => rfl, rfl⟩⟩
  · intro input x e w1 h; unfold student.service.CreateStudent; rw [h]; cases x <;> rfl
  · intro id input x e w1 h; unfold student.service.UpdateStudent; simp only []; rw [h]; cases x <;> rfl
  · intro id x e w1 h; unfold student.service.FindStudentById; rw [h]; cases x <;> rfl
  · intro page limit x e w1 h; unfold student.service.FindAllStudent; rw [h]
  · intro input x e w1 h; unfold course.service.CreateCourse; rw [h]; cases x <;> rfl
  · intro id input x e w1 h; unfold course.service.UpdateCourse; simp only []; rw [h]; cases x <;> rfl
  · intro id x e w1 h; unfold course.service.FindCourseById; rw [h]; cases x <;> rfl
  · intro page limit x e w1 h; unfold course.service.FindAllCourse; rw [h]
  · intro input x e w1 h; unfold teacher.service.CreateTeacher; rw [h]; cases x <;> rfl
  · intro id input x e w1 h; unfold teacher.service.UpdateTeacher; simp only []; rw [h]; cases x <;> rfl
  · intro id x e w1 h; unfold teacher.service.FindTeacherById; rw [h]; cases x <;> rfl
  · intro page limit x e w1 h; unfold teacher.service.FindAllTeachers; rw [h]
  · intro input x e w1 h; unfold department.service.CreateDepartment; rw [h]; cases x <;> rfl
  · intro id input x e w1 h; unfold department.service.UpdateDepartment; rw [h]; cases x <;> rfl
  · intro id x e w1 h; unfold department.service.FindDepartmentById; rw [h]; cases x <;> rfl
  · intro page limit x e w1 h; unfold department.service.FindAllDepartments; rw [h]

/-- Witness of C13 on the repository doubles that fail with "db error", as in the error
tests: each service call returns a nil response and that error after one call. -/
theorem service_returns_repository_error_witness :
    course.service.CreateCourse
        { courseRepository := stub.courseRepository (stub.failing (.New "db error")),
          teacherRepository := stub.teacherRepository (stub.failing (.New "db error")) }
        { Title := "Physics" } 0
      = (.returned (none, some (.New "db error")), 1)
    ∧ student.service.UpdateStudent
        { studentRepository := stub.studentRepository (stub.failing (.New "update failed")),
          courseRepository := stub.courseRepository (stub.failing (.New "update failed")) }
        5 { Name := "Error", Email := "error@example.com" } 0
      = (.returned (none, some (.New "update failed")), 1)
    ∧ teacher.service.FindAllTeachers
        { repo := stub.teacherRepository (stub.failing (.New "db error")) } 1 10 0
      = (.returned (none, some (.New "db error")), 1)
    ∧ department.service.FindDepartmentById
        { departmentRepository :=
            stub.departmentRepository (stub.failing .ErrRecordNotFound),
          teacherRepository := stub.teacherRepository (stub.failing .ErrRecordNotFound) }
        9 0
      = (.returned (none, some .ErrRecordNotFound), 1) :=
  ⟨(service_returns_repository_error.2.1 _ 0).1 { Title := "Physics" } _ _ _ rfl,
   (service_returns_repository_error.1 _ 0).2.1 5
      { Name := "Error", Email := "error@example.com" } _ _ _ rfl,
   (service_returns_repository_error.2.2.1 _ 0).2.2.2.1 1 10 _ _ _ rfl,
   (service_returns_repository_error.2.2.2 _ 0).2.2.1 9 _ _ _ rfl⟩

/-- C14: for every entity `e` the repository's `FindById` returns, `FindStudentById`,
`FindCourseById`, `FindTeacherById` and `FindDepartmentById` return a response with the
ID and scalar fields of `e` and one summary per directly related entity, in the same
order and with the same IDs and scalar fields, and no summary is expanded further: a
course inside a `StudentResponse` has a nil `Students` list and its teacher, present
exactly when the course has one, has nil `Courses` and `Departments`; a student inside a
`CourseResponse` has nil `Courses`; courses and departments inside a `TeacherResponse`
carry only ID and title or name. -/
theorem FindById_maps_one_level {σ : Type} :
    (∀ (s : student.service σ) (id : Nat) (w w1 : σ) (e : entity.Student),
      s.studentRepository.FindById id w = ((some e, none), w1) →
      ∃ r, s.FindStudentById id w = (.returned (some r, none), w1)
        ∧ r.ID = e.ID ∧ r.Name = e.Name ∧ r.Email = e.Email
        ∧ (r.Courses.getD []).map (fun c => (c.ID, c.Title))
            = (e.Courses.getD []).map (fun c => (c.ID, c.Title))
        ∧ (r.Courses.getD []).map (fun c => c.Teacher.map (fun t => (t.ID, t.Name)))
            = (e.Courses.getD []).map (fun c => c.Teacher.map (fun t => (t.ID, t.Name)))
        ∧ (∀ c ∈ r.Courses.getD [], c.Students = none
            ∧ ∀ t, c.Teacher = some t → t.Courses = none ∧ t.Departments = none))
    ∧ (∀ (s : course.service σ) (id : Nat) (w w1 : σ) (e : entity.Course),
      s.courseRepository.FindById id w = ((some e, none), w1) →
      ∃ r, s.FindCourseById id w = (.returned (some r, none), w1)
        ∧ r.ID = e.ID ∧ r.Title = e.Title
        ∧ r.Teacher.map (fun t => (t.ID, t.Name)) = e.Teacher.map (fun t => (t.ID, t.Name))
        ∧ (∀ t, r.Teacher = some t → t.Courses = none ∧ t.Departments = none)
        ∧ (r.Students.getD []).map (fun x => (x.ID, x.Name, x.Email))
            = (e.Students.getD []).map (fun x => (x.ID, x.Name, x.Email))
        ∧ (∀ x ∈ r.Students.getD [], x.Courses = none))
    ∧ (∀ (s : teacher.service σ) (id : Nat) (w w1 : σ) (e : entity.Teacher),
      s.repo.FindById id w = ((some e, none), w1) →
      ∃ r, s.FindTeacherById id w = (.returned (some r, none), w1)
        ∧ r.ID = e.ID ∧ r.Name = e.Name
        ∧ (r.Courses.getD []).map (fun c => (c.ID, c.Title))
            = (e.Courses.getD []).map (fun c => (c.ID, c.Title))
        ∧ (∀ c ∈ r.Courses.getD [], c.Teacher = none ∧ c.Students = none)
        ∧ (r.Departments.getD []).map (fun d => (d.ID, d.Name))
            = (e.Departments.getD []).map (fun d => (d.ID, d.Name))
        ∧ (∀ d ∈ r.Departments.getD [], d.HeadOfDepartment = none))
    ∧ (∀ (s : department.service σ) (id : Nat) (w w1 : σ) (e : entity.Department),
      s.departmentRepository.FindById id w = ((some e, none), w1) →
      ∃ r, s.FindDepartmentById id w = (.returned (some r, none), w1)
        ∧ r.ID = e.ID ∧ r.Name = e.Name
        ∧ r.HeadOfDepartment.map (fun t => (t.ID, t.Name))
            = e.HeadOfDepartment.map (fun t => (t.ID, t.Name))
        ∧ (∀ t, r.HeadOfDepartment = some t → t.Courses = none ∧ t.Departments = none)) := by
  refine ⟨?_, ?_, ?_, ?_⟩
  · intro s id w w1 e h
    refine ⟨.mk e.ID e.Name e.Email (makeAll e.Courses student.courseResp), ?_,
      rfl, rfl, rfl, ?_, ?_, ?_⟩
    · unfold student.service.FindStudentById
      rw [h]
      simp only [inline_teacherResp]
      rfl
    · show ((makeAll e.Courses student.courseResp).getD []).map _ = _
      rw [makeAll_getD, List.map_map]
      rfl
    · show ((makeAll e.Courses student.courseResp).getD []).map _ = _
      rw [makeAll_getD, List.map_map]
      apply List.map_congr_left
      intro c _
      exact (teacherResp_summary c.Teacher).1
    · intro c hc
      change c ∈ (makeAll e.Courses student.courseResp).getD [] at hc
      rw [makeAll_getD, List.mem_map] at hc
      obtain ⟨x, _, rfl⟩ := hc
      exact ⟨rfl, fun t ht => (teacherResp_summary x.Teacher).2 t ht⟩
  · intro s id w w1 e h
    refine ⟨.mk e.ID e.Title (teacherResp e.Teacher)
      (makeAll e.Students
        (fun x => response.StudentResponse.mk x.ID x.Name x.Email none)), ?_,
      rfl, rfl, (teacherResp_summary e.Teacher).1,
      fun t ht => (teacherResp_summary e.Teacher).2 t ht, ?_, ?_⟩
    · unfold course.service.FindCourseById
      rw [h]
      simp only [inline_teacherResp]
      rfl
    · show ((makeAll e.Students _).getD []).map _ = _
      rw [makeAll_getD, List.map_map]
      rfl
    · intro x hx
      change x ∈ (makeAll e.Students _).getD [] at hx
      rw [makeAll_getD, List.mem_map] at hx
      obtain ⟨y, _, rfl⟩ := hx
      rfl
  · intro s id w w1 e h
    refine ⟨.mk e.ID e.Name (appendAll e.Courses teacher.courseResp)
      (appendAll e.Departments teacher.departmentResp), ?_, rfl, rfl, ?_, ?_, ?_, ?_⟩
    · unfold teacher.service.FindTeacherById
      rw [h]
    · show ((appendAll e.Courses teacher.courseResp).getD []).map _ = _
      rw [appendAll_getD, List.map_map]
      rfl
    · intro c hc
      change c ∈ (appendAll e.Courses teacher.courseResp).getD [] at hc
      rw [appendAll_getD, List.mem_map] at hc
      obtain ⟨x, _, rfl⟩ := hc
      exact ⟨rfl, rfl⟩
    · show ((appendAll e.Departments teacher.departmentResp).getD []).map _ = _
      rw [appendAll_getD, List.map_map]
      rfl
    · intro d hd
      change d ∈ (appendAll e.Departments teacher.departmentResp).getD [] at hd
      rw [appendAll_getD, List.mem_map] at hd
      obtain ⟨x, _, rfl⟩ := hd
      rfl
  · intro s id w w1 e h
    refine ⟨department.departmentResp e, ?_, rfl, rfl,
      (teacherResp_summary e.HeadOfDepartment).1,
      fun t ht => (teacherResp_summary e.HeadOfDepartment).2 t ht⟩
    unfold department.service.FindDepartmentById
    rw [h]

/-- Witness of C14 on repositories that return the sample entities: the student `eve`
with a course that has a teacher and a student of its own, the course `physics`, the
teacher `newton` and the department `science`; the relations of the related entities do
not appear in the responses. -/
theorem FindById_maps_one_level_witness :
    ((stub.studentRepository (stub.found stub.eve)).FindById 3 0 = ((some stub.eve, none), 1)
      ∧ student.service.FindStudentById
          { studentRepository := stub.studentRepository (stub.found stub.eve),
            courseRepository := stub.courseRepository (stub.found stub.physics) } 3 0
        = (.returned (some (.mk 3 "Eve" "eve@example.com"
            (some [.mk 20 "Physics" (some (.mk 200 "Dr. Newton" none none)) none])), none), 1)
      ∧ ∃ r, student.service.FindStudentById
          { studentRepository := stub.studentRepository (stub.found stub.eve),
            courseRepository := stub.courseRepository (stub.found stub.physics) } 3 0
          = (.returned (some r, none), 1)
        ∧ r.ID = stub.eve.ID ∧ r.Name = stub.eve.Name ∧ r.Email = stub.eve.Email
        ∧ (r.Courses.getD []).map (fun c => (c.ID, c.Title))
            = (stub.eve.Courses.getD []).map (fun c => (c.ID, c.Title))
        ∧ (r.Courses.getD []).map (fun c => c.Teacher.map (fun t => (t.ID, t.Name)))
            = (stub.eve.Courses.getD []).map
                (fun c => c.Teacher.map (fun t => (t.ID, t.Name)))
        ∧ (∀ c ∈ r.Courses.getD [], c.Students = none
            ∧ ∀ t, c.Teacher = some t → t.Courses = none ∧ t.Departments = none))
    ∧ (course.service.FindCourseById
          { courseRepository := stub.courseRepository (stub.found stub.physics),
            teacherRepository := stub.teacherRepository (stub.found stub.newton) } 20 0
        = (.returned (some (.mk 20 "Physics" (some (.mk 200 "Dr. Newton" none none))
            (some [.mk 3 "Eve" "eve@example.com" none])), none), 1))
    ∧ (teacher.service.FindTeacherById
          { repo := stub.teacherRepository (stub.found stub.newton) } 200 0
        = (.returned (some (.mk 200 "Dr. Newton" (some [.mk 20 "Physics" none none])
            (some [.mk 7 "Science" none])), none), 1))
    ∧ (department.service.FindDepartmentById
          { departmentRepository := stub.departmentRepository (stub.found stub.science),
            teacherRepository := stub.teacherRepository (stub.found stub.newton) } 7 0
        = (.returned (some (.mk 7 "Science" (some (.mk 200 "Dr. Newton" none none))),
            none), 1)) :=
  ⟨⟨rfl, rfl,
    FindById_maps_one_level.1
      { studentRepository := stub.studentRepository (stub.found stub.eve),
        courseRepository := stub.courseRepository (stub.found stub.physics) }
      3 0 1 stub.eve rfl⟩,
   rfl, rfl, rfl⟩

/-! ## Update and create responses -/

/-- What holds of C15: `UpdateDepartment` returns exactly what `FindDepartmentById` returns
for a repository `FindById` yielding the same entity `e`.  `UpdateStudent`, `UpdateCourse`
and `UpdateTeacher` return the response whose ID and scalar fields are those of their
local entity as `Update` left it and whose relation summaries are those of `e`; that is
what `FindStudentById`, `FindCourseById` and `FindTeacherById` return for `e` when the ID
and the scalar fields of `e` are those of that local entity. -/
theorem Update_eq_FindById_of_same_scalars {σ : Type} :
    (∀ (s : department.service σ) (id fid : Nat) (input : request.DepartmentRequest)
        (w w1 v : σ) (e : entity.Department),
      s.departmentRepository.Update (.mk id input.Name none none) w = ((some e, none), w1) →
      s.departmentRepository.FindById fid v = ((some e, none), w1) →
      s.UpdateDepartment id input w = s.FindDepartmentById fid v)
    ∧ (∀ (s : student.service σ) (id fid : Nat) (input : request.StudentRequest)
        (w w1 v : σ) (e : entity.Student),
      s.studentRepository.Update (.mk id input.Name input.Email none) w
          = ((some e, none), w1) →
      s.UpdateStudent id input w
          = (.returned (some (.mk
              (s.studentRepository.UpdateArgument (.mk id input.Name input.Email none) w).ID
              (s.studentRepository.UpdateArgument (.mk id input.Name input.Email none) w).Name
              (s.studentRepository.UpdateArgument (.mk id input.Name input.Email none) w).Email
              (makeAll e.Courses student.courseResp)), none), w1)
        ∧ (s.studentRepository.FindById fid v = ((some e, none), w1) →
          e.ID = (s.studentRepository.UpdateArgument
            (.mk id input.Name input.Email none) w).ID →
          e.Name = (s.studentRepository.UpdateArgument
            (.mk id input.Name input.Email none) w).Name →
          e.Email = (s.studentRepository.UpdateArgument
            (.mk id input.Name input.Email none) w).Email →
          s.UpdateStudent id input w = s.FindStudentById fid v))
    ∧ (∀ (s : course.service σ) (id fid : Nat) (input : request.CourseRequest)
        (w w1 v : σ) (e : entity.Course),
      s.courseRepository.Update (.mk id input.Title none none none) w
          = ((some e, none), w1) →
      s.UpdateCourse id input w
          = (.returned (some (.mk
              (s.courseRepository.UpdateArgument (.mk id input.Title none none none) w).ID
              (s.courseRepository.UpdateArgument (.mk id input.Title none none none) w).Title
              (teacherResp e.Teacher)
              (makeAll e.Students
                (fun x => response.StudentResponse.mk x.ID x.Name x.Email none))), none), w1)
        ∧ (s.courseRepository.FindById fid v = ((some e, none), w1) →
          e.ID = (s.courseRepository.UpdateArgument
            (.mk id input.Title none none none) w).ID →
          e.Title = (s.courseRepository.UpdateArgument
            (.mk id input.Title none none none) w).Title →
          s.UpdateCourse id input w = s.FindCourseById fid v))
    ∧ (∀ (s : teacher.service σ) (id fid : Nat) (input : request.TeacherRequest)
        (w w1 v : σ) (e : entity.Teacher),
      s.repo.Update (.mk id input.Name none none) w = ((some e, none), w1) →
      s.UpdateTeacher id input w
          = (.returned (some (.mk
              (s.repo.UpdateArgument (.mk id input.Name none none) w).ID
              (s.repo.UpdateArgument (.mk id input.Name none none) w).Name
              (appendAll e.Courses teacher.courseResp)
              (appendAll e.Departments teacher.departmentResp)), none), w1)
        ∧ (s.repo.FindById fid v = ((some e, none), w1) →
          e.ID = (s.repo.UpdateArgument (.mk id input.Name none none) w).ID →
          e.Name = (s.repo.UpdateArgument (.mk id input.Name none none) w).Name →
          s.UpdateTeacher id input w = s.FindTeacherById fid v)) := by
  refine ⟨?_, ?_, ?_, ?_⟩
  · intro s id fid input w w1 v e hu hf
    unfold department.service.UpdateDepartment department.service.FindDepartmentById
    rw [hu, hf]
  · intro s id fid input w w1 v e hu
    have hr : s.UpdateStudent id input w
        = (.returned (some (.mk
            (s.studentRepository.UpdateArgument (.mk id input.Name input.Email none) w).ID
            (s.studentRepository.UpdateArgument (.mk id input.Name input.Email none) w).Name
            (s.studentRepository.UpdateArgument (.mk id input.Name input.Email none) w).Email
            (makeAll e.Courses student.courseResp)), none), w1) := by
      unfold student.service.UpdateStudent
      simp only []
      rw [hu]
    refine ⟨hr, ?_⟩
    intro hf h1 h2 h3
    rw [hr, ← h1, ← h2, ← h3]
    unfold student.service.FindStudentById
    rw [hf]
    simp only [inline_teacherResp]
    rfl
  · intro s id fid input w w1 v e hu
    have hr : s.UpdateCourse id input w
        = (.returned (some (.mk
            (s.courseRepository.UpdateArgument (.mk id input.Title none none none) w).ID
            (s.courseRepository.UpdateArgument (.mk id input.Title none none none) w).Title
            (teacherResp e.Teacher)
            (makeAll e.Students
              (fun x => response.StudentResponse.mk x.ID x.Name x.Email none))), none), w1) := by
      unfold course.service.UpdateCourse
      simp only []
      rw [hu]
    refine ⟨hr, ?_⟩
    intro hf h1 h2
    rw [hr, ← h1, ← h2]
    unfold course.service.FindCourseById
    rw [hf]
    simp only [inline_teacherResp]
    rfl
  · intro s id fid input w w1 v e hu
    have hr : s.UpdateTeacher id input w
        = (.returned (some (.mk
            (s.repo.UpdateArgument (.mk id input.Name none none) w).ID
            (s.repo.UpdateArgument (.mk id input.Name none none) w).Name
            (appendAll e.Courses teacher.courseResp)
            (appendAll e.Departments teacher.departmentResp)), none), w1) := by
      unfold teacher.service.UpdateTeacher
      simp only []
      rw [hu]
    refine ⟨hr, ?_⟩
    intro hf h1 h2
    rw [hr, ← h1, ← h2]
    unfold teacher.service.FindTeacherById
    rw [hf]

/-- C15 fails on the code: for the request `UpdateCourse(1, {Title: "New"})` and a
repository whose `Update` succeeds with the refreshed course `{ID: 1, Title: "Stored"}`
and leaves its argument as it was, `UpdateCourse` answers with the title "New" of its
local entity, while `FindCourseById` maps the same entity to the title "Stored".
`UpdateStudent` and `UpdateTeacher` take ID and name from their local entity in the same
way: for the request `(9, {Name: "Ann"})` and a repository that returns the student `eve`
or the teacher `newton` and leaves its argument as it was, they answer with ID 9 and
name "Ann". -/
theorem UpdateCourse_answers_request_fields :
    ((stub.courseRepository (stub.found stub.storedCourse)).Update
          (.mk 1 "New" none none none) 0 = ((some stub.storedCourse, none), 1)
      ∧ (stub.courseRepository (stub.found stub.storedCourse)).UpdateArgument
          (.mk 1 "New" none none none) 0 = .mk 1 "New" none none none
      ∧ (stub.courseRepository (stub.found stub.storedCourse)).FindById 1 0
          = ((some stub.storedCourse, none), 1))
    ∧ course.service.UpdateCourse
        { courseRepository := stub.courseRepository (stub.found stub.storedCourse),
          teacherRepository := stub.teacherRepository (stub.found stub.newton) }
        1 { Title := "New" } 0
      = (.returned (some (.mk 1 "New" none (some [])), none), 1)
    ∧ course.service.FindCourseById
        { courseRepository := stub.courseRepository (stub.found stub.storedCourse),
          teacherRepository := stub.teacherRepository (stub.found stub.newton) } 1 0
      = (.returned (some (.mk 1 "Stored" none (some [])), none), 1)
    ∧ course.service.UpdateCourse
        { courseRepository := stub.courseRepository (stub.found stub.storedCourse),
          teacherRepository := stub.teacherRepository (stub.found stub.newton) }
        1 { Title := "New" } 0
      ≠ course.service.FindCourseById
        { courseRepository := stub.courseRepository (stub.found stub.storedCourse),
          teacherRepository := stub.teacherRepository (stub.found stub.newton) } 1 0
    ∧ ((stub.studentRepository (stub.found stub.eve)).Update
          (.mk 9 "Ann" "ann@example.com" none) 0 = ((some stub.eve, none), 1)
      ∧ (stub.studentRepository (stub.found stub.eve)).UpdateArgument
          (.mk 9 "Ann" "ann@example.com" none) 0 = .mk 9 "Ann" "ann@example.com" none
      ∧ student.service.UpdateStudent
          { studentRepository := stub.studentRepository (stub.found stub.eve),
            courseRepository := stub.courseRepository (stub.found stub.physics) }
          9 { Name := "Ann", Email := "ann@example.com" } 0
        = (.returned (some (.mk 9 "Ann" "ann@example.com"
            (some [.mk 20 "Physics" (some (.mk 200 "Dr. Newton" none none)) none])), none), 1)
      ∧ student.service.FindStudentById
          { studentRepository := stub.studentRepository (stub.found stub.eve),
            courseRepository := stub.courseRepository (stub.found stub.physics) } 3 0
        = (.returned (some (.mk 3 "Eve" "eve@example.com"
            (some [.mk 20 "Physics" (some (.mk 200 "Dr. Newton" none none)) none])), none), 1))
    ∧ ((stub.teacherRepository (stub.found stub.newton)).Update (.mk 9 "Ann" none none) 0
          = ((some stub.newton, none), 1)
      ∧ (stub.teacherRepository (stub.found stub.newton)).UpdateArgument
          (.mk 9 "Ann" none none) 0 = .mk 9 "Ann" none none
      ∧ teacher.service.UpdateTeacher
          { repo := stub.teacherRepository (stub.found stub.newton) } 9 { Name := "Ann" } 0
        = (.returned (some (.mk 9 "Ann" (some [.mk 20 "Physics" none none])
            (some [.mk 7 "Science" none])), none), 1)
      ∧ teacher.service.FindTeacherById
          { repo := stub.teacherRepository (stub.found stub.newton) } 200 0
        = (.returned (some (.mk 200 "Dr. Newton" (some [.mk 20 "Physics" none none])
            (some [.mk 7 "Science" none])), none), 1)) := by
  refine ⟨⟨rfl, rfl, rfl⟩, rfl, rfl, ?_, ⟨rfl, rfl, rfl, rfl⟩, ⟨rfl, rfl, rfl, rfl⟩⟩
  intro h
  have h1 : course.service.UpdateCourse
        { courseRepository := stub.courseRepository (stub.found stub.storedCourse),
          teacherRepository := stub.teacherRepository (stub.found stub.newton) }
        1 { Title := "New" } 0
      = (.returned (some (.mk 1 "New" none (some [])), none), 1) := rfl
  have h2 : course.service.FindCourseById
        { courseRepository := stub.courseRepository (stub.found stub.storedCourse),
          teacherRepository := stub.teacherRepository (stub.found stub.newton) } 1 0
      = (.returned (some (.mk 1 "Stored" none (some [])), none), 1) := rfl
  rw [h1, h2] at h
  simp at h

/-- The `UpdateStudent` and `UpdateTeacher` services on the repositories of the sources
read the ID that `Save` wrote into their local entity: for the request with ID 0 on the
sample database, whose sequences stand at 3 and 2, they answer with the IDs 4 and 3 of
the rows they inserted. -/
theorem Update_answers_written_ID :
    (student.NewStudentService dbcontext.DB student.NewStudentRepository
        course.NewCourseRepository).UpdateStudent 0
        { Name := "Eve", Email := "eve@example.com" } dbcontext.campus
      = (.returned (some (.mk 4 "Eve" "eve@example.com" (some [])), none),
          { dbcontext.campus with
            students := dbcontext.campus.students
              ++ [{ id := 4, name := "Eve", email := "eve@example.com" }]
            students_id_seq := 4 })
    ∧ (teacher.NewTeacherService teacher.NewTeacherRepository).UpdateTeacher 0
        { Name := "Dr. Who" } dbcontext.campus
      = (.returned (some (.mk 3 "Dr. Who" none none), none),
          { dbcontext.campus with
            teachers := dbcontext.campus.teachers ++ [{ id := 3, name := "Dr. Who" }]
            teachers_id_seq := 3 }) :=
  ⟨rfl, rfl⟩

/-- C16 fails on the code: for the request body `{"title":"Math"}` and a repository
whose `Save` returns the course with the assigned ID 1, the `CreateCourse` handler
answers 201 with `{"id":1,"title":"Math","teacher":null,"students":null}`: the response
of `CreateCourse` leaves `Students` nil, and a nil slice is written as `null`, not as the
empty list `[]`. -/
theorem CreateCourse_students_null :
    course.service.CreateCourse
        { courseRepository := stub.courseRepository (stub.found stub.math),
          teacherRepository := stub.teacherRepository (stub.found stub.newton) }
        { Title := "Math" } 0
      = (.returned (some (.mk 1 "Math" none none), none), 1)
    ∧ gin.response (course.Handler.CreateCourse
        { Service := course.NewCourseService (stub.DB none)
            (stub.courseRepository (stub.found stub.math))
            (stub.teacherRepository (stub.found stub.newton)) }
        (gin.newContext (fun _ => "") (.ok { Title := "Math" })) 0)
      = some { status := 201, written := true,
               body := [.object [("id", .number 1), ("title", .string "Math"),
                 ("teacher", .null), ("students", .null)]] }
    ∧ gin.response (course.Handler.CreateCourse
        { Service := course.NewCourseService (stub.DB none)
            (stub.courseRepository (stub.found stub.math))
            (stub.teacherRepository (stub.found stub.newton)) }
        (gin.newContext (fun _ => "") (.ok { Title := "Math" })) 0)
      ≠ some { status := 201, written := true,
               body := [.object [("id", .number 1), ("title", .string "Math"),
                 ("teacher", .null), ("students", .array [])]] }
    ∧ gin.response (course.Handler.FindCourseById
        { Service := course.NewCourseService (stub.DB none)
            (stub.courseRepository (stub.found stub.math))
            (stub.teacherRepository (stub.found stub.newton)) }
        (gin.newContext (fun _ => "1") (.ok ())) 0)
      = some { status := 200, written := true,
               body := [.object [("id", .number 1), ("title", .string "Math"),
                 ("teacher", .null), ("students", .array [])]] } := by
  refine ⟨rfl, rfl, ?_, rfl⟩
  intro h
  have h1 : gin.response (course.Handler.CreateCourse
        { Service := course.NewCourseService (stub.DB none)
            (stub.courseRepository (stub.found stub.math))
            (stub.teacherRepository (stub.found stub.newton)) }
        (gin.newContext (fun _ => "") (.ok { Title := "Math" })) 0)
      = some { status := 201, written := true,
               body := [.object [("id", .number 1), ("title", .string "Math"),
                 ("teacher", .null), ("students", .null)]] } := rfl
  rw [h1] at h
  simp at h

/-! ## Lemmas on the response writer -/

theorem JSON_fresh {ρ : Type} (c : gin.Context ρ) (code : Nat) (obj : json.Value)
    (hfresh : c.Writer = gin.newWriter) (hbody : gin.bodyAllowedForStatus code = true) :
    (c.JSON code obj).Writer = { status := code, written := true, body := [obj] } := by
  unfold gin.Context.JSON gin.Context.Status
  rw [hbody, hfresh]
  rfl

theorem Status_fresh {ρ : Type} (c : gin.Context ρ) (code : Nat)
    (hfresh : c.Writer = gin.newWriter) :
    (c.Status code).Writer = { status := code, written := false, body := [] } := by
  unfold gin.Context.Status
  rw [hfresh]
  rfl

theorem response_JSON {ρ σ : Type} (c : gin.Context ρ) (code : Nat) (obj : json.Value)
    (w : σ) (hfresh : c.Writer = gin.newWriter)
    (hbody : gin.bodyAllowedForStatus code = true) :
    gin.response ((Outcome.returned (c.JSON code obj), w) : Outcome (gin.Context ρ) × σ)
      = some { status := code, written := true, body := [obj] } := by
  unfold gin.response
  simp only []
  rw [JSON_fresh c code obj hfresh hbody]

theorem response_Status {ρ σ : Type} (c : gin.Context ρ) (code : Nat) (w : σ)
    (hfresh : c.Writer = gin.newWriter) :
    gin.response ((Outcome.returned (c.Status code), w) : Outcome (gin.Context ρ) × σ)
      = some { status := code, written := false, body := [] } := by
  unfold gin.response
  simp only []
  rw [Status_fresh c code hfresh]

/-! ## Claims on the handlers -/

/-- C17: for every handler that takes an ID path parameter (`id`, `studentId`,
`courseId`, `teacherId`, `departmentId`) and every parameter text that is not a base-10
unsigned integer in the range `0..2^32-1`, the handler answers HTTP 400 with an error
body naming the invalid ID and leaves the world as it found it, whatever the service is:
it makes no call to the service.  For the handlers with two parameters this holds when
the first is invalid, and when the first is valid and the second is invalid. -/
theorem handlers_reject_invalid_id {σ ρ : Type} (w : σ) :
    (∀ (h : student.StudentHandler σ) (c : gin.Context request.StudentRequest), c.Writer = gin.newWriter →
      spec.uint32Value (c.Param "id") = none →
      gin.response (h.UpdateStudent c w) = some { status := 400, written := true, body := [gin.H "error" "invalid student ID"] }
        ∧ (h.UpdateStudent c w).2 = w)
    ∧ (∀ (h : student.StudentHandler σ) (c : gin.Context ρ), c.Writer = gin.newWriter →
      spec.uint32Value (c.Param "id") = none →
      gin.response (h.FindStudentById c w) = some { status := 400, written := true, body := [gin.H "error" "invalid student ID"] }
        ∧ (h.FindStudentById c w).2 = w)
    ∧ (∀ (h : student.StudentHandler σ) (c : gin.Context ρ), c.Writer = gin.newWriter →
      spec.uint32Value (c.Param "id") = none →
      gin.response (h.DeleteStudentById c w) = some { status := 400, written := true, body := [gin.H "error" "invalid student ID"] }
        ∧ (h.DeleteStudentById c w).2 = w)
    ∧ (∀ (h : course.Handler σ) (c : gin.Context request.CourseRequest), c.Writer = gin.newWriter →
      spec.uint32Value (c.Param "id") = none →
      gin.response (h.UpdateCourse c w) = some { status := 400, written := true, body := [gin.H "error" "invalid course ID"] }
        ∧ (h.UpdateCourse c w).2 = w)
    ∧ (∀ (h : course.Handler σ) (c : gin.Context ρ), c.Writer = gin.newWriter →
      spec.uint32Value (c.Param "id") = none →
      gin.response (h.FindCourseById c w) = some { status := 400, written := true, body := [gin.H "error" "invalid course ID"] }
        ∧ (h.FindCourseById c w).2 = w)
    ∧ (∀ (h : course.Handler σ) (c : gin.Context ρ), c.Writer = gin.newWriter →
      spec.uint32Value (c.Param "id") = none →
      gin.response (h.DeleteCourseById c w) = some { status := 400, written := true, body := [gin.H "error" "invalid course ID"] }
        ∧ (h.DeleteCourseById c w).2 = w)
    ∧ (∀ (h : teacher.TeacherHandler σ) (c : gin.Context request.TeacherRequest), c.Writer = gin.newWriter →
      spec.uint32Value (c.Param "id") = none →
      gin.response (h.UpdateTeacher c w) = some { status := 400, written := true, body := [gin.H "error" "invalid teacher ID"] }
        ∧ (h.UpdateTeacher c w).2 = w)
    ∧ (∀ (h : teacher.TeacherHandler σ) (c : gin.Context ρ), c.Writer = gin.newWriter →
      spec.uint32Value (c.Param "id") = none →
      gin.response (h.FindTeacherById c w) = some { status := 400, written := true, body := [gin.H "error" "invalid teacher ID"] }
        ∧ (h.FindTeacherById c w).2 = w)
    ∧ (∀ (h : teacher.TeacherHandler σ) (c : gin.Context ρ), c.Writer = gin.newWriter →
      spec.uint32Value (c.Param "id") = none →
      gin.response (h.DeleteTeacherById c w) = some { status := 400, written := true, body := [gin.H "error" "invalid teacher ID"] }
        ∧ (h.DeleteTeacherById c w).2 = w)
    ∧ (∀ (h : department.DepartmentHandler σ) (c : gin.Context request.DepartmentRequest), c.Writer = gin.newWriter →
      spec.uint32Value (c.Param "id") = none →
      gin.response (h.UpdateDepartment c w) = some { status := 400, written := true, body := [gin.H "error" "invalid department ID"] }
        ∧ (h.UpdateDepartment c w).2 = w)
    ∧ (∀ (h : department.DepartmentHandler σ) (c : gin.Context ρ), c.Writer = gin.newWriter →
      spec.uint32Value (c.Param "id") = none →
      gin.response (h.FindDepartmentById c w) = some { status := 400, written := true, body := [gin.H "error" "invalid department ID"] }
        ∧ (h.FindDepartmentById c w).2 = w)
    ∧ (∀ (h : department.DepartmentHandler σ) (c : gin.Context ρ), c.Writer = gin.newWriter →
      spec.uint32Value (c.Param "id") = none →
      gin.response (h.DeleteDepartmentById c w) = some { status := 400, written := true, body := [gin.H "error" "invalid department ID"] }
        ∧ (h.DeleteDepartmentById c w).2 = w)
    ∧ (∀ (h : student.StudentHandler σ) (c : gin.Context ρ), c.Writer = gin.newWriter →
      spec.uint32Value (c.Param "id") = none →
      gin.response (h.FindAllCoursesByStudentId c w) = some { status := 400, written := true, body := [gin.H "error" "invalid student ID"] }
        ∧ (h.FindAllCoursesByStudentId c w).2 = w)
    ∧ (∀ (h : course.Handler σ) (c : gin.Context ρ), c.Writer = gin.newWriter →
      spec.uint32Value (c.Param "courseId") = none →
      gin.response (h.SetTeacherToCourse c w) = some { status := 400, written := true, body := [gin.H "error" "invalid course ID"] }
        ∧ (h.SetTeacherToCourse c w).2 = w)
    ∧ (∀ (h : course.Handler σ) (c : gin.Context ρ) (n : Nat), c.Writer = gin.newWriter →
      spec.uint32Value (c.Param "courseId") = some n →
      spec.uint32Value (c.Param "teacherId") = none →
      gin.response (h.SetTeacherToCourse c w) = some { status := 400, written := true, body := [gin.H "error" "invalid teacher ID"] }
        ∧ (h.SetTeacherToCourse c w).2 = w)
    ∧ (∀ (h : department.DepartmentHandler σ) (c : gin.Context ρ), c.Writer = gin.newWriter →
      spec.uint32Value (c.Param "departmentId") = none →
      gin.response (h.DepartmentSetTeacher c w) = some { status := 400, written := true, body := [gin.H "error" "invalid department ID"] }
        ∧ (h.DepartmentSetTeacher c w).2 = w)
    ∧ (∀ (h : department.DepartmentHandler σ) (c : gin.Context ρ) (n : Nat), c.Writer = gin.newWriter →
      spec.uint32Value (c.Param "departmentId") = some n →
      spec.uint32Value (c.Param "teacherId") = none →
      gin.response (h.DepartmentSetTeacher c w) = some { status := 400, written := true, body := [gin.H "error" "invalid teacher ID"] }
        ∧ (h.DepartmentSetTeacher c w).2 = w)
    ∧ (∀ (h : student.StudentHandler σ) (c : gin.Context ρ), c.Writer = gin.newWriter →
      spec.uint32Value (c.Param "studentId") = none →
      gin.response (h.StudentAddCourse c w) = some { status := 400, written := true, body := [gin.H "error" "invalid student ID"] }
        ∧ (h.StudentAddCourse c w).2 = w)
    ∧ (∀ (h : student.StudentHandler σ) (c : gin.Context ρ) (n : Nat), c.Writer = gin.newWriter →
      spec.uint32Value (c.Param "studentId") = some n →
      spec.uint32Value (c.Param "courseId") = none →
      gin.response (h.StudentAddCourse c w) = some { status := 400, written := true, body := [gin.H "error" "invalid course ID"] }
        ∧ (h.StudentAddCourse c w).2 = w) := by
  refine ⟨?_, ?_, ?_, ?_, ?_, ?_, ?_, ?_, ?_, ?_, ?_, ?_, ?_, ?_, ?_, ?_, ?_, ?_, ?_⟩
  · intro h c hfresh hp
    obtain ⟨v, e, he⟩ := (ParseUintBase10_32 _).2 hp
    unfold student.StudentHandler.UpdateStudent
    rw [he]
    exact ⟨response_JSON c _ _ _ hfresh (by decide), rfl⟩
  · intro h c hfresh hp
    obtain ⟨v, e, he⟩ := (ParseUintBase10_32 _).2 hp
    unfold student.StudentHandler.FindStudentById
    rw [he]
    exact ⟨response_JSON c _ _ _ hfresh (by decide), rfl⟩
  · intro h c hfresh hp
    obtain ⟨v, e, he⟩ := (ParseUintBase10_32 _).2 hp
    unfold student.StudentHandler.DeleteStudentById
    rw [he]
    exact ⟨response_JSON c _ _ _ hfresh (by decide), rfl⟩
  · intro h c hfresh hp
    obtain ⟨v, e, he⟩ := (ParseUintBase10_32 _).2 hp
    unfold course.Handler.UpdateCourse
    rw [he]
    exact ⟨response_JSON c _ _ _ hfresh (by decide), rfl⟩
  · intro h c hfresh hp
    obtain ⟨v, e, he⟩ := (ParseUintBase10_32 _).2 hp
    unfold course.Handler.FindCourseById
    rw [he]
    exact ⟨response_JSON c _ _ _ hfresh (by decide), rfl⟩
  · intro h c hfresh hp
    obtain ⟨v, e, he⟩ := (ParseUintBase10_32 _).2 hp
    unfold course.Handler.DeleteCourseById
    rw [he]
    exact ⟨response_JSON c _ _ _ hfresh (by decide), rfl⟩
  · intro h c hfresh hp
    obtain ⟨v, e, he⟩ := (ParseUintBase10_32 _).2 hp
    unfold teacher.TeacherHandler.UpdateTeacher
    rw [he]
    exact ⟨response_JSON c _ _ _ hfresh (by decide), rfl⟩
  · intro h c hfresh hp
    obtain ⟨v, e, he⟩ := (ParseUintBase10_32 _).2 hp
    unfold teacher.TeacherHandler.FindTeacherById
    rw [he]
    exact ⟨response_JSON c _ _ _ hfresh (by decide), rfl⟩
  · intro h c hfresh hp
    obtain ⟨v, e, he⟩ := (ParseUintBase10_32 _).2 hp
    unfold teacher.TeacherHandler.DeleteTeacherById
    rw [he]
    exact ⟨response_JSON c _ _ _ hfresh (by decide), rfl⟩
  · intro h c hfresh hp
    obtain ⟨v, e, he⟩ := (ParseUintBase10_32 _).2 hp
    unfold department.DepartmentHandler.UpdateDepartment
    rw [he]
    exact ⟨response_JSON c _ _ _ hfresh (by decide), rfl⟩
  · intro h c hfresh hp
    obtain ⟨v, e, he⟩ := (ParseUintBase10_32 _).2 hp
    unfold department.DepartmentHandler.FindDepartmentById
    rw [he]
    exact ⟨response_JSON c _ _ _ hfresh (by decide), rfl⟩
  · intro h c hfresh hp
    obtain ⟨v, e, he⟩ := (ParseUintBase10_32 _).2 hp
    unfold department.DepartmentHandler.DeleteDepartmentById
    rw [he]
    exact ⟨response_JSON c _ _ _ hfresh (by decide), rfl⟩
  · intro h c hfresh hp
    obtain ⟨v, e, he⟩ := (ParseUintBase10_32 _).2 hp
    unfold student.StudentHandler.FindAllCoursesByStudentId
    rw [he]
    exact ⟨response_JSON c _ _ _ hfresh (by decide), rfl⟩
  · intro h c hfresh hp
    obtain ⟨v, e, he⟩ := (ParseUintBase10_32 _).2 hp
    unfold course.Handler.SetTeacherToCourse
    rw [he]
    exact ⟨response_JSON c _ _ _ hfresh (by decide), rfl⟩
  · intro h c n hfresh hp1 hp2
    have h1 := (ParseUintBase10_32 _).1 n hp1
    obtain ⟨v, e, he⟩ := (ParseUintBase10_32 _).2 hp2
    unfold course.Handler.SetTeacherToCourse
    rw [h1]
    simp only []
    rw [he]
    exact ⟨response_JSON c _ _ _ hfresh (by decide), rfl⟩
  · intro h c hfresh hp
    obtain ⟨v, e, he⟩ := (ParseUintBase10_32 _).2 hp
    unfold department.DepartmentHandler.DepartmentSetTeacher
    rw [he]
    exact ⟨response_JSON c _ _ _ hfresh (by decide), rfl⟩
  · intro h c n hfresh hp1 hp2
    have h1 := (ParseUintBase10_32 _).1 n hp1
    obtain ⟨v, e, he⟩ := (ParseUintBase10_32 _).2 hp2
    unfold department.DepartmentHandler.DepartmentSetTeacher
    rw [h1]
    simp only []
    rw [he]
    exact ⟨response_JSON c _ _ _ hfresh (by decide), rfl⟩
  · intro h c hfresh hp
    obtain ⟨v, e, he⟩ := (ParseUintBase10_32 _).2 hp
    unfold student.StudentHandler.StudentAddCourse
    rw [he]
    exact ⟨response_JSON c _ _ _ hfresh (by decide), rfl⟩
  · intro h c n hfresh hp1 hp2
    have h1 := (ParseUintBase10_32 _).1 n hp1
    obtain ⟨v, e, he⟩ := (ParseUintBase10_32 _).2 hp2
    unfold student.StudentHandler.StudentAddCourse
    rw [h1]
    simp only []
    rw [he]
    exact ⟨response_JSON c _ _ _ hfresh (by decide), rfl⟩

/-- C18: for every well-formed request (the ID parameters are base-10 unsigned integers
in `0..2^32-1` and the body binds) on which the service call succeeds, the status code of
the handler's response is 201 for each Create handler, 200 for each Update, FindById,
FindAll, `FindAllCoursesByStudentId` and relationship-assignment handler, with the
service's result as the body, and 204 with no body for each Delete handler. -/
theorem handlers_success_status {σ ρ : Type} (w : σ) :
    (∀ (h : student.StudentHandler σ) (c : gin.Context request.StudentRequest) (req : request.StudentRequest)
        (resp : Option response.StudentResponse) (w1 : σ), c.Writer = gin.newWriter →
      c.ShouldBindJSON = .ok req →
      h.Service.CreateStudent req w = (.returned (resp, none), w1) →
      gin.response (h.CreateStudent c w) = some { status := 201, written := true, body := [json.ofStudentResponsePtr resp] }
        ∧ (h.CreateStudent c w).2 = w1)
    ∧ (∀ (h : student.StudentHandler σ) (c : gin.Context request.StudentRequest) (id : Nat)
        (req : request.StudentRequest) (resp : Option response.StudentResponse) (w1 : σ),
      c.Writer = gin.newWriter → spec.uint32Value (c.Param "id") = some id →
      c.ShouldBindJSON = .ok req →
      h.Service.UpdateStudent id req w = (.returned (resp, none), w1) →
      gin.response (h.UpdateStudent c w) = some { status := 200, written := true, body := [json.ofStudentResponsePtr resp] }
        ∧ (h.UpdateStudent c w).2 = w1)
    ∧ (∀ (h : student.StudentHandler σ) (c : gin.Context ρ) (id : Nat)
        (resp : Option response.StudentResponse) (w1 : σ),
      c.Writer = gin.newWriter → spec.uint32Value (c.Param "id") = some id →
      h.Service.FindStudentById id w = (.returned (resp, none), w1) →
      gin.response (h.FindStudentById c w) = some { status := 200, written := true, body := [json.ofStudentResponsePtr resp] }
        ∧ (h.FindStudentById c w).2 = w1)
    ∧ (∀ (h : student.StudentHandler σ) (c : gin.Context ρ) (count : Int)
        (items : Option (List response.StudentResponse)) (w1 w2 : σ), c.Writer = gin.newWriter →
      h.Service.Count w = (.returned (count, none), w1) →
      h.Service.FindAllStudent (NewFromRequest c.Request count).Page
          (NewFromRequest c.Request count).PerPage w1 = (.returned (items, none), w2) →
      gin.response (h.FindAllStudents c w)
          = some { status := 200, written := true,
                   body := [json.ofPages { NewFromRequest c.Request count with
                     Items := some (.students items) }] }
        ∧ (h.FindAllStudents c w).2 = w2)
    ∧ (∀ (h : student.StudentHandler σ) (c : gin.Context ρ) (id : Nat) (w1 : σ),
      c.Writer = gin.newWriter → spec.uint32Value (c.Param "id") = some id →
      h.Service.DeleteStudentById id w = (.returned none, w1) →
      gin.response (h.DeleteStudentById c w) = some { status := 204, written := false, body := [] }
        ∧ (h.DeleteStudentById c w).2 = w1)
    ∧ (∀ (h : course.Handler σ) (c : gin.Context request.CourseRequest) (req : request.CourseRequest)
        (resp : Option response.CourseResponse) (w1 : σ), c.Writer = gin.newWriter →
      c.ShouldBindJSON = .ok req →
      h.Service.CreateCourse req w = (.returned (resp, none), w1) →
      gin.response (h.CreateCourse c w) = some { status := 201, written := true, body := [json.ofCourseResponsePtr resp] }
        ∧ (h.CreateCourse c w).2 = w1)
    ∧ (∀ (h : course.Handler σ) (c : gin.Context request.CourseRequest) (id : Nat)
        (req : request.CourseRequest) (resp : Option response.CourseResponse) (w1 : σ),
      c.Writer = gin.newWriter → spec.uint32Value (c.Param "id") = some id →
      c.ShouldBindJSON = .ok req →
      h.Service.UpdateCourse id req w = (.returned (resp, none), w1) →
      gin.response (h.UpdateCourse c w) = some { status := 200, written := true, body := [json.ofCourseResponsePtr resp] }
        ∧ (h.UpdateCourse c w).2 = w1)
    ∧ (∀ (h : course.Handler σ) (c : gin.Context ρ) (id : Nat)
        (resp : Option response.CourseResponse) (w1 : σ),
      c.Writer = gin.newWriter → spec.uint32Value (c.Param "id") = some id →
      h.Service.FindCourseById id w = (.returned (resp, none), w1) →
      gin.response (h.FindCourseById c w) = some { status := 200, written := true, body := [json.ofCourseResponsePtr resp] }
        ∧ (h.FindCourseById c w).2 = w1)
    ∧ (∀ (h : course.Handler σ) (c : gin.Context ρ) (count : Int)
        (items : Option (List response.CourseResponse)) (w1 w2 : σ), c.Writer = gin.newWriter →
      h.Service.Count w = (.returned (count, none), w1) →
      h.Service.FindAllCourse (NewFromRequest c.Request count).Page
          (NewFromRequest c.Request count).PerPage w1 = (.returned (items, none), w2) →
      gin.response (h.FindAllCourses c w)
          = some { status := 200, written := true,
                   body := [json.ofPages { NewFromRequest c.Request count with
                     Items := some (.courses items) }] }
        ∧ (h.FindAllCourses c w).2 = w2)
    ∧ (∀ (h : course.Handler σ) (c : gin.Context ρ) (id : Nat) (w1 : σ),
      c.Writer = gin.newWriter → spec.uint32Value (c.Param "id") = some id →
      h.Service.DeleteCourseById id w = (.returned none, w1) →
      gin.response (h.DeleteCourseById c w) = some { status := 204, written := false, body := [] }
        ∧ (h.DeleteCourseById c w).2 = w1)
    ∧ (∀ (h : teacher.TeacherHandler σ) (c : gin.Context request.TeacherRequest) (req : request.TeacherRequest)
        (resp : Option response.TeacherResponse) (w1 : σ), c.Writer = gin.newWriter →
      c.ShouldBindJSON = .ok req →
      h.Service.CreateTeacher req w = (.returned (resp, none), w1) →
      gin.response (h.CreateTeacher c w) = some { status := 201, written := true, body := [json.ofTeacherResponsePtr resp] }
        ∧ (h.CreateTeacher c w).2 = w1)
    ∧ (∀ (h : teacher.TeacherHandler σ) (c : gin.Context request.TeacherRequest) (id : Nat)
        (req : request.TeacherRequest) (resp : Option response.TeacherResponse) (w1 : σ),
      c.Writer = gin.newWriter → spec.uint32Value (c.Param "id") = some id →
      c.ShouldBindJSON = .ok req →
      h.Service.UpdateTeacher id req w = (.returned (resp, none), w1) →
      gin.response (h.UpdateTeacher c w) = some { status := 200, written := true, body := [json.ofTeacherResponsePtr resp] }
        ∧ (h.UpdateTeacher c w).2 = w1)
    ∧ (∀ (h : teacher.TeacherHandler σ) (c : gin.Context ρ) (id : Nat)
        (resp : Option response.TeacherResponse) (w1 : σ),
      c.Writer = gin.newWriter → spec.uint32Value (c.Param "id") = some id →
      h.Service.FindTeacherById id w = (.returned (resp, none), w1) →
      gin.response (h.FindTeacherById c w) = some { status := 200, written := true, body := [json.ofTeacherResponsePtr resp] }
        ∧ (h.FindTeacherById c w).2 = w1)
    ∧ (∀ (h : teacher.TeacherHandler σ) (c : gin.Context ρ) (count : Int)
        (items : Option (List response.TeacherResponse)) (w1 w2 : σ), c.Writer = gin.newWriter →
      h.Service.Count w = (.returned (count, none), w1) →
      h.Service.FindAllTeachers (NewFromRequest c.Request count).Page
          (NewFromRequest c.Request count).PerPage w1 = (.returned (items, none), w2) →
      gin.response (h.FindAllTeachers c w)
          = some { status := 200, written := true,
                   body := [json.ofPages { NewFromRequest c.Request count with
                     Items := some (.teachers items) }] }
        ∧ (h.FindAllTeachers c w).2 = w2)
    ∧ (∀ (h : teacher.TeacherHandler σ) (c : gin.Context ρ) (id : Nat) (w1 : σ),
      c.Writer = gin.newWriter → spec.uint32Value (c.Param "id") = some id →
      h.Service.DeleteTeacherById id w = (.returned none, w1) →
      gin.response (h.DeleteTeacherById c w) = some { status := 204, written := false, body := [] }
        ∧ (h.DeleteTeacherById c w).2 = w1)
    ∧ (∀ (h : department.DepartmentHandler σ) (c : gin.Context request.DepartmentRequest) (req : request.DepartmentRequest)
        (resp : Option response.DepartmentResponse) (w1 : σ), c.Writer = gin.newWriter →
      c.ShouldBindJSON = .ok req →
      h.Service.CreateDepartment req w = (.returned (resp, none), w1) →
      gin.response (h.CreateDepartment c w) = some { status := 201, written := true, body := [json.ofDepartmentResponsePtr resp] }
        ∧ (h.CreateDepartment c w).2 = w1)
    ∧ (∀ (h : department.DepartmentHandler σ) (c : gin.Context request.DepartmentRequest) (id : Nat)
        (req : request.DepartmentRequest) (resp : Option response.DepartmentResponse) (w1 : σ),
      c.Writer = gin.newWriter → spec.uint32Value (c.Param "id") = some id →
      c.ShouldBindJSON = .ok req →
      h.Service.UpdateDepartment id req w = (.returned (resp, none), w1) →
      gin.response (h.UpdateDepartment c w) = some { status := 200, written := true, body := [json.ofDepartmentResponsePtr resp] }
        ∧ (h.UpdateDepartment c w).2 = w1)
    ∧ (∀ (h : department.DepartmentHandler σ) (c : gin.Context ρ) (id : Nat)
        (resp : Option response.DepartmentResponse) (w1 : σ),
      c.Writer = gin.newWriter → spec.uint32Value (c.Param "id") = some id →
      h.Service.FindDepartmentById id w = (.returned (resp, none), w1) →
      gin.response (h.FindDepartmentById c w) = some { status := 200, written := true, body := [json.ofDepartmentResponsePtr resp] }
        ∧ (h.FindDepartmentById c w).2 = w1)
    ∧ (∀ (h : department.DepartmentHandler σ) (c : gin.Context ρ) (count : Int)
        (items : Option (List response.DepartmentResponse)) (w1 w2 : σ), c.Writer = gin.newWriter →
      h.Service.Count w = (.returned (count, none), w1) →
      h.Service.FindAllDepartments (NewFromRequest c.Request count).Page
          (NewFromRequest c.Request count).PerPage w1 = (.returned (items, none), w2) →
      gin.response (h.FindAllDepartments c w)
          = some { status := 200, written := true,
                   body := [json.ofPages { NewFromRequest c.Request count with
                     Items := some (.departments items) }] }
        ∧ (h.FindAllDepartments c w).2 = w2)
    ∧ (∀ (h : department.DepartmentHandler σ) (c : gin.Context ρ) (id : Nat) (w1 : σ),
      c.Writer = gin.newWriter → spec.uint32Value (c.Param "id") = some id →
      h.Service.DeleteDepartmentById id w = (.returned none, w1) →
      gin.response (h.DeleteDepartmentById c w) = some { status := 204, written := false, body := [] }
        ∧ (h.DeleteDepartmentById c w).2 = w1)
    ∧ (∀ (h : student.StudentHandler σ) (c : gin.Context ρ) (id : Nat)
        (resp : response.StudentResponse) (w1 : σ),
      c.Writer = gin.newWriter → spec.uint32Value (c.Param "id") = some id →
      h.Service.FindStudentById id w = (.returned (some resp, none), w1) →
      gin.response (h.FindAllCoursesByStudentId c w)
          = some { status := 200, written := true, body := [json.ofCourseResponses resp.Courses] }
        ∧ (h.FindAllCoursesByStudentId c w).2 = w1)
    ∧ (∀ (h : course.Handler σ) (c : gin.Context ρ) (a b : Nat)
        (resp : Option response.CourseResponse) (w1 : σ), c.Writer = gin.newWriter →
      spec.uint32Value (c.Param "courseId") = some a →
      spec.uint32Value (c.Param "teacherId") = some b →
      h.Service.SetTeacherToCourse a b w = (.returned (resp, none), w1) →
      gin.response (h.SetTeacherToCourse c w) = some { status := 200, written := true, body := [json.ofCourseResponsePtr resp] }
        ∧ (h.SetTeacherToCourse c w).2 = w1)
    ∧ (∀ (h : department.DepartmentHandler σ) (c : gin.Context ρ) (a b : Nat)
        (resp : Option response.DepartmentResponse) (w1 : σ), c.Writer = gin.newWriter →
      spec.uint32Value (c.Param "departmentId") = some a →
      spec.uint32Value (c.Param "teacherId") = some b →
      h.Service.DepartmentSetTeacher a b w = (.returned (resp, none), w1) →
      gin.response (h.DepartmentSetTeacher c w) = some { status := 200, written := true, body := [json.ofDepartmentResponsePtr resp] }
        ∧ (h.DepartmentSetTeacher c w).2 = w1)
    ∧ (∀ (h : student.StudentHandler σ) (c : gin.Context ρ) (a b : Nat)
        (resp : Option response.StudentResponse) (w1 : σ), c.Writer = gin.newWriter →
      spec.uint32Value (c.Param "studentId") = some a →
      spec.uint32Value (c.Param "courseId") = some b →
      h.Service.AddCourseToStudent a b w = (.returned (resp, none), w1) →
      gin.response (h.StudentAddCourse c w) = some { status := 200, written := true, body := [json.ofStudentResponsePtr resp] }
        ∧ (h.StudentAddCourse c w).2 = w1) := by
  refine ⟨?_, ?_, ?_, ?_, ?_, ?_, ?_, ?_, ?_, ?_, ?_, ?_, ?_, ?_, ?_, ?_, ?_, ?_, ?_, ?_, ?_, ?_, ?_, ?_⟩
  · intro h c req resp w1 hfresh hb hs
    unfold student.StudentHandler.CreateStudent
    rw [hb]
    simp only []
    rw [hs]
    exact ⟨response_JSON c _ _ _ hfresh (by decide), rfl⟩
  · intro h c id req resp w1 hfresh hp hb hs
    have h1 := (ParseUintBase10_32 _).1 id hp
    unfold student.StudentHandler.UpdateStudent
    rw [h1]
    simp only []
    rw [hb]
    simp only []
    rw [hs]
    exact ⟨response_JSON c _ _ _ hfresh (by decide), rfl⟩
  · intro h c id resp w1 hfresh hp hs
    have h1 := (ParseUintBase10_32 _).1 id hp
    unfold student.StudentHandler.FindStudentById
    rw [h1]
    simp only []
    rw [hs]
    exact ⟨response_JSON c _ _ _ hfresh (by decide), rfl⟩
  · intro h c count items w1 w2 hfresh hc hs
    unfold student.StudentHandler.FindAllStudents
    rw [hc]
    simp only []
    rw [hs]
    exact ⟨response_JSON c _ _ _ hfresh (by decide), rfl⟩
  · intro h c id w1 hfresh hp hs
    have h1 := (ParseUintBase10_32 _).1 id hp
    unfold student.StudentHandler.DeleteStudentById
    rw [h1]
    simp only []
    rw [hs]
    exact ⟨response_Status c _ _ hfresh, rfl⟩
  · intro h c req resp w1 hfresh hb hs
    unfold course.Handler.CreateCourse
    rw [hb]
    simp only []
    rw [hs]
    exact ⟨response_JSON c _ _ _ hfresh (by decide), rfl⟩
  · intro h c id req resp w1 hfresh hp hb hs
    have h1 := (ParseUintBase10_32 _).1 id hp
    unfold course.Handler.UpdateCourse
    rw [h1]
    simp only []
    rw [hb]
    simp only []
    rw [hs]
    exact ⟨response_JSON c _ _ _ hfresh (by decide), rfl⟩
  · intro h c id resp w1 hfresh hp hs
    have h1 := (ParseUintBase10_32 _).1 id hp
    unfold course.Handler.FindCourseById
    rw [h1]
    simp only []
    rw [hs]
    exact ⟨response_JSON c _ _ _ hfresh (by decide), rfl⟩
  · intro h c count items w1 w2 hfresh hc hs
    unfold course.Handler.FindAllCourses
    rw [hc]
    simp only []
    rw [hs]
    exact ⟨response_JSON c _ _ _ hfresh (by decide), rfl⟩
  · intro h c id w1 hfresh hp hs
    have h1 := (ParseUintBase10_32 _).1 id hp
    unfold course.Handler.DeleteCourseById
    rw [h1]
    simp only []
    rw [hs]
    exact ⟨response_Status c _ _ hfresh, rfl⟩
  · intro h c req resp w1 hfresh hb hs
    unfold teacher.TeacherHandler.CreateTeacher
    rw [hb]
    simp only []
    rw [hs]
    exact ⟨response_JSON c _ _ _ hfresh (by decide), rfl⟩
  · intro h c id req resp w1 hfresh hp hb hs
    have h1 := (ParseUintBase10_32 _).1 id hp
    unfold teacher.TeacherHandler.UpdateTeacher
    rw [h1]
    simp only []
    rw [hb]
    simp only []
    rw [hs]
    exact ⟨response_JSON c _ _ _ hfresh (by decide), rfl⟩
  · intro h c id resp w1 hfresh hp hs
    have h1 := (ParseUintBase10_32 _).1 id hp
    unfold teacher.TeacherHandler.FindTeacherById
    rw [h1]
    simp only []
    rw [hs]
    exact ⟨response_JSON c _ _ _ hfresh (by decide), rfl⟩
  · intro h c count items w1 w2 hfresh hc hs
    unfold teacher.TeacherHandler.FindAllTeachers
    rw [hc]
    simp only []
    rw [hs]
    exact ⟨response_JSON c _ _ _ hfresh (by decide), rfl⟩
  · intro h c id w1 hfresh hp hs
    have h1 := (ParseUintBase10_32 _).1 id hp
    unfold teacher.TeacherHandler.DeleteTeacherById
    rw [h1]
    simp only []
    rw [hs]
    exact ⟨response_Status c _ _ hfresh, rfl⟩
  · intro h c req resp w1 hfresh hb hs
    unfold department.DepartmentHandler.CreateDepartment
    rw [hb]
    simp only []
    rw [hs]
    exact ⟨response_JSON c _ _ _ hfresh (by decide), rfl⟩
  · intro h c id req resp w1 hfresh hp hb hs
    have h1 := (ParseUintBase10_32 _).1 id hp
    unfold department.DepartmentHandler.UpdateDepartment
    rw [h1]
    simp only []
    rw [hb]
    simp only []
    rw [hs]
    exact ⟨response_JSON c _ _ _ hfresh (by decide), rfl⟩
  · intro h c id resp w1 hfresh hp hs
    have h1 := (ParseUintBase10_32 _).1 id hp
    unfold department.DepartmentHandler.FindDepartmentById
    rw [h1]
    simp only []
    rw [hs]
    exact ⟨response_JSON c _ _ _ hfresh (by decide), rfl⟩
  · intro h c count items w1 w2 hfresh hc hs
    unfold department.DepartmentHandler.FindAllDepartments
    rw [hc]
    simp only []
    rw [hs]
    exact ⟨response_JSON c _ _ _ hfresh (by decide), rfl⟩
  · intro h c id w1 hfresh hp hs
    have h1 := (ParseUintBase10_32 _).1 id hp
    unfold department.DepartmentHandler.DeleteDepartmentById
    rw [h1]
    simp only []
    rw [hs]
    exact ⟨response_Status c _ _ hfresh, rfl⟩
  · intro h c id resp w1 hfresh hp hs
    have h1 := (ParseUintBase10_32 _).1 id hp
    unfold student.StudentHandler.FindAllCoursesByStudentId
    rw [h1]
    simp only []
    rw [hs]
    exact ⟨response_JSON c _ _ _ hfresh (by decide), rfl⟩
  · intro h c a b resp w1 hfresh hp1 hp2 hs
    have h1 := (ParseUintBase10_32 _).1 a hp1
    have h2 := (ParseUintBase10_32 _).1 b hp2
    unfold course.Handler.SetTeacherToCourse
    rw [h1]
    simp only []
    rw [h2]
    simp only []
    rw [hs]
    exact ⟨response_JSON c _ _ _ hfresh (by decide), rfl⟩
  · intro h c a b resp w1 hfresh hp1 hp2 hs
    have h1 := (ParseUintBase10_32 _).1 a hp1
    have h2 := (ParseUintBase10_32 _).1 b hp2
    unfold department.DepartmentHandler.DepartmentSetTeacher
    rw [h1]
    simp only []
    rw [h2]
    simp only []
    rw [hs]
    exact ⟨response_JSON c _ _ _ hfresh (by decide), rfl⟩
  · intro h c a b resp w1 hfresh hp1 hp2 hs
    have h1 := (ParseUintBase10_32 _).1 a hp1
    have h2 := (ParseUintBase10_32 _).1 b hp2
    unfold student.StudentHandler.StudentAddCourse
    rw [h1]
    simp only []
    rw [h2]
    simp only []
    rw [hs]
    exact ⟨response_JSON c _ _ _ hfresh (by decide), rfl⟩

/-- Witness of C17 on the handlers over the recording store: deleting the student with id `-1`,
`GET /courses/4294967296` and `POST /courses/1/teacher/abc` are answered with 400, and no
call reaches the store. -/
theorem handlers_reject_invalid_id_witness :
    (spec.uint32Value "-1" = none ∧ spec.uint32Value "4294967296" = none
      ∧ spec.uint32Value "1" = some 1 ∧ spec.uint32Value "abc" = none)
    ∧ (gin.response (student.StudentHandler.DeleteStudentById
          { Service := student.NewStudentService store.DB store.studentRepository
              store.courseRepository }
          (gin.newContext (fun _ => "-1") (Except.ok ())) store.full)
        = some { status := 400, written := true,
                 body := [gin.H "error" "invalid student ID"] }
      ∧ (student.StudentHandler.DeleteStudentById
          { Service := student.NewStudentService store.DB store.studentRepository
              store.courseRepository }
          (gin.newContext (fun _ => "-1") (Except.ok ())) store.full).2 = store.full)
    ∧ (gin.response (course.Handler.FindCourseById
          { Service := course.NewCourseService store.DB store.courseRepository
              store.teacherRepository }
          (gin.newContext (fun _ => "4294967296") (Except.ok ())) store.full)
        = some { status := 400, written := true,
                 body := [gin.H "error" "invalid course ID"] }
      ∧ (course.Handler.FindCourseById
          { Service := course.NewCourseService store.DB store.courseRepository
              store.teacherRepository }
          (gin.newContext (fun _ => "4294967296") (Except.ok ())) store.full).2
        = store.full)
    ∧ (gin.response (course.Handler.SetTeacherToCourse
          { Service := course.NewCourseService store.DB store.courseRepository
              store.teacherRepository }
          (gin.newContext (fun key => if key = "courseId" then "1" else "abc")
            (Except.ok ())) store.full)
        = some { status := 400, written := true,
                 body := [gin.H "error" "invalid teacher ID"] }
      ∧ (course.Handler.SetTeacherToCourse
          { Service := course.NewCourseService store.DB store.courseRepository
              store.teacherRepository }
          (gin.newContext (fun key => if key = "courseId" then "1" else "abc")
            (Except.ok ())) store.full).2 = store.full) :=
  ⟨by decide,
   (@handlers_reject_invalid_id store.World Unit store.full).2.2.1 _ _ rfl
      (by decide),
   (@handlers_reject_invalid_id store.World Unit store.full).2.2.2.2.1 _ _ rfl
      (by decide),
   (@handlers_reject_invalid_id store.World Unit store.full).2.2.2.2.2.2.2.2.2.2.2.2.2.2.1 _ _ 1 rfl
      (by decide) (by decide)⟩

/-- Witness of C18 on the course handlers over a repository double that holds the course
`{ID: 1, Title: "Math"}`: `POST /courses` is answered with 201, `GET /courses` with 200
and the page envelope, `DELETE /courses/1` with 204 and no body. -/
theorem handlers_success_status_witness :
    (gin.response (course.Handler.CreateCourse
          { Service := course.NewCourseService (stub.DB none)
              (stub.courseRepository (stub.found stub.math))
              (stub.teacherRepository (stub.found stub.newton)) }
          (gin.newContext (fun _ => "") (.ok { Title := "Math" })) 0)
        = some { status := 201, written := true,
                 body := [json.ofCourseResponsePtr (some (.mk 1 "Math" none none))] }
      ∧ (course.Handler.CreateCourse
          { Service := course.NewCourseService (stub.DB none)
              (stub.courseRepository (stub.found stub.math))
              (stub.teacherRepository (stub.found stub.newton)) }
          (gin.newContext (fun _ => "") (.ok { Title := "Math" })) 0).2 = 1)
    ∧ (gin.response (course.Handler.FindAllCourses
          { Service := course.NewCourseService (stub.DB none)
              (stub.courseRepository (stub.found stub.math))
              (stub.teacherRepository (stub.found stub.newton)) }
          (gin.newContext (fun _ => "") (Except.ok ())) 0)
        = some { status := 200, written := true,
                 body := [json.ofPages
                   { Page := 1, PerPage := 100, PageCount := 1, TotalCount := 1,
                     Items := some (.courses (some [.mk 1 "Math" none (some [])])) }] }
      ∧ (course.Handler.FindAllCourses
          { Service := course.NewCourseService (stub.DB none)
              (stub.courseRepository (stub.found stub.math))
              (stub.teacherRepository (stub.found stub.newton)) }
          (gin.newContext (fun _ => "") (Except.ok ())) 0).2 = 2)
    ∧ (gin.response (course.Handler.DeleteCourseById
          { Service := course.NewCourseService (stub.DB none)
              (stub.courseRepository (stub.found stub.math))
              (stub.teacherRepository (stub.found stub.newton)) }
          (gin.newContext (fun _ => "1") (Except.ok ())) 0)
        = some { status := 204, written := false, body := [] }
      ∧ (course.Handler.DeleteCourseById
          { Service := course.NewCourseService (stub.DB none)
              (stub.courseRepository (stub.found stub.math))
              (stub.teacherRepository (stub.found stub.newton)) }
          (gin.newContext (fun _ => "1") (Except.ok ())) 0).2 = 1) :=
  ⟨(@handlers_success_status Nat Unit 0).2.2.2.2.2.1 _ _ { Title := "Math" } _ _ rfl rfl
      rfl,
   (@handlers_success_status Nat Unit 0).2.2.2.2.2.2.2.2.1 _ _ 1 _ 1 2 rfl rfl rfl,
   (@handlers_success_status Nat Unit 0).2.2.2.2.2.2.2.2.2.1 _ _ 1 _ rfl (by decide) rfl⟩

/-- What holds of C20: when the service reports gorm's record-not-found error, also
wrapped, each of the four FindById handlers answers with status 404 and a first body
naming the missing entity.  The student handler goes on after the error and writes the
nil response after it. -/
theorem FindById_handlers_not_found {σ ρ : Type} (w : σ) :
    (∀ (h : student.StudentHandler σ) (c : gin.Context ρ) (id : Nat)
        (x : Option response.StudentResponse) (err : Error) (w1 : σ),
      c.Writer = gin.newWriter → spec.uint32Value (c.Param "id") = some id →
      h.Service.FindStudentById id w = (.returned (x, some err), w1) →
      errors.IsErrRecordNotFound err = true →
      gin.response (h.FindStudentById c w)
        = some { status := 404, written := true,
                 body := [gin.H "error" "student not found", json.ofStudentResponsePtr x] })
    ∧ (∀ (h : course.Handler σ) (c : gin.Context ρ) (id : Nat)
        (x : Option response.CourseResponse) (err : Error) (w1 : σ),
      c.Writer = gin.newWriter → spec.uint32Value (c.Param "id") = some id →
      h.Service.FindCourseById id w = (.returned (x, some err), w1) →
      errors.IsErrRecordNotFound err = true →
      gin.response (h.FindCourseById c w)
        = some { status := 404, written := true,
                 body := [gin.H "error" "course not found"] })
    ∧ (∀ (h : teacher.TeacherHandler σ) (c : gin.Context ρ) (id : Nat)
        (x : Option response.TeacherResponse) (err : Error) (w1 : σ),
      c.Writer = gin.newWriter → spec.uint32Value (c.Param "id") = some id →
      h.Service.FindTeacherById id w = (.returned (x, some err), w1) →
      errors.IsErrRecordNotFound err = true →
      gin.response (h.FindTeacherById c w)
        = some { status := 404, written := true,
                 body := [gin.H "error" "teacher not found"] })
    ∧ (∀ (h : department.DepartmentHandler σ) (c : gin.Context ρ) (id : Nat)
        (x : Option response.DepartmentResponse) (err : Error) (w1 : σ),
      c.Writer = gin.newWriter → spec.uint32Value (c.Param "id") = some id →
      h.Service.FindDepartmentById id w = (.returned (x, some err), w1) →
      errors.IsErrRecordNotFound err = true →
      gin.response (h.FindDepartmentById c w)
        = some { status := 404, written := true,
                 body := [gin.H "error" "department not found"] }) := by
  refine ⟨?_, ?_, ?_, ?_⟩
  · intro h c id x err w1 hfresh hp hs hnf
    have h1 := (ParseUintBase10_32 _).1 id hp
    unfold student.StudentHandler.FindStudentById
    rw [h1]
    simp only []
    rw [hs]
    simp only []
    rw [if_pos hnf]
    unfold gin.response
    simp only []
    unfold gin.Context.JSON gin.Context.Status
    rw [hfresh]
    rfl
  · intro h c id x err w1 hfresh hp hs hnf
    have h1 := (ParseUintBase10_32 _).1 id hp
    unfold course.Handler.FindCourseById
    rw [h1]
    simp only []
    rw [hs]
    simp only []
    rw [if_pos hnf]
    exact response_JSON c _ _ _ hfresh (by decide)
  · intro h c id x err w1 hfresh hp hs hnf
    have h1 := (ParseUintBase10_32 _).1 id hp
    unfold teacher.TeacherHandler.FindTeacherById
    rw [h1]
    simp only []
    rw [hs]
    simp only []
    rw [if_pos hnf]
    exact response_JSON c _ _ _ hfresh (by decide)
  · intro h c id x err w1 hfresh hp hs hnf
    have h1 := (ParseUintBase10_32 _).1 id hp
    unfold department.DepartmentHandler.FindDepartmentById
    rw [h1]
    simp only []
    rw [hs]
    simp only []
    rw [if_pos hnf]
    exact response_JSON c _ _ _ hfresh (by decide)

/-- C20 fails on the code: for `GET /students/7/courses` on a store without student 7,
the service reports gorm's record-not-found error and the `FindAllCoursesByStudentId`
handler answers 500 with "failed to get all courses"; the `FindStudentById` handler
answers the same lookup with status 404 and "student not found". -/
theorem FindAllCoursesByStudentId_not_found_is_500 :
    spec.uint32Value "7" = some 7
    ∧ student.service.FindStudentById store.studentService 7 store.empty
        = (.returned (none, some .ErrRecordNotFound),
            store.empty.record (.StudentFindById 7))
    ∧ errors.IsErrRecordNotFound .ErrRecordNotFound = true
    ∧ gin.response (student.StudentHandler.FindAllCoursesByStudentId
        { Service := student.NewStudentService store.DB store.studentRepository
            store.courseRepository }
        (gin.newContext (fun _ => "7") (Except.ok ())) store.empty)
      = some { status := 500, written := true,
               body := [gin.H "error" "failed to get all courses"] }
    ∧ gin.response (student.StudentHandler.FindStudentById
        { Service := student.NewStudentService store.DB store.studentRepository
            store.courseRepository }
        (gin.newContext (fun _ => "7") (Except.ok ())) store.empty)
      = some { status := 404, written := true,
               body := [gin.H "error" "student not found", .null] } :=
  ⟨by decide, rfl, rfl, rfl, rfl⟩

/-! ## Invariants of `pagination.New` -/

theorem New_PerPage_page_irrelevant (page perPage total : Int) :
    (New page perPage total).PerPage = (New 1 perPage total).PerPage := rfl

theorem New_PageCount_page_irrelevant (page perPage total : Int) :
    (New page perPage total).PageCount = (New 1 perPage total).PageCount := rfl

theorem New_page_ge_one (page perPage total : Int) : 1 ≤ (New page perPage total).Page := by
  rw [New_page_eq]
  split_ifs <;> omega

/-- The offset of a result of `New` for a non-negative total, without wrap-around. -/
theorem New_offset_eq (page perPage total : Int) (h0 : 0 ≤ total) :
    (New page perPage total).Offset
      = ((New page perPage total).Page - 1) * (New page perPage total).PerPage := by
  rw [Offset_eq_wrapInt, wrapInt_eq_self (New_offset_fits page perPage total h0)]

/-- When the sum `total + PerPage - 1` fits an `int` and total is at least 1, the page
count is at least 1 and the page before the last one ends below total. -/
theorem New_pageCount_pos (page perPage total : Int) (h1 : 1 ≤ total)
    (hfit : total + (New page perPage total).PerPage - 1 ≤ maxInt) :
    1 ≤ (New page perPage total).PageCount
    ∧ ((New page perPage total).PageCount - 1) * (New page perPage total).PerPage < total
    ∧ total ≤ (New page perPage total).PageCount * (New page perPage total).PerPage := by
  obtain ⟨hp1, _⟩ := New_perPage_bounds page perPage total
  have hpc := New_pageCount_of_fits page perPage total (by omega) hfit
  obtain ⟨hc1, hc2⟩ := tdiv_ceil (show 0 ≤ total by omega) hp1
  rw [← hpc] at hc1 hc2
  generalize (New page perPage total).PerPage = pp at *
  generalize (New page perPage total).PageCount = pc at *
  have hpos : 1 ≤ pc := by
    by_contra hneg
    have hle : pc ≤ 0 := by omega
    have := Int.mul_le_mul_of_nonneg_right hle (show 0 ≤ pp by omega)
    omega
  refine ⟨hpos, ?_, hc1⟩
  by_contra hge
  have := hc2 (pc - 1) (by omega)
  omega

/-- For a total of at least 1 the offset of the result of `New` is below total. -/
theorem New_offset_lt_total (page perPage total : Int) (h1 : 1 ≤ total) :
    0 ≤ (New page perPage total).Offset ∧ (New page perPage total).Offset < total := by
  have h0 : 0 ≤ total := by omega
  rw [New_offset_eq page perPage total h0]
  obtain ⟨hp1, hp2⟩ := New_perPage_bounds page perPage total
  have hpg1 := New_page_ge_one page perPage total
  have hpc := New_pageCount_eq page perPage total h0
  have hpage := New_page_eq page perPage total
  rw [if_pos (show total ≥ 0 from h0)] at hpage
  generalize (New page perPage total).PerPage = pp at *
  generalize (New page perPage total).PageCount = pc at *
  generalize (New page perPage total).Page = pg at *
  have hnn : 0 ≤ (pg - 1) * pp := Int.mul_nonneg (by omega) (by omega)
  refine ⟨hnn, ?_⟩
  by_cases hpg : pg ≤ 1
  · have hpg1 : pg = 1 := by omega
    subst hpg1; simp; omega
  · have hle : pg ≤ pc := by
      split_ifs at hpage <;> omega
    obtain ⟨ha1, ha2⟩ := wrapInt_isInt (total + pp)
    change minInt ≤ addInt total pp at ha1
    change addInt total pp ≤ maxInt at ha2
    have ha3 : addInt total pp ≤ total + pp := by
      unfold addInt wrapInt; omega
    obtain ⟨hn1, hn2⟩ := wrapInt_isInt (addInt total pp - 1)
    change minInt ≤ subInt (addInt total pp) 1 at hn1
    change subInt (addInt total pp) 1 ≤ maxInt at hn2
    have hn3 : subInt (addInt total pp) 1 ≤ total + pp - 1 := by
      clear hpage hpc hnn
      unfold subInt addInt wrapInt
      omega
    generalize subInt (addInt total pp) 1 = num at *
    unfold minInt at hn1
    unfold maxInt at hn2
    have hnumpos : 0 ≤ num := by
      by_contra hneg
      have h1' : Int.tdiv num pp = -(Int.tdiv (-num) pp) := by
        rw [Int.neg_tdiv, neg_neg]
      have h2 : 0 ≤ Int.tdiv (-num) pp := Int.tdiv_nonneg (by omega) (by omega)
      have h3 : Int.tdiv (-num) pp ≤ -num := by
        rw [Int.tdiv_eq_ediv (by omega) (by omega)]
        exact Int.ediv_le_self _ (by omega)
      have hw' : wrapInt (Int.tdiv num pp) = Int.tdiv num pp := by
        apply wrapInt_eq_self
        unfold IsInt minInt maxInt; omega
      unfold divInt at hpc
      omega
    have hq : pc = num / pp := by
      rw [hpc]; unfold divInt
      rw [Int.tdiv_eq_ediv hnumpos (by omega)]
      apply wrapInt_eq_self
      have := Int.ediv_le_self pp hnumpos
      have := Int.ediv_nonneg hnumpos (show 0 ≤ pp by omega)
      unfold IsInt minInt maxInt; omega
    have hdm := Int.ediv_add_emod num pp
    have hr0 := Int.emod_nonneg num (show pp ≠ 0 by omega)
    have hmul : (pg - 1) * pp ≤ (pc - 1) * pp :=
      Int.mul_le_mul_of_nonneg_right (by omega) (by omega)
    have hnum := hn3
    rw [hq] at hmul
    nlinarith

/-! ## Storage errors of the existence checks -/

/-- An existence check that reported an error makes the condition `err != nil ||
!exists` of the services hold. -/
theorem check_errored {α : Type} (r : (Bool × Option Error) × α) (e : Error)
    (h : r.1.2 = some e) : (r.1.2.isSome || !r.1.1) = true :=
  check_failed r (Or.inl (by rw [h]; exact fun hn => nomatch hn))

/-- C21 (amended): for `SetTeacherToCourse`, `DepartmentSetTeacher` and
`AddCourseToStudent`, whenever a repository `ExistsById` call fails with a storage
error, on the first side or, after the first check has passed, on the second, the
service drops that error and returns the not-found error of that side, in the world the
failed check left, and the handler answers HTTP 404 with that side's "not found"
message, exactly as for a row that is absent; it does not answer 500. -/
theorem relationship_existence_error_is_404 {σ ρ : Type} (w : σ) (e : Error) :
    (∀ (DB : gorm.DB σ) (cr : course.Repository σ) (tr : teacher.Repository σ)
        (c : gin.Context ρ) (a b : Nat), c.Writer = gin.newWriter →
      spec.uint32Value (c.Param "courseId") = some a →
      spec.uint32Value (c.Param "teacherId") = some b →
      ((cr.ExistsById a w).1.2 = some e →
        (course.NewCourseService DB cr tr).SetTeacherToCourse a b w
          = (.returned (none, some (.New "course not found")), (cr.ExistsById a w).2)
        ∧ gin.response (course.Handler.SetTeacherToCourse
              { Service := course.NewCourseService DB cr tr } c w)
          = some { status := 404, written := true,
                   body := [gin.H "error" "course not found"] })
      ∧ ((cr.ExistsById a w).1 = (true, none) →
        (tr.ExistsById b (cr.ExistsById a w).2).1.2 = some e →
        (course.NewCourseService DB cr tr).SetTeacherToCourse a b w
          = (.returned (none, some (.New "teacher not found")),
              (tr.ExistsById b (cr.ExistsById a w).2).2)
        ∧ gin.response (course.Handler.SetTeacherToCourse
              { Service := course.NewCourseService DB cr tr } c w)
          = some { status := 404, written := true,
                   body := [gin.H "error" "teacher not found"] }))
    ∧ (∀ (DB : gorm.DB σ) (dr : department.Repository σ) (tr : teacher.Repository σ)
        (c : gin.Context ρ) (a b : Nat), c.Writer = gin.newWriter →
      spec.uint32Value (c.Param "departmentId") = some a →
      spec.uint32Value (c.Param "teacherId") = some b →
      ((dr.ExistsById a w).1.2 = some e →
        (department.NewDepartmentService DB dr tr).DepartmentSetTeacher a b w
          = (.returned (none, some (.New "department not found")), (dr.ExistsById a w).2)
        ∧ gin.response (department.DepartmentHandler.DepartmentSetTeacher
              { Service := department.NewDepartmentService DB dr tr } c w)
          = some { status := 404, written := true,
                   body := [gin.H "error" "department not found"] })
      ∧ ((dr.ExistsById a w).1 = (true, none) →
        (tr.ExistsById b (dr.ExistsById a w).2).1.2 = some e →
        (department.NewDepartmentService DB dr tr).DepartmentSetTeacher a b w
          = (.returned (none, some (.New "teacher not found")),
              (tr.ExistsById b (dr.ExistsById a w).2).2)
        ∧ gin.response (department.DepartmentHandler.DepartmentSetTeacher
              { Service := department.NewDepartmentService DB dr tr } c w)
          = some { status := 404, written := true,
                   body := [gin.H "error" "teacher not found"] }))
    ∧ (∀ (DB : gorm.DB σ) (sr : student.Repository σ) (cr : course.Repository σ)
        (c : gin.Context ρ) (a b : Nat), c.Writer = gin.newWriter →
      spec.uint32Value (c.Param "studentId") = some a →
      spec.uint32Value (c.Param "courseId") = some b →
      ((sr.ExistsById a w).1.2 = some e →
        (student.NewStudentService DB sr cr).AddCourseToStudent a b w
          = (.returned (none, some (.New "student not found")), (sr.ExistsById a w).2)
        ∧ gin.response (student.StudentHandler.StudentAddCourse
              { Service := student.NewStudentService DB sr cr } c w)
          = some { status := 404, written := true,
                   body := [gin.H "error" "student not found"] })
      ∧ ((sr.ExistsById a w).1 = (true, none) →
        (cr.ExistsById b (sr.ExistsById a w).2).1.2 = some e →
        (student.NewStudentService DB sr cr).AddCourseToStudent a b w
          = (.returned (none, some (.New "course not found")),
              (cr.ExistsById b (sr.ExistsById a w).2).2)
        ∧ gin.response (student.StudentHandler.StudentAddCourse
              { Service := student.NewStudentService DB sr cr } c w)
          = some { status := 404, written := true,
                   body := [gin.H "error" "course not found"] })) := by
  refine ⟨?_, ?_, ?_⟩
  · intro DB cr tr c a b hfresh hp1 hp2
    have h1 := (ParseUintBase10_32 _).1 a hp1
    have h2 := (ParseUintBase10_32 _).1 b hp2
    refine ⟨?_, ?_⟩
    · intro he
      have hc := check_errored _ e he
      have hs : (course.NewCourseService DB cr tr).SetTeacherToCourse a b w
          = (.returned (none, some (.New "course not found")), (cr.ExistsById a w).2) := by
        simp only [course.NewCourseService, course.service.SetTeacherToCourse]
        rw [if_pos hc]
      refine ⟨hs, ?_⟩
      unfold course.Handler.SetTeacherToCourse
      rw [h1]
      simp only []
      rw [h2]
      simp only []
      rw [hs]
      exact response_JSON c _ _ _ hfresh (by decide)
    · intro hok he
      have hc1 := check_passed _ (show (cr.ExistsById a w).1.2 = none
        ∧ (cr.ExistsById a w).1.1 = true by rw [hok]; exact ⟨rfl, rfl⟩)
      have hc2 := check_errored _ e he
      have hs : (course.NewCourseService DB cr tr).SetTeacherToCourse a b w
          = (.returned (none, some (.New "teacher not found")),
              (tr.ExistsById b (cr.ExistsById a w).2).2) := by
        simp only [course.NewCourseService, course.service.SetTeacherToCourse]
        rw [if_neg (by rw [hc1]; exact Bool.false_ne_true), if_pos hc2]
      refine ⟨hs, ?_⟩
      unfold course.Handler.SetTeacherToCourse
      rw [h1]
      simp only []
      rw [h2]
      simp only []
      rw [hs]
      exact response_JSON c _ _ _ hfresh (by decide)
  · intro DB dr tr c a b hfresh hp1 hp2
    have h1 := (ParseUintBase10_32 _).1 a hp1
    have h2 := (ParseUintBase10_32 _).1 b hp2
    refine ⟨?_, ?_⟩
    · intro he
      have hc := check_errored _ e he
      have hs : (department.NewDepartmentService DB dr tr).DepartmentSetTeacher a b w
          = (.returned (none, some (.New "department not found")),
              (dr.ExistsById a w).2) := by
        simp only [department.NewDepartmentService, department.service.DepartmentSetTeacher]
        rw [if_pos hc]
      refine ⟨hs, ?_⟩
      unfold department.DepartmentHandler.DepartmentSetTeacher
      rw [h1]
      simp only []
      rw [h2]
      simp only []
      rw [hs]
      exact response_JSON c _ _ _ hfresh (by decide)
    · intro hok he
      have hc1 := check_passed _ (show (dr.ExistsById a w).1.2 = none
        ∧ (dr.ExistsById a w).1.1 = true by rw [hok]; exact ⟨rfl, rfl⟩)
      have hc2 := check_errored _ e he
      have hs : (department.NewDepartmentService DB dr tr).DepartmentSetTeacher a b w
          = (.returned (none, some (.New "teacher not found")),
              (tr.ExistsById b (dr.ExistsById a w).2).2) := by
        simp only [department.NewDepartmentService, department.service.DepartmentSetTeacher]
        rw [if_neg (by rw [hc1]; exact Bool.false_ne_true), if_pos hc2]
      refine ⟨hs, ?_⟩
      unfold department.DepartmentHandler.DepartmentSetTeacher
      rw [h1]
      simp only []
      rw [h2]
      simp only []
      rw [hs]
      exact response_JSON c _ _ _ hfresh (by decide)
  · intro DB sr cr c a b hfresh hp1 hp2
    have h1 := (ParseUintBase10_32 _).1 a hp1
    have h2 := (ParseUintBase10_32 _).1 b hp2
    refine ⟨?_, ?_⟩
    · intro he
      have hc := check_errored _ e he
      have hs : (student.NewStudentService DB sr cr).AddCourseToStudent a b w
          = (.returned (none, some (.New "student not found")), (sr.ExistsById a w).2) := by
        simp only [student.NewStudentService, student.service.AddCourseToStudent]
        rw [if_pos hc]
      refine ⟨hs, ?_⟩
      unfold student.StudentHandler.StudentAddCourse
      rw [h1]
      simp only []
      rw [h2]
      simp only []
      rw [hs]
      exact response_JSON c _ _ _ hfresh (by decide)
    · intro hok he
      have hc1 := check_passed _ (show (sr.ExistsById a w).1.2 = none
        ∧ (sr.ExistsById a w).1.1 = true by rw [hok]; exact ⟨rfl, rfl⟩)
      have hc2 := check_errored _ e he
      have hs : (student.NewStudentService DB sr cr).AddCourseToStudent a b w
          = (.returned (none, some (.New "course not found")),
              (cr.ExistsById b (sr.ExistsById a w).2).2) := by
        simp only [student.NewStudentService, student.service.AddCourseToStudent]
        rw [if_neg (by rw [hc1]; exact Bool.false_ne_true), if_pos hc2]
      refine ⟨hs, ?_⟩
      unfold student.StudentHandler.StudentAddCourse
      rw [h1]
      simp only []
      rw [h2]
      simp only []
      rw [hs]
      exact response_JSON c _ _ _ hfresh (by decide)

/-- Witness of C21: on the sample database with its connection down,
`POST /courses/1/teacher/1` is answered with 404 and "course not found"; and with a
course repository that finds the course and a teacher repository whose check fails with
"connection reset", it is answered with 404 and "teacher not found". -/
theorem relationship_existence_error_is_404_witness :
    ((course.NewCourseRepository.ExistsById 1 dbcontext.unreachable).1.2
        = some (.New "dial tcp: connection refused")
      ∧ spec.uint32Value "1" = some 1)
    ∧ ((course.NewCourseService dbcontext.DB course.NewCourseRepository
          teacher.NewTeacherRepository).SetTeacherToCourse 1 1 dbcontext.unreachable
        = (.returned (none, some (.New "course not found")),
            (course.NewCourseRepository.ExistsById 1 dbcontext.unreachable).2)
      ∧ gin.response (course.Handler.SetTeacherToCourse
            { Service := course.NewCourseService dbcontext.DB course.NewCourseRepository
                teacher.NewTeacherRepository }
            (gin.newContext (fun _ => "1") (Except.ok ())) dbcontext.unreachable)
        = some { status := 404, written := true,
                 body := [gin.H "error" "course not found"] })
    ∧ ((course.NewCourseService (stub.DB none) (stub.courseRepository (stub.found stub.math))
          (stub.teacherRepository (stub.failing (.New "connection reset")))).SetTeacherToCourse
          1 1 0
        = (.returned (none, some (.New "teacher not found")), 2)
      ∧ gin.response (course.Handler.SetTeacherToCourse
            { Service := course.NewCourseService (stub.DB none)
                (stub.courseRepository (stub.found stub.math))
                (stub.teacherRepository (stub.failing (.New "connection reset"))) }
            (gin.newContext (fun _ => "1") (Except.ok ())) 0)
        = some { status := 404, written := true,
                 body := [gin.H "error" "teacher not found"] }) :=
  ⟨⟨rfl, by decide⟩,
   ((@relationship_existence_error_is_404 dbcontext.Database Unit dbcontext.unreachable
      (.New "dial tcp: connection refused")).1
      dbcontext.DB course.NewCourseRepository teacher.NewTeacherRepository
      (gin.newContext (fun _ => "1") (Except.ok ())) 1 1 rfl (by decide) (by decide)).1 rfl,
   ((@relationship_existence_error_is_404 Nat Unit 0 (.New "connection reset")).1
      (stub.DB none) (stub.courseRepository (stub.found stub.math))
      (stub.teacherRepository (stub.failing (.New "connection reset")))
      (gin.newContext (fun _ => "1") (Except.ok ())) 1 1 rfl (by decide) (by decide)).2
      rfl rfl⟩

/-- C21 fails as stated: on the sample database with its connection down, the course
repository's `ExistsById(1)` fails with the storage error "dial tcp: connection
refused", and `POST /courses/1/teacher/1` is answered with HTTP 404 and "course not
found", not with 500; `POST /students/1/courses/1` and `POST /departments/1/teacher/1`
are answered with 404 in the same way. -/
theorem existence_error_answered_not_found :
    (course.repository.ExistsById 1 dbcontext.unreachable
        = ((false, some (.New "dial tcp: connection refused")), dbcontext.unreachable)
      ∧ student.repository.ExistsById 1 dbcontext.unreachable
        = ((false, some (.New "dial tcp: connection refused")), dbcontext.unreachable)
      ∧ department.repository.ExistsById 1 dbcontext.unreachable
        = ((false, some (.New "dial tcp: connection refused")), dbcontext.unreachable))
    ∧ (gin.response (course.Handler.SetTeacherToCourse
          { Service := course.NewCourseService dbcontext.DB course.NewCourseRepository
              teacher.NewTeacherRepository }
          (gin.newContext (fun _ => "1") (Except.ok ())) dbcontext.unreachable)
        = some { status := 404, written := true,
                 body := [gin.H "error" "course not found"] }
      ∧ (gin.response (course.Handler.SetTeacherToCourse
          { Service := course.NewCourseService dbcontext.DB course.NewCourseRepository
              teacher.NewTeacherRepository }
          (gin.newContext (fun _ => "1") (Except.ok ())) dbcontext.unreachable)).map
            (fun r => r.status) ≠ some 500)
    ∧ (gin.response (student.StudentHandler.StudentAddCourse
          { Service := student.NewStudentService dbcontext.DB student.NewStudentRepository
              course.NewCourseRepository }
          (gin.newContext (fun _ => "1") (Except.ok ())) dbcontext.unreachable)
        = some { status := 404, written := true,
                 body := [gin.H "error" "student not found"] })
    ∧ (gin.response (department.DepartmentHandler.DepartmentSetTeacher
          { Service := department.NewDepartmentService dbcontext.DB
              department.NewDepartmentRepository teacher.NewTeacherRepository }
          (gin.newContext (fun _ => "1") (Except.ok ())) dbcontext.unreachable)
        = some { status := 404, written := true,
                 body := [gin.H "error" "department not found"] }) :=
  ⟨⟨rfl, rfl, rfl⟩, ⟨rfl, by decide⟩, rfl, rfl⟩

/-! ## The list handlers -/

/-- The envelope of a list handler: page size between 1 and 1000, page at least 1, and
the count as total. -/
theorem NewFromRequest_bounds (req : http.Request) (count : Int) :
    1 ≤ (NewFromRequest req count).PerPage ∧ (NewFromRequest req count).PerPage ≤ 1000
    ∧ 1 ≤ (NewFromRequest req count).Page ∧ (NewFromRequest req count).TotalCount = count := by
  rw [NewFromRequest_unfold]
  exact ⟨(New_perPage_bounds _ _ _).1, (New_perPage_bounds _ _ _).2, New_page_ge_one _ _ _, rfl⟩

/-- C22: for each list handler, every request and every world: when `Count` fails the
handler answers 500 with its "failed to count" body and leaves the world `Count` left,
so `FindAll` is not called; when `Count` returns `count`, the envelope built from the
query string has `1 ≤ PerPage ≤ 1000`, `Page ≥ 1` and total `count`, the handler calls
the service's `FindAll` once, on the world `Count` left and with the envelope's `Page`
and `PerPage`, and leaves the world that call left; when that call succeeds the handler
answers 200 with the envelope whose `total_count` is `count` and whose `items` is the
list `FindAll` returned, and when it fails the handler answers 500. -/
theorem list_handlers_paginate {σ ρ : Type} (c : gin.Context ρ) (w : σ)
    (hfresh : c.Writer = gin.newWriter) :
    (∀ h : student.StudentHandler σ,
      (∀ n err w1, h.Service.Count w = (.returned (n, some err), w1) →
        h.FindAllStudents c w
          = (.returned (c.JSON 500 (gin.H "error" "failed to count students")), w1)
        ∧ gin.response (h.FindAllStudents c w)
          = some { status := 500, written := true,
                   body := [gin.H "error" "failed to count students"] })
      ∧ (∀ count w1, h.Service.Count w = (.returned (count, none), w1) →
        (1 ≤ (NewFromRequest c.Request count).PerPage
          ∧ (NewFromRequest c.Request count).PerPage ≤ 1000
          ∧ 1 ≤ (NewFromRequest c.Request count).Page
          ∧ (NewFromRequest c.Request count).TotalCount = count)
        ∧ (∀ items w2,
            h.Service.FindAllStudent (NewFromRequest c.Request count).Page
              (NewFromRequest c.Request count).PerPage w1 = (.returned (items, none), w2) →
            (h.FindAllStudents c w).2 = w2
            ∧ gin.response (h.FindAllStudents c w)
              = some { status := 200, written := true,
                       body := [.object
                         [("page", .number (NewFromRequest c.Request count).Page),
                          ("per_page", .number (NewFromRequest c.Request count).PerPage),
                          ("page_count", .number (NewFromRequest c.Request count).PageCount),
                          ("total_count", .number count),
                          ("items", json.ofStudentResponses items)]] })
        ∧ (∀ x err w2,
            h.Service.FindAllStudent (NewFromRequest c.Request count).Page
              (NewFromRequest c.Request count).PerPage w1 = (.returned (x, some err), w2) →
            (h.FindAllStudents c w).2 = w2
            ∧ gin.response (h.FindAllStudents c w)
              = some { status := 500, written := true,
                       body := [gin.H "error" "failed to get students"] })))
    ∧ (∀ h : course.Handler σ,
      (∀ n err w1, h.Service.Count w = (.returned (n, some err), w1) →
        h.FindAllCourses c w
          = (.returned (c.JSON 500 (gin.H "error" "failed to count courses")), w1)
        ∧ gin.response (h.FindAllCourses c w)
          = some { status := 500, written := true,
                   body := [gin.H "error" "failed to count courses"] })
      ∧ (∀ count w1, h.Service.Count w = (.returned (count, none), w1) →
        (1 ≤ (NewFromRequest c.Request count).PerPage
          ∧ (NewFromRequest c.Request count).PerPage ≤ 1000
          ∧ 1 ≤ (NewFromRequest c.Request count).Page
          ∧ (NewFromRequest c.Request count).TotalCount = count)
        ∧ (∀ items w2,
            h.Service.FindAllCourse (NewFromRequest c.Request count).Page
              (NewFromRequest c.Request count).PerPage w1 = (.returned (items, none), w2) →
            (h.FindAllCourses c w).2 = w2
            ∧ gin.response (h.FindAllCourses c w)
              = some { status := 200, written := true,
                       body := [.object
                         [("page", .number (NewFromRequest c.Request count).Page),
                          ("per_page", .number (NewFromRequest c.Request count).PerPage),
                          ("page_count", .number (NewFromRequest c.Request count).PageCount),
                          ("total_count", .number count),
                          ("items", json.ofCourseResponses items)]] })
        ∧ (∀ x err w2,
            h.Service.FindAllCourse (NewFromRequest c.Request count).Page
              (NewFromRequest c.Request count).PerPage w1 = (.returned (x, some err), w2) →
            (h.FindAllCourses c w).2 = w2
            ∧ gin.response (h.FindAllCourses c w)
              = some { status := 500, written := true,
                       body := [gin.H "error" "failed to get all courses"] })))
    ∧ (∀ h : teacher.TeacherHandler σ,
      (∀ n err w1, h.Service.Count w = (.returned (n, some err), w1) →
        h.FindAllTeachers c w
          = (.returned (c.JSON 500 (gin.H "error" "failed to count teachers")), w1)
        ∧ gin.response (h.FindAllTeachers c w)
          = some { status := 500, written := true,
                   body := [gin.H "error" "failed to count teachers"] })
      ∧ (∀ count w1, h.Service.Count w = (.returned (count, none), w1) →
        (1 ≤ (NewFromRequest c.Request count).PerPage
          ∧ (NewFromRequest c.Request count).PerPage ≤ 1000
          ∧ 1 ≤ (NewFromRequest c.Request count).Page
          ∧ (NewFromRequest c.Request count).TotalCount = count)
        ∧ (∀ items w2,
            h.Service.FindAllTeachers (NewFromRequest c.Request count).Page
              (NewFromRequest c.Request count).PerPage w1 = (.returned (items, none), w2) →
            (h.FindAllTeachers c w).2 = w2
            ∧ gin.response (h.FindAllTeachers c w)
              = some { status := 200, written := true,
                       body := [.object
                         [("page", .number (NewFromRequest c.Request count).Page),
                          ("per_page", .number (NewFromRequest c.Request count).PerPage),
                          ("page_count", .number (NewFromRequest c.Request count).PageCount),
                          ("total_count", .number count),
                          ("items", json.ofTeacherResponses items)]] })
        ∧ (∀ x err w2,
            h.Service.FindAllTeachers (NewFromRequest c.Request count).Page
              (NewFromRequest c.Request count).PerPage w1 = (.returned (x, some err), w2) →
            (h.FindAllTeachers c w).2 = w2
            ∧ gin.response (h.FindAllTeachers c w)
              = some { status := 500, written := true,
                       body := [gin.H "error" "failed to get all teachers"] })))
    ∧ (∀ h : department.DepartmentHandler σ,
      (∀ n err w1, h.Service.Count w = (.returned (n, some err), w1) →
        h.FindAllDepartments c w
          = (.returned (c.JSON 500 (gin.H "error" "failed to count departments")), w1)
        ∧ gin.response (h.FindAllDepartments c w)
          = some { status := 500, written := true,
                   body := [gin.H "error" "failed to count departments"] })
      ∧ (∀ count w1, h.Service.Count w = (.returned (count, none), w1) →
        (1 ≤ (NewFromRequest c.Request count).PerPage
          ∧ (NewFromRequest c.Request count).PerPage ≤ 1000
          ∧ 1 ≤ (NewFromRequest c.Request count).Page
          ∧ (NewFromRequest c.Request count).TotalCount = count)
        ∧ (∀ items w2,
            h.Service.FindAllDepartments (NewFromRequest c.Request count).Page
              (NewFromRequest c.Request count).PerPage w1 = (.returned (items, none), w2) →
            (h.FindAllDepartments c w).2 = w2
            ∧ gin.response (h.FindAllDepartments c w)
              = some { status := 200, written := true,
                       body := [.object
                         [("page", .number (NewFromRequest c.Request count).Page),
                          ("per_page", .number (NewFromRequest c.Request count).PerPage),
                          ("page_count", .number (NewFromRequest c.Request count).PageCount),
                          ("total_count", .number count),
                          ("items", json.ofDepartmentResponses items)]] })
        ∧ (∀ x err w2,
            h.Service.FindAllDepartments (NewFromRequest c.Request count).Page
              (NewFromRequest c.Request count).PerPage w1 = (.returned (x, some err), w2) →
            (h.FindAllDepartments c w).2 = w2
            ∧ gin.response (h.FindAllDepartments c w)
              = some { status := 500, written := true,
                       body := [gin.H "error" "failed to get departments"] }))) := by
  refine ⟨?_, ?_, ?_, ?_⟩
  · intro h
    refine ⟨?_, ?_⟩
    · intro n err w1 hc
      have e : h.FindAllStudents c w
          = (.returned (c.JSON 500 (gin.H "error" "failed to count students")), w1) := by
        unfold student.StudentHandler.FindAllStudents
        rw [hc]
      exact ⟨e, by rw [e]; exact response_JSON c _ _ _ hfresh (by decide)⟩
    · intro count w1 hc
      refine ⟨NewFromRequest_bounds c.Request count, ?_, ?_⟩
      · intro items w2 hf
        have e : h.FindAllStudents c w
            = (.returned (c.JSON 200 (json.ofPages
                { NewFromRequest c.Request count with Items := some (.students items) })),
                w2) := by
          unfold student.StudentHandler.FindAllStudents
          rw [hc]
          simp only []
          rw [hf]
        rw [e]
        exact ⟨rfl, response_JSON c _ _ _ hfresh (by decide)⟩
      · intro x err w2 hf
        have e : h.FindAllStudents c w
            = (.returned (c.JSON 500 (gin.H "error" "failed to get students")), w2) := by
          unfold student.StudentHandler.FindAllStudents
          rw [hc]
          simp only []
          rw [hf]
        rw [e]
        exact ⟨rfl, response_JSON c _ _ _ hfresh (by decide)⟩
  · intro h
    refine ⟨?_, ?_⟩
    · intro n err w1 hc
      have e : h.FindAllCourses c w
          = (.returned (c.JSON 500 (gin.H "error" "failed to count courses")), w1) := by
        unfold course.Handler.FindAllCourses
        rw [hc]
      exact ⟨e, by rw [e]; exact response_JSON c _ _ _ hfresh (by decide)⟩
    · intro count w1 hc
      refine ⟨NewFromRequest_bounds c.Request count, ?_, ?_⟩
      · intro items w2 hf
        have e : h.FindAllCourses c w
            = (.returned (c.JSON 200 (json.ofPages
                { NewFromRequest c.Request count with Items := some (.courses items) })),
                w2) := by
          unfold course.Handler.FindAllCourses
          rw [hc]
          simp only []
          rw [hf]
        rw [e]
        exact ⟨rfl, response_JSON c _ _ _ hfresh (by decide)⟩
      · intro x err w2 hf
        have e : h.FindAllCourses c w
            = (.returned (c.JSON 500 (gin.H "error" "failed to get all courses")), w2) := by
          unfold course.Handler.FindAllCourses
          rw [hc]
          simp only []
          rw [hf]
        rw [e]
        exact ⟨rfl, response_JSON c _ _ _ hfresh (by decide)⟩
  · intro h
    refine ⟨?_, ?_⟩
    · intro n err w1 hc
      have e : h.FindAllTeachers c w
          = (.returned (c.JSON 500 (gin.H "error" "failed to count teachers")), w1) := by
        unfold teacher.TeacherHandler.FindAllTeachers
        rw [hc]
      exact ⟨e, by rw [e]; exact response_JSON c _ _ _ hfresh (by decide)⟩
    · intro count w1 hc
      refine ⟨NewFromRequest_bounds c.Request count, ?_, ?_⟩
      · intro items w2 hf
        have e : h.FindAllTeachers c w
            = (.returned (c.JSON 200 (json.ofPages
                { NewFromRequest c.Request count with Items := some (.teachers items) })),
                w2) := by
          unfold teacher.TeacherHandler.FindAllTeachers
          rw [hc]
          simp only []
          rw [hf]
        rw [e]
        exact ⟨rfl, response_JSON c _ _ _ hfresh (by decide)⟩
      · intro x err w2 hf
        have e : h.FindAllTeachers c w
            = (.returned (c.JSON 500 (gin.H "error" "failed to get all teachers")), w2) := by
          unfold teacher.TeacherHandler.FindAllTeachers
          rw [hc]
          simp only []
          rw [hf]
        rw [e]
        exact ⟨rfl, response_JSON c _ _ _ hfresh (by decide)⟩
  · intro h
    refine ⟨?_, ?_⟩
    · intro n err w1 hc
      have e : h.FindAllDepartments c w
          = (.returned (c.JSON 500 (gin.H "error" "failed to count departments")), w1) := by
        unfold department.DepartmentHandler.FindAllDepartments
        rw [hc]
      exact ⟨e, by rw [e]; exact response_JSON c _ _ _ hfresh (by decide)⟩
    · intro count w1 hc
      refine ⟨NewFromRequest_bounds c.Request count, ?_, ?_⟩
      · intro items w2 hf
        have e : h.FindAllDepartments c w
            = (.returned (c.JSON 200 (json.ofPages
                { NewFromRequest c.Request count with Items := some (.departments items) })),
                w2) := by
          unfold department.DepartmentHandler.FindAllDepartments
          rw [hc]
          simp only []
          rw [hf]
        rw [e]
        exact ⟨rfl, response_JSON c _ _ _ hfresh (by decide)⟩
      · intro x err w2 hf
        have e : h.FindAllDepartments c w
            = (.returned (c.JSON 500 (gin.H "error" "failed to get departments")), w2) := by
          unfold department.DepartmentHandler.FindAllDepartments
          rw [hc]
          simp only []
          rw [hf]
        rw [e]
        exact ⟨rfl, response_JSON c _ _ _ hfresh (by decide)⟩

/-- Witness of C22 on the course handler for the request `page=2&per_page=30`: with a
count of 90 the service's `FindAllCourse` is called once, with page 2 and limit 30, and
the handler answers 200 with the envelope of page 2 of 3 and the list returned; with a
failing `Count` it answers 500 and `FindAllCourse` is not called. -/
theorem list_handlers_paginate_witness :
    ((stub.listingCourseService 90 none (some [.mk 1 "Math" none none])).Count []
        = (.returned (90, none), [])
      ∧ (stub.listingCourseService 90 none (some [.mk 1 "Math" none none])).FindAllCourse
          (NewFromRequest http.sampleRequest 90).Page
          (NewFromRequest http.sampleRequest 90).PerPage []
        = (.returned (some [.mk 1 "Math" none none], none), [(2, 30)])
      ∧ (stub.listingCourseService 0 (some (.New "connection refused")) none).Count []
        = (.returned (0, some (.New "connection refused")), []))
    ∧ ((course.Handler.FindAllCourses
          { Service := stub.listingCourseService 90 none (some [.mk 1 "Math" none none]) }
          { Param := fun _ => "", Request := http.sampleRequest,
            ShouldBindJSON := Except.ok (), Writer := gin.newWriter } []).2 = [(2, 30)]
      ∧ gin.response (course.Handler.FindAllCourses
          { Service := stub.listingCourseService 90 none (some [.mk 1 "Math" none none]) }
          { Param := fun _ => "", Request := http.sampleRequest,
            ShouldBindJSON := Except.ok (), Writer := gin.newWriter } [])
        = some { status := 200, written := true,
                 body := [.object
                   [("page", .number 2), ("per_page", .number 30),
                    ("page_count", .number 3), ("total_count", .number 90),
                    ("items", json.ofCourseResponses (some [.mk 1 "Math" none none]))]] })
    ∧ (course.Handler.FindAllCourses
          { Service := stub.listingCourseService 0 (some (.New "connection refused")) none }
          { Param := fun _ => "", Request := http.sampleRequest,
            ShouldBindJSON := Except.ok (), Writer := gin.newWriter } []
        = (.returned
            (gin.Context.JSON
              { Param := fun _ => "", Request := http.sampleRequest,
                ShouldBindJSON := Except.ok (), Writer := gin.newWriter }
              500 (gin.H "error" "failed to count courses")), [])
      ∧ gin.response (course.Handler.FindAllCourses
          { Service := stub.listingCourseService 0 (some (.New "connection refused")) none }
          { Param := fun _ => "", Request := http.sampleRequest,
            ShouldBindJSON := Except.ok (), Writer := gin.newWriter } [])
        = some { status := 500, written := true,
                 body := [gin.H "error" "failed to count courses"] }) :=
  ⟨⟨rfl, rfl, rfl⟩,
   ((@list_handlers_paginate (List (Int × Int)) Unit
      { Param := fun _ => "", Request := http.sampleRequest,
        ShouldBindJSON := Except.ok (), Writer := gin.newWriter } [] rfl).2.1
      { Service := stub.listingCourseService 90 none (some [.mk 1 "Math" none none]) }).2
      90 [] rfl |>.2.1 (some [.mk 1 "Math" none none]) [(2, 30)] rfl,
   ((@list_handlers_paginate (List (Int × Int)) Unit
      { Param := fun _ => "", Request := http.sampleRequest,
        ShouldBindJSON := Except.ok (), Writer := gin.newWriter } [] rfl).2.1
      { Service := stub.listingCourseService 0 (some (.New "connection refused")) none }).1
      0 (.New "connection refused") [] rfl⟩

/-! ## The repositories on the database -/

/-! ## Lemmas on the gorm statements -/

theorem delete_absent {α : Type} (key : α → Nat) (table : List α) (id : Nat)
    (h : ∀ r ∈ table, key r ≠ id) : gorm.delete key table id = table := by
  unfold gorm.delete
  rw [List.filter_eq_self]
  intro r hr
  simpa using h r hr

theorem updates_absent {α : Type} (key : α → Nat) (table : List α) (id : Nat) (set : α → α)
    (h : ∀ r ∈ table, key r ≠ id) : gorm.updates key table id set = table := by
  unfold gorm.updates
  conv_rhs => rw [← List.map_id table]
  apply List.map_congr_left
  intro r hr
  have := h r hr
  simp [this]

theorem first_absent {α : Type} (key : α → Nat) (table : List α) (id : Nat)
    (h : ∀ r ∈ table, key r ≠ id) : gorm.first key table id = none := by
  unfold gorm.first
  rw [List.find?_eq_none]
  intro r hr
  simpa using h r hr

theorem rows_length_le {α : Type} (q : gorm.Query) (table : List α) (n : Int)
    (hq : q.Limit = some n) (hn : 0 ≤ n) : ((q.rows table).length : Int) ≤ n := by
  unfold gorm.Query.rows
  rw [hq]
  simp only [ge_iff_le, if_pos hn]
  rw [List.length_take]
  omega

/-- What holds of C23: every `FindAll` passes the offset `(page - 1) * limit`, in `int`
arithmetic, to the query; the student repository also passes the limit, and for a limit
of at least 1 it returns at most `limit` rows. -/
theorem FindAll_offset_and_student_limit (page limit : Int) :
    ((student.repository.FindAllQuery page limit).Offset = some (mulInt (subInt page 1) limit)
      ∧ (course.repository.FindAllQuery page limit).Offset
          = some (mulInt (subInt page 1) limit)
      ∧ (teacher.repository.FindAllQuery page limit).Offset
          = some (mulInt (subInt page 1) limit)
      ∧ (department.repository.FindAllQuery page limit).Offset
          = some (mulInt (subInt page 1) limit))
    ∧ (IsInt (page - 1) → IsInt ((page - 1) * limit) →
        mulInt (subInt page 1) limit = (page - 1) * limit)
    ∧ (student.repository.FindAllQuery page limit).Limit = some limit
    ∧ (1 ≤ limit → ∀ db : dbcontext.Database,
        (((student.repository.FindAll page limit db).1.1.getD []).length : Int) ≤ limit) := by
  refine ⟨⟨rfl, rfl, rfl, rfl⟩, ?_, rfl, ?_⟩
  · intro h1 h2
    unfold mulInt subInt
    rw [wrapInt_eq_self h1, wrapInt_eq_self h2]
  · intro hl db
    unfold student.repository.FindAll
    cases db.failure with
    | some err => simp; omega
    | none =>
      simp only [Option.getD_some, List.length_map]
      exact rows_length_le _ _ limit rfl (by omega)

/-- C23 fails on the code: for page 1 and limit 2 the query chains of the course, teacher
and department repositories carry the offset 0 and no row limit, and on a database with
three courses, two teachers and three departments `FindAll(1, 2)` returns all three
courses and all three departments and `FindAll(1, 1)` both teachers; the student
repository's chain carries the limit, and its `FindAll(1, 2)` returns two of the three
students. -/
theorem FindAll_without_limit :
    ((1 : Int) ≤ 1 ∧ (1 : Int) ≤ 2)
    ∧ (course.repository.FindAllQuery 1 2
          = { Preload := ["Students", "Teacher"], Limit := none, Offset := some 0 }
      ∧ ((course.repository.FindAll 1 2 dbcontext.campus).1.1.getD []).map entity.Course.ID
          = [1, 2, 3]
      ∧ (course.repository.FindAll 1 2 dbcontext.campus).1.2 = none)
    ∧ (teacher.repository.FindAllQuery 1 1
          = { Preload := ["Courses", "Departments"], Limit := none, Offset := some 0 }
      ∧ ((teacher.repository.FindAll 1 1 dbcontext.campus).1.1.getD []).map entity.Teacher.ID
          = [1, 2]
      ∧ (teacher.repository.FindAll 1 1 dbcontext.campus).1.2 = none)
    ∧ (department.repository.FindAllQuery 1 2
          = { Preload := ["HeadOfDepartment"], Limit := none, Offset := some 0 }
      ∧ ((department.repository.FindAll 1 2 dbcontext.campus).1.1.getD []).map
            entity.Department.ID = [1, 2, 3]
      ∧ (department.repository.FindAll 1 2 dbcontext.campus).1.2 = none)
    ∧ (student.repository.FindAllQuery 1 2
          = { Preload := ["Courses", "Courses.Teacher"], Limit := some 2, Offset := some 0 }
      ∧ ((student.repository.FindAll 1 2 dbcontext.campus).1.1.getD []).map entity.Student.ID
          = [1, 2]
      ∧ (student.repository.FindAll 1 2 dbcontext.campus).1.2 = none) :=
  ⟨by decide, ⟨rfl, rfl, rfl⟩, ⟨rfl, rfl, rfl⟩, ⟨rfl, rfl, rfl⟩, ⟨rfl, rfl, rfl⟩⟩

/-- What holds of C24: with no storage failure and no row of the ID, `Update` of the
course and of the department repository returns a nil entity and gorm's record-not-found
error from the re-read, and leaves the database as it was. -/
theorem Update_absent_course_department (db : dbcontext.Database)
    (hok : db.failure = none) :
    (∀ e : entity.Course, (∀ r ∈ db.courses, r.id ≠ e.ID) →
      course.repository.Update e db = ((none, some .ErrRecordNotFound), db))
    ∧ (∀ e : entity.Department, (∀ r ∈ db.departments, r.id ≠ e.ID) →
      department.repository.Update e db = ((none, some .ErrRecordNotFound), db)) := by
  refine ⟨?_, ?_⟩
  · intro e h
    rcases db with ⟨s, t, c, d, cs, s1, s2, s3, s4, f⟩
    simp only at hok h
    subst hok
    unfold course.repository.Update
    simp only []
    rw [updates_absent _ _ _ _ h, first_absent _ _ _ h]
  · intro e h
    rcases db with ⟨s, t, c, d, cs, s1, s2, s3, s4, f⟩
    simp only at hok h
    subst hok
    unfold department.repository.Update
    simp only []
    rw [updates_absent _ _ _ _ h, first_absent _ _ _ h]

/-- C24 fails on the code: on a database whose students have the IDs 1, 2 and 3 and whose
teachers have the IDs 1 and 2, `Update` of the student repository with a student of ID
42 returns that student and no error and leaves a new row 42 in `students`, and `Update`
of the teacher repository with a teacher of ID 42 does the same in `teachers`.  `Update`
of the course repository with a course of ID 42 returns nil and gorm's record-not-found
error and leaves the database as it was. -/
theorem Update_inserts_missing_row :
    ((dbcontext.campus.students.map (fun r => r.id) = [1, 2, 3]
        ∧ dbcontext.campus.teachers.map (fun r => r.id) = [1, 2]
        ∧ dbcontext.campus.courses.map (fun r => r.id) = [1, 2, 3]
        ∧ dbcontext.campus.failure = none)
      ∧ (∀ r ∈ dbcontext.campus.students, r.id ≠ 42)
      ∧ (∀ r ∈ dbcontext.campus.teachers, r.id ≠ 42))
    ∧ student.repository.Update (.mk 42 "Eve" "eve@example.com" none) dbcontext.campus
        = ((some (.mk 42 "Eve" "eve@example.com" (some [])), none),
            { dbcontext.campus with
              students := dbcontext.campus.students
                ++ [{ id := 42, name := "Eve", email := "eve@example.com" }] })
    ∧ teacher.repository.Update (.mk 42 "Dr. Who" none none) dbcontext.campus
        = ((some (.mk 42 "Dr. Who" (some []) (some [])), none),
            { dbcontext.campus with
              teachers := dbcontext.campus.teachers ++ [{ id := 42, name := "Dr. Who" }] })
    ∧ course.repository.Update (.mk 42 "Chemistry" none none none) dbcontext.campus
        = ((none, some .ErrRecordNotFound), dbcontext.campus) :=
  ⟨⟨⟨rfl, rfl, rfl, rfl⟩, by decide, by decide⟩, rfl, rfl, rfl⟩

/-- `DeleteById` of each repository on a database without storage failure and without a
row of the ID: no error, and the database is as it was. -/
theorem DeleteById_absent (db : dbcontext.Database) (id : Nat) (hok : db.failure = none) :
    ((∀ r ∈ db.students, r.id ≠ id) → student.repository.DeleteById id db = (none, db))
    ∧ ((∀ r ∈ db.courses, r.id ≠ id) → course.repository.DeleteById id db = (none, db))
    ∧ ((∀ r ∈ db.teachers, r.id ≠ id) → teacher.repository.DeleteById id db = (none, db))
    ∧ ((∀ r ∈ db.departments, r.id ≠ id) →
        department.repository.DeleteById id db = (none, db)) := by
  rcases db with ⟨s, t, c, d, cs, s1, s2, s3, s4, f⟩
  simp only at hok
  subst hok
  refine ⟨?_, ?_, ?_, ?_⟩
  · intro h
    unfold student.repository.DeleteById
    simp only []
    rw [delete_absent _ _ _ h]
  · intro h
    unfold course.repository.DeleteById
    simp only []
    rw [delete_absent _ _ _ h]
  · intro h
    unfold teacher.repository.DeleteById
    simp only []
    rw [delete_absent _ _ _ h]
  · intro h
    unfold department.repository.DeleteById
    simp only []
    rw [delete_absent _ _ _ h]

/-- C25: for every ID, `DeleteStudentById`, `DeleteCourseById`, `DeleteTeacherById` and
`DeleteDepartmentById` return exactly the result of the repository's `DeleteById`, in the
world that call left, whatever the repository is: there is no existence check.  On a
database without storage failure and without a row of the ID, the repository's
`DeleteById` returns no error and leaves every table as it was, and the Delete handler
on the service over that repository answers 204, with no body, and leaves the database
as it was. -/
theorem Delete_absent_succeeds {σ ρ : Type} (id : Nat) (db : dbcontext.Database)
    (hok : db.failure = none) :
    ((∀ (s : student.service σ) (w : σ), s.DeleteStudentById id w
          = (.returned (s.studentRepository.DeleteById id w).1,
              (s.studentRepository.DeleteById id w).2))
      ∧ (∀ (s : course.service σ) (w : σ), s.DeleteCourseById id w
          = (.returned (s.courseRepository.DeleteById id w).1,
              (s.courseRepository.DeleteById id w).2))
      ∧ (∀ (s : teacher.service σ) (w : σ), s.DeleteTeacherById id w
          = (.returned (s.repo.DeleteById id w).1, (s.repo.DeleteById id w).2))
      ∧ (∀ (s : department.service σ) (w : σ), s.DeleteDepartmentById id w
          = (.returned (s.departmentRepository.DeleteById id w).1,
              (s.departmentRepository.DeleteById id w).2)))
    ∧ ((∀ r ∈ db.students, r.id ≠ id) →
        student.repository.DeleteById id db = (none, db)
        ∧ ∀ (DB : gorm.DB dbcontext.Database) (cr : course.Repository dbcontext.Database)
            (c : gin.Context ρ), c.Writer = gin.newWriter →
            spec.uint32Value (c.Param "id") = some id →
            gin.response (student.StudentHandler.DeleteStudentById
                { Service := student.NewStudentService DB student.NewStudentRepository cr }
                c db)
              = some { status := 204, written := false, body := [] }
            ∧ (student.StudentHandler.DeleteStudentById
                { Service := student.NewStudentService DB student.NewStudentRepository cr }
                c db).2 = db)
    ∧ ((∀ r ∈ db.courses, r.id ≠ id) →
        course.repository.DeleteById id db = (none, db)
        ∧ ∀ (DB : gorm.DB dbcontext.Database) (tr : teacher.Repository dbcontext.Database)
            (c : gin.Context ρ), c.Writer = gin.newWriter →
            spec.uint32Value (c.Param "id") = some id →
            gin.response (course.Handler.DeleteCourseById
                { Service := course.NewCourseService DB course.NewCourseRepository tr } c db)
              = some { status := 204, written := false, body := [] }
            ∧ (course.Handler.DeleteCourseById
                { Service := course.NewCourseService DB course.NewCourseRepository tr }
                c db).2 = db)
    ∧ ((∀ r ∈ db.teachers, r.id ≠ id) →
        teacher.repository.DeleteById id db = (none, db)
        ∧ ∀ (c : gin.Context ρ), c.Writer = gin.newWriter →
            spec.uint32Value (c.Param "id") = some id →
            gin.response (teacher.TeacherHandler.DeleteTeacherById
                { Service := teacher.NewTeacherService teacher.NewTeacherRepository } c db)
              = some { status := 204, written := false, body := [] }
            ∧ (teacher.TeacherHandler.DeleteTeacherById
                { Service := teacher.NewTeacherService teacher.NewTeacherRepository }
                c db).2 = db)
    ∧ ((∀ r ∈ db.departments, r.id ≠ id) →
        department.repository.DeleteById id db = (none, db)
        ∧ ∀ (DB : gorm.DB dbcontext.Database) (tr : teacher.Repository dbcontext.Database)
            (c : gin.Context ρ), c.Writer = gin.newWriter →
            spec.uint32Value (c.Param "id") = some id →
            gin.response (department.DepartmentHandler.DeleteDepartmentById
                { Service := department.NewDepartmentService DB
                    department.NewDepartmentRepository tr } c db)
              = some { status := 204, written := false, body := [] }
            ∧ (department.DepartmentHandler.DeleteDepartmentById
                { Service := department.NewDepartmentService DB
                    department.NewDepartmentRepository tr } c db).2 = db) := by
  obtain ⟨hs, hc, ht, hd⟩ := DeleteById_absent db id hok
  refine ⟨⟨fun _ _ => rfl, fun _ _ => rfl, fun _ _ => rfl, fun _ _ => rfl⟩, ?_, ?_, ?_, ?_⟩
  · intro h
    refine ⟨hs h, ?_⟩
    intro DB cr c hfresh hp
    have h1 := (ParseUintBase10_32 _).1 id hp
    have e : student.StudentHandler.DeleteStudentById
        { Service := student.NewStudentService DB student.NewStudentRepository cr } c db
        = (.returned (c.Status http.StatusNoContent), db) := by
      unfold student.StudentHandler.DeleteStudentById
      rw [h1]
      simp only [student.NewStudentService, student.service.DeleteStudentById,
        student.NewStudentRepository]
      rw [hs h]
    rw [e]
    exact ⟨response_Status c _ _ hfresh, rfl⟩
  · intro h
    refine ⟨hc h, ?_⟩
    intro DB tr c hfresh hp
    have h1 := (ParseUintBase10_32 _).1 id hp
    have e : course.Handler.DeleteCourseById
        { Service := course.NewCourseService DB course.NewCourseRepository tr } c db
        = (.returned (c.Status http.StatusNoContent), db) := by
      unfold course.Handler.DeleteCourseById
      rw [h1]
      simp only [course.NewCourseService, course.service.DeleteCourseById,
        course.NewCourseRepository]
      rw [hc h]
    rw [e]
    exact ⟨response_Status c _ _ hfresh, rfl⟩
  · intro h
    refine ⟨ht h, ?_⟩
    intro c hfresh hp
    have h1 := (ParseUintBase10_32 _).1 id hp
    have e : teacher.TeacherHandler.DeleteTeacherById
        { Service := teacher.NewTeacherService teacher.NewTeacherRepository } c db
        = (.returned (c.Status http.StatusNoContent), db) := by
      unfold teacher.TeacherHandler.DeleteTeacherById
      rw [h1]
      simp only [teacher.NewTeacherService, teacher.service.DeleteTeacherById,
        teacher.NewTeacherRepository]
      rw [ht h]
    rw [e]
    exact ⟨response_Status c _ _ hfresh, rfl⟩
  · intro h
    refine ⟨hd h, ?_⟩
    intro DB tr c hfresh hp
    have h1 := (ParseUintBase10_32 _).1 id hp
    have e : department.DepartmentHandler.DeleteDepartmentById
        { Service := department.NewDepartmentService DB
            department.NewDepartmentRepository tr } c db
        = (.returned (c.Status http.StatusNoContent), db) := by
      unfold department.DepartmentHandler.DeleteDepartmentById
      rw [h1]
      simp only [department.NewDepartmentService, department.service.DeleteDepartmentById,
        department.NewDepartmentRepository]
      rw [hd h]
    rw [e]
    exact ⟨response_Status c _ _ hfresh, rfl⟩

/-- Witness of C25 on the sample database, whose students have the IDs 1, 2 and 3:
`DELETE /students/42` is answered with 204 and leaves the database as it was. -/
theorem Delete_absent_succeeds_witness :
    (dbcontext.campus.failure = none ∧ (∀ r ∈ dbcontext.campus.students, r.id ≠ 42)
      ∧ spec.uint32Value "42" = some 42)
    ∧ student.repository.DeleteById 42 dbcontext.campus = (none, dbcontext.campus)
    ∧ gin.response (student.StudentHandler.DeleteStudentById
          { Service := student.NewStudentService dbcontext.DB
              student.NewStudentRepository course.NewCourseRepository }
          (gin.newContext (fun _ => "42") (Except.ok ())) dbcontext.campus)
        = some { status := 204, written := false, body := [] }
    ∧ (student.StudentHandler.DeleteStudentById
          { Service := student.NewStudentService dbcontext.DB
              student.NewStudentRepository course.NewCourseRepository }
          (gin.newContext (fun _ => "42") (Except.ok ())) dbcontext.campus).2
        = dbcontext.campus :=
  ⟨⟨rfl, by decide, by decide⟩,
    ((@Delete_absent_succeeds Unit Unit 42 dbcontext.campus rfl).2.1 (by decide)).1,
    ((@Delete_absent_succeeds Unit Unit 42 dbcontext.campus rfl).2.1 (by decide)).2 _ _ _
      rfl (by decide)⟩

/-! ## List services -/

theorem FindStudentById_of_entity {τ : Type} (t : student.service τ) (id : Nat) (v v1 : τ)
    (e : entity.Student) (h : t.studentRepository.FindById id v = ((some e, none), v1)) :
    t.FindStudentById id v
      = (.returned (some (.mk e.ID e.Name e.Email (makeAll e.Courses student.courseResp)),
          none), v1) := by
  unfold student.service.FindStudentById
  rw [h]
  simp only [inline_teacherResp]
  rfl

theorem FindCourseById_of_entity {τ : Type} (t : course.service τ) (id : Nat) (v v1 : τ)
    (e : entity.Course) (h : t.courseRepository.FindById id v = ((some e, none), v1)) :
    t.FindCourseById id v
      = (.returned (some (.mk e.ID e.Title (teacherResp e.Teacher)
          (makeAll e.Students
            (fun x => response.StudentResponse.mk x.ID x.Name x.Email none))), none), v1) := by
  unfold course.service.FindCourseById
  rw [h]
  simp only [inline_teacherResp]
  rfl

theorem FindTeacherById_of_entity {τ : Type} (t : teacher.service τ) (id : Nat) (v v1 : τ)
    (e : entity.Teacher) (h : t.repo.FindById id v = ((some e, none), v1)) :
    t.FindTeacherById id v
      = (.returned (some (.mk e.ID e.Name (appendAll e.Courses teacher.courseResp)
          (appendAll e.Departments teacher.departmentResp)), none), v1) := by
  unfold teacher.service.FindTeacherById
  rw [h]

theorem FindDepartmentById_of_entity {τ : Type} (t : department.service τ) (id : Nat)
    (v v1 : τ) (e : entity.Department)
    (h : t.departmentRepository.FindById id v = ((some e, none), v1)) :
    t.FindDepartmentById id v = (.returned (some (department.departmentResp e), none), v1) := by
  unfold department.service.FindDepartmentById
  rw [h]

/-- The slice `appendAll` leaves, entry by entry. -/
theorem appendAll_entries {α β : Type} (xs : Option (List α)) (f : α → β) :
    ((appendAll xs f).getD []).length = (xs.getD []).length
    ∧ (∀ (i : Nat) (e : α), (xs.getD [])[i]? = some e →
        ((appendAll xs f).getD [])[i]? = some (f e))
    ∧ (xs.getD [] = [] → appendAll xs f = none) := by
  refine ⟨by rw [appendAll_getD, List.length_map], ?_, ?_⟩
  · intro i e h
    rw [appendAll_getD, List.getElem?_map, h]
    rfl
  · intro h
    unfold appendAll
    rw [h]

/-- C26: for every list of entities the repository's `FindAll` returns without error,
`FindAllStudent`, `FindAllCourse`, `FindAllTeachers` and `FindAllDepartments` return,
without error and in the world the repository left, a list of the same length whose
i-th response has the ID of the i-th entity and is exactly the response that
`FindStudentById`, `FindCourseById`, `FindTeacherById` or `FindDepartmentById` returns
for a repository `FindById` yielding that entity; when the repository's list is empty,
or nil, the returned slice is nil. -/
theorem FindAll_maps_each_entity {σ : Type} :
    (∀ (s : student.service σ) (page limit : Int) (w w1 : σ)
        (es : Option (List entity.Student)),
      s.studentRepository.FindAll page limit w = ((es, none), w1) →
      ∃ rs, s.FindAllStudent page limit w = (.returned (rs, none), w1)
        ∧ (rs.getD []).length = (es.getD []).length
        ∧ (∀ (i : Nat) (e : entity.Student), (es.getD [])[i]? = some e →
            ∃ r, (rs.getD [])[i]? = some r ∧ r.ID = e.ID
              ∧ ∀ (τ : Type) (t : student.service τ) (id : Nat) (v v1 : τ),
                  t.studentRepository.FindById id v = ((some e, none), v1) →
                  t.FindStudentById id v = (.returned (some r, none), v1))
        ∧ (es.getD [] = [] → rs = none))
    ∧ (∀ (s : course.service σ) (page limit : Int) (w w1 : σ)
        (es : Option (List entity.Course)),
      s.courseRepository.FindAll page limit w = ((es, none), w1) →
      ∃ rs, s.FindAllCourse page limit w = (.returned (rs, none), w1)
        ∧ (rs.getD []).length = (es.getD []).length
        ∧ (∀ (i : Nat) (e : entity.Course), (es.getD [])[i]? = some e →
            ∃ r, (rs.getD [])[i]? = some r ∧ r.ID = e.ID
              ∧ ∀ (τ : Type) (t : course.service τ) (id : Nat) (v v1 : τ),
                  t.courseRepository.FindById id v = ((some e, none), v1) →
                  t.FindCourseById id v = (.returned (some r, none), v1))
        ∧ (es.getD [] = [] → rs = none))
    ∧ (∀ (s : teacher.service σ) (page limit : Int) (w w1 : σ)
        (es : Option (List entity.Teacher)),
      s.repo.FindAll page limit w = ((es, none), w1) →
      ∃ rs, s.FindAllTeachers page limit w = (.returned (rs, none), w1)
        ∧ (rs.getD []).length = (es.getD []).length
        ∧ (∀ (i : Nat) (e : entity.Teacher), (es.getD [])[i]? = some e →
            ∃ r, (rs.getD [])[i]? = some r ∧ r.ID = e.ID
              ∧ ∀ (τ : Type) (t : teacher.service τ) (id : Nat) (v v1 : τ),
                  t.repo.FindById id v = ((some e, none), v1) →
                  t.FindTeacherById id v = (.returned (some r, none), v1))
        ∧ (es.getD [] = [] → rs = none))
    ∧ (∀ (s : department.service σ) (page limit : Int) (w w1 : σ)
        (es : Option (List entity.Department)),
      s.departmentRepository.FindAll page limit w = ((es, none), w1) →
      ∃ rs, s.FindAllDepartments page limit w = (.returned (rs, none), w1)
        ∧ (rs.getD []).length = (es.getD []).length
        ∧ (∀ (i : Nat) (e : entity.Department), (es.getD [])[i]? = some e →
            ∃ r, (rs.getD [])[i]? = some r ∧ r.ID = e.ID
              ∧ ∀ (τ : Type) (t : department.service τ) (id : Nat) (v v1 : τ),
                  t.departmentRepository.FindById id v = ((some e, none), v1) →
                  t.FindDepartmentById id v = (.returned (some r, none), v1))
        ∧ (es.getD [] = [] → rs = none)) := by
  refine ⟨?_, ?_, ?_, ?_⟩
  · intro s page limit w w1 es h
    obtain ⟨hlen, hget, hnil⟩ := appendAll_entries es (fun x =>
      response.StudentResponse.mk x.ID x.Name x.Email
        (makeAll x.Courses student.courseResp))
    refine ⟨_, ?_, hlen, ?_, hnil⟩
    · unfold student.service.FindAllStudent
      rw [h]
    · intro i e hi
      exact ⟨_, hget i e hi, rfl, fun τ t id v v1 hf =>
        FindStudentById_of_entity t id v v1 e hf⟩
  · intro s page limit w w1 es h
    obtain ⟨hlen, hget, hnil⟩ := appendAll_entries es (fun course =>
      response.CourseResponse.mk course.ID course.Title (teacherResp course.Teacher)
        (makeAll course.Students (fun student =>
          response.StudentResponse.mk student.ID student.Name student.Email none)))
    refine ⟨_, ?_, hlen, ?_, hnil⟩
    · unfold course.service.FindAllCourse
      rw [h]
    · intro i e hi
      exact ⟨_, hget i e hi, rfl, fun τ t id v v1 hf =>
        FindCourseById_of_entity t id v v1 e hf⟩
  · intro s page limit w w1 es h
    obtain ⟨hlen, hget, hnil⟩ := appendAll_entries es (fun x =>
      response.TeacherResponse.mk x.ID x.Name
        (appendAll x.Courses teacher.courseResp)
        (appendAll x.Departments teacher.departmentResp))
    refine ⟨_, ?_, hlen, ?_, hnil⟩
    · unfold teacher.service.FindAllTeachers
      rw [h]
    · intro i e hi
      exact ⟨_, hget i e hi, rfl, fun τ t id v v1 hf =>
        FindTeacherById_of_entity t id v v1 e hf⟩
  · intro s page limit w w1 es h
    obtain ⟨hlen, hget, hnil⟩ := appendAll_entries es department.departmentResp
    refine ⟨_, ?_, hlen, ?_, hnil⟩
    · unfold department.service.FindAllDepartments
      rw [h]
    · intro i e hi
      exact ⟨_, hget i e hi, rfl, fun τ t id v v1 hf =>
        FindDepartmentById_of_entity t id v v1 e hf⟩

/-- Witness of C26 on repositories that return one entity each: the course `physics`
with a teacher and a student is listed as the response `FindCourseById` gives for it,
and a repository that lists nothing leaves a nil slice. -/
theorem FindAll_maps_each_entity_witness :
    ((stub.courseRepository (stub.found stub.physics)).FindAll 1 100 0
        = ((some [stub.physics], none), 1)
      ∧ course.service.FindAllCourse
          { courseRepository := stub.courseRepository (stub.found stub.physics),
            teacherRepository := stub.teacherRepository (stub.found stub.newton) } 1 100 0
        = (.returned (some [.mk 20 "Physics" (some (.mk 200 "Dr. Newton" none none))
            (some [.mk 3 "Eve" "eve@example.com" none])], none), 1)
      ∧ course.service.FindCourseById
          { courseRepository := stub.courseRepository (stub.found stub.physics),
            teacherRepository := stub.teacherRepository (stub.found stub.newton) } 20 0
        = (.returned (some (.mk 20 "Physics" (some (.mk 200 "Dr. Newton" none none))
            (some [.mk 3 "Eve" "eve@example.com" none])), none), 1)
      ∧ course.service.FindAllCourse
          { courseRepository := stub.courseRepository
              { one := none, all := some [], count := 0, found := false, err := none },
            teacherRepository := stub.teacherRepository (stub.found stub.newton) } 1 100 0
        = (.returned (none, none), 1))
    ∧ ∃ rs, course.service.FindAllCourse
          { courseRepository := stub.courseRepository (stub.found stub.physics),
            teacherRepository := stub.teacherRepository (stub.found stub.newton) } 1 100 0
          = (.returned (rs, none), 1)
        ∧ (rs.getD []).length = ((some [stub.physics] : Option (List entity.Course)).getD []).length
        ∧ (∀ (i : Nat) (e : entity.Course),
            ((some [stub.physics] : Option (List entity.Course)).getD [])[i]? = some e →
            ∃ r, (rs.getD [])[i]? = some r ∧ r.ID = e.ID
              ∧ ∀ (τ : Type) (t : course.service τ) (id : Nat) (v v1 : τ),
                  t.courseRepository.FindById id v = ((some e, none), v1) →
                  t.FindCourseById id v = (.returned (some r, none), v1))
        ∧ ((some [stub.physics] : Option (List entity.Course)).getD [] = [] → rs = none) :=
  ⟨⟨rfl, rfl, rfl, rfl⟩,
    (@FindAll_maps_each_entity Nat).2.1
      { courseRepository := stub.courseRepository (stub.found stub.physics),
        teacherRepository := stub.teacherRepository (stub.found stub.newton) }
      1 100 0 1 (some [stub.physics]) rfl⟩

/-! ## Invariants of the page windows -/

/-- The window of page `p` among the pages `1 .. PageCount`: the page is kept, the offset
is `(p - 1) * PerPage` and the limit is `PerPage`. -/
theorem New_window (p perPage total : Int) (h1 : 1 ≤ total)
    (hp1 : 1 ≤ p) (hpn : p ≤ (New 1 perPage total).PageCount) :
    (New p perPage total).Offset = (p - 1) * (New 1 perPage total).PerPage
    ∧ (New p perPage total).Limit = (New 1 perPage total).PerPage := by
  have hpage : (New p perPage total).Page = p := by
    rw [New_page_eq, New_PageCount_page_irrelevant p perPage total,
      if_pos (show total ≥ 0 by omega)]
    split_ifs <;> omega
  refine ⟨?_, rfl⟩
  rw [New_offset_eq p perPage total (by omega), hpage, New_PerPage_page_irrelevant]

/-- C27 (amended): for every page, perPage and total, of any sign, the value returned by
`New` has `1 ≤ PerPage ≤ 1000` and `Page ≥ 1`; its `Offset()` is `≥ 0` whenever total is
`≥ 0`, and also whenever the product `(Page - 1) * PerPage` is an `int`; and whenever
total is `≥ 1` and the sum `total + PerPage - 1` does not exceed the largest `int`, it
has `1 ≤ Page ≤ PageCount`. -/
theorem New_invariants (page perPage total : Int) :
    (1 ≤ (New page perPage total).PerPage ∧ (New page perPage total).PerPage ≤ 1000
      ∧ 1 ≤ (New page perPage total).Page)
    ∧ (0 ≤ total → 0 ≤ (New page perPage total).Offset)
    ∧ (IsInt (((New page perPage total).Page - 1) * (New page perPage total).PerPage) →
        0 ≤ (New page perPage total).Offset)
    ∧ (1 ≤ total → total + (New page perPage total).PerPage - 1 ≤ maxInt →
        1 ≤ (New page perPage total).Page
          ∧ (New page perPage total).Page ≤ (New page perPage total).PageCount) := by
  obtain ⟨hp1, hp2⟩ := New_perPage_bounds page perPage total
  have hpg := New_page_ge_one page perPage total
  have hnn : 0 ≤ ((New page perPage total).Page - 1) * (New page perPage total).PerPage :=
    Int.mul_nonneg (by omega) (by omega)
  refine ⟨⟨hp1, hp2, hpg⟩, ?_, ?_, ?_⟩
  · intro h0
    rw [New_offset_eq page perPage total h0]
    exact hnn
  · intro hfit
    rw [Offset_eq_wrapInt, wrapInt_eq_self hfit]
    exact hnn
  · intro h1 hfit
    refine ⟨hpg, ?_⟩
    obtain ⟨hpos, _, _⟩ := New_pageCount_pos page perPage total h1 hfit
    rw [New_page_eq, if_pos (show total ≥ 0 by omega)]
    split_ifs <;> omega

/-- Witness of C27 at `New(10, 20, 50)`: page 3 of 3, offset 40. -/
theorem New_invariants_witness :
    ((0 : Int) ≤ 50
      ∧ IsInt (((New 10 20 50).Page - 1) * (New 10 20 50).PerPage)
      ∧ (1 : Int) ≤ 50 ∧ 50 + (New 10 20 50).PerPage - 1 ≤ maxInt)
    ∧ (1 ≤ (New 10 20 50).PerPage ∧ (New 10 20 50).PerPage ≤ 1000
      ∧ 1 ≤ (New 10 20 50).Page)
    ∧ 0 ≤ (New 10 20 50).Offset
    ∧ 0 ≤ (New 10 20 50).Offset
    ∧ (1 ≤ (New 10 20 50).Page ∧ (New 10 20 50).Page ≤ (New 10 20 50).PageCount) :=
  ⟨by decide, (New_invariants 10 20 50).1,
    (New_invariants 10 20 50).2.1 (by decide),
    (New_invariants 10 20 50).2.2.1 (by decide),
    (New_invariants 10 20 50).2.2.2 (by decide) (by decide)⟩

/-- C27 fails as stated: `New(2^63 - 1, 1000, -1)` has the negative `Offset()` -2000,
and `New(1, 20, 2^63 - 1)`, whose total is at least 1, has Page 1 above its negative
PageCount. -/
theorem New_offset_negative_when_wrapped :
    (IsInt 9223372036854775807 ∧ IsInt 1000 ∧ IsInt (-1) ∧ IsInt 20 ∧ IsInt 1)
    ∧ ¬ (0 ≤ (New 9223372036854775807 1000 (-1)).Offset)
    ∧ (1 : Int) ≤ 9223372036854775807
    ∧ ¬ ((New 1 20 9223372036854775807).Page
          ≤ (New 1 20 9223372036854775807).PageCount) := by
  decide

/-- C28: for every page, perPage and total `≥ 1`, the value returned by `New` has
`0 ≤ Offset() < total`, so the clamped page addresses an existing row; and for total 0
its `Offset()` is 0. -/
theorem New_offset_below_total (page perPage total : Int) (h1 : 1 ≤ total) :
    (0 ≤ (New page perPage total).Offset ∧ (New page perPage total).Offset < total)
    ∧ (New page perPage 0).Offset = 0 := by
  refine ⟨New_offset_lt_total page perPage total h1, ?_⟩
  have hpage : (New page perPage 0).Page = 1 := by
    have hpc : (New page perPage 0).PageCount = 0 := by
      obtain ⟨hp1, hp2⟩ := New_perPage_bounds page perPage 0
      rw [New_pageCount_of_fits page perPage 0 (by omega) (by unfold maxInt; omega)]
      generalize (New page perPage 0).PerPage = pp at *
      rw [Int.tdiv_eq_ediv (by omega) (by omega)]
      exact Int.ediv_eq_zero_of_lt (by omega) (by omega)
    rw [New_page_eq, hpc]
    split_ifs <;> omega
  rw [New_offset_eq page perPage 0 (by omega), hpage]
  simp

/-- Witness of C28 at `New(3, 20, 2^63 - 1)`, whose PageCount has wrapped: the page is
1 and the offset 0. -/
theorem New_offset_below_total_witness :
    (1 : Int) ≤ 9223372036854775807
    ∧ (0 ≤ (New 3 20 9223372036854775807).Offset
        ∧ (New 3 20 9223372036854775807).Offset < 9223372036854775807)
    ∧ (New 3 20 0).Offset = 0 :=
  ⟨by decide, New_offset_below_total 3 20 9223372036854775807 (by decide)⟩

/-- C29 (amended): for every perPage and every total `≥ 1` for which the sum
`total + PerPage - 1` does not exceed the largest `int`, with `n` the PageCount of
`New(1, perPage, total)`, the windows `[Offset_p, Offset_p + Limit_p)` of
`New(p, perPage, total)` for `p = 1 .. n` each hold a row index of `[0, total)`, no row
index lies in the windows of two different pages, and every row index of `[0, total)`
lies in the window of some page. -/
theorem pages_partition_rows (perPage total : Int) (h1 : 1 ≤ total)
    (hfit : total + (New 1 perPage total).PerPage - 1 ≤ maxInt) :
    (∀ p : Int, 1 ≤ p → p ≤ (New 1 perPage total).PageCount →
        ∃ i : Int, 0 ≤ i ∧ i < total ∧ (New p perPage total).Offset ≤ i
          ∧ i < (New p perPage total).Offset + (New p perPage total).Limit)
    ∧ (∀ p q i : Int, 1 ≤ p → p ≤ (New 1 perPage total).PageCount →
        1 ≤ q → q ≤ (New 1 perPage total).PageCount →
        ((New p perPage total).Offset ≤ i
          ∧ i < (New p perPage total).Offset + (New p perPage total).Limit) →
        ((New q perPage total).Offset ≤ i
          ∧ i < (New q perPage total).Offset + (New q perPage total).Limit) →
        p = q)
    ∧ (∀ i : Int, 0 ≤ i → i < total →
        ∃ p : Int, 1 ≤ p ∧ p ≤ (New 1 perPage total).PageCount
          ∧ (New p perPage total).Offset ≤ i
          ∧ i < (New p perPage total).Offset + (New p perPage total).Limit) := by
  obtain ⟨hp1, hp2⟩ := New_perPage_bounds 1 perPage total
  obtain ⟨hn1, hlast, hcov⟩ := New_pageCount_pos 1 perPage total h1 hfit
  have hwin := fun p => New_window p perPage total h1
  generalize (New 1 perPage total).PerPage = pp at *
  generalize (New 1 perPage total).PageCount = n at *
  refine ⟨?_, ?_, ?_⟩
  · intro p hp hpn
    obtain ⟨ho, hl⟩ := hwin p hp hpn
    refine ⟨(p - 1) * pp, Int.mul_nonneg (by omega) (by omega), ?_, ?_, ?_⟩
    · have := Int.mul_le_mul_of_nonneg_right (show p - 1 ≤ n - 1 by omega)
        (show 0 ≤ pp by omega)
      omega
    · rw [ho]
    · rw [ho, hl]; omega
  · intro p q i hp hpn hq hqn hip hiq
    obtain ⟨hop, hlp⟩ := hwin p hp hpn
    obtain ⟨hoq, hlq⟩ := hwin q hq hqn
    rw [hop, hlp] at hip
    rw [hoq, hlq] at hiq
    rcases lt_trichotomy p q with hlt | heq | hgt
    · have := Int.mul_le_mul_of_nonneg_right (show p ≤ q - 1 by omega)
        (show 0 ≤ pp by omega)
      have e : (p - 1) * pp + pp = p * pp := by ring
      omega
    · exact heq
    · have := Int.mul_le_mul_of_nonneg_right (show q ≤ p - 1 by omega)
        (show 0 ≤ pp by omega)
      have e : (q - 1) * pp + pp = q * pp := by ring
      omega
  · intro i hi0 hit
    have hdm := Int.ediv_add_emod i pp
    have hr0 := Int.emod_nonneg i (show pp ≠ 0 by omega)
    have hr1 := Int.emod_lt_of_pos i (show 0 < pp by omega)
    have hq0 : 0 ≤ i / pp := Int.ediv_nonneg hi0 (by omega)
    have hqn : i / pp < n := by
      apply Int.ediv_lt_of_lt_mul (by omega)
      omega
    obtain ⟨ho, hl⟩ := hwin (i / pp + 1) (by omega) (by omega)
    refine ⟨i / pp + 1, by omega, by omega, ?_, ?_⟩
    · rw [ho]
      have e : (i / pp + 1 - 1) * pp = pp * (i / pp) := by ring
      omega
    · rw [ho, hl]
      have e : (i / pp + 1 - 1) * pp = pp * (i / pp) := by ring
      omega

/-- Witness of C29 at perPage 20 and total 50: three pages. -/
theorem pages_partition_rows_witness :
    ((1 : Int) ≤ 50 ∧ 50 + (New 1 20 50).PerPage - 1 ≤ maxInt)
    ∧ (∀ p : Int, 1 ≤ p → p ≤ (New 1 20 50).PageCount →
        ∃ i : Int, 0 ≤ i ∧ i < 50 ∧ (New p 20 50).Offset ≤ i
          ∧ i < (New p 20 50).Offset + (New p 20 50).Limit)
    ∧ (∀ p q i : Int, 1 ≤ p → p ≤ (New 1 20 50).PageCount →
        1 ≤ q → q ≤ (New 1 20 50).PageCount →
        ((New p 20 50).Offset ≤ i
          ∧ i < (New p 20 50).Offset + (New p 20 50).Limit) →
        ((New q 20 50).Offset ≤ i
          ∧ i < (New q 20 50).Offset + (New q 20 50).Limit) →
        p = q)
    ∧ (∀ i : Int, 0 ≤ i → i < 50 →
        ∃ p : Int, 1 ≤ p ∧ p ≤ (New 1 20 50).PageCount
          ∧ (New p 20 50).Offset ≤ i
          ∧ i < (New p 20 50).Offset + (New p 20 50).Limit) :=
  ⟨by decide, pages_partition_rows 20 50 (by decide) (by decide)⟩

/-- C29 fails as stated: for perPage 20 and total `2^63 - 1` the PageCount of
`New(1, 20, total)` has wrapped to a negative number, so there is no page `1 .. n` at
all and row 0 lies in no window. -/
theorem pages_miss_rows_when_wrapped :
    ((1 : Int) ≤ 9223372036854775807 ∧ IsInt 9223372036854775807 ∧ IsInt 20)
    ∧ (New 1 20 9223372036854775807).PageCount = -461168601842738789
    ∧ ¬ ∃ p : Int, 1 ≤ p ∧ p ≤ (New 1 20 9223372036854775807).PageCount
        ∧ (New p 20 9223372036854775807).Offset ≤ 0
        ∧ 0 < (New p 20 9223372036854775807).Offset
              + (New p 20 9223372036854775807).Limit := by
  refine ⟨by decide, by decide, ?_⟩
  rintro ⟨p, hp1, hpn, _⟩
  have hn : (New 1 20 9223372036854775807).PageCount = -461168601842738789 := by decide
  rw [hn] at hpn
  omega

/-! ## One response per request -/

/-- What the `FindStudentById` handler writes when its service call fails: the error
document, with status 404 for gorm's record-not-found error and 500 otherwise, and
after it the student response the service returned with the error; the status stays
the one of the error. -/
theorem FindStudentById_writes_after_error {σ ρ : Type} (h : student.StudentHandler σ)
    (c : gin.Context ρ) (w w1 : σ) (id : Nat) (x : Option response.StudentResponse)
    (err : Error) (hfresh : c.Writer = gin.newWriter)
    (hp : spec.uint32Value (c.Param "id") = some id)
    (hs : h.Service.FindStudentById id w = (.returned (x, some err), w1)) :
    gin.response (h.FindStudentById c w)
      = some { status := if errors.IsErrRecordNotFound err then 404 else 500,
               written := true,
               body := [gin.H "error" (if errors.IsErrRecordNotFound err
                          then "student not found" else "something went wrong"),
                        json.ofStudentResponsePtr x] } := by
  have h1 := (ParseUintBase10_32 _).1 id hp
  unfold student.StudentHandler.FindStudentById
  rw [h1]
  simp only []
  rw [hs]
  simp only []
  unfold gin.response
  simp only []
  unfold gin.Context.JSON gin.Context.Status
  rw [hfresh]
  cases errors.IsErrRecordNotFound err <;> rfl

/-- C30 fails on the code: for `GET /students/42` on the sample database, which has no
student 42, the service's `FindStudentById` fails with gorm's record-not-found error and
the `FindStudentById` handler writes two documents, the error body and then `null` for
the nil student response, under status 404; with the connection down it writes the 500
error body and then `null`.  For `GET /courses/42` the `FindCourseById` handler writes
the error body alone. -/
theorem FindStudentById_writes_null_after_error :
    (spec.uint32Value "42" = some 42
      ∧ (student.NewStudentService dbcontext.DB student.NewStudentRepository
            course.NewCourseRepository).FindStudentById 42 dbcontext.campus
          = (.returned (none, some .ErrRecordNotFound), dbcontext.campus))
    ∧ gin.response (student.StudentHandler.FindStudentById
          { Service := student.NewStudentService dbcontext.DB student.NewStudentRepository
              course.NewCourseRepository }
          (gin.newContext (fun _ => "42") (Except.ok ())) dbcontext.campus)
        = some { status := 404, written := true,
                 body := [gin.H "error" "student not found", .null] }
    ∧ gin.response (student.StudentHandler.FindStudentById
          { Service := student.NewStudentService dbcontext.DB student.NewStudentRepository
              course.NewCourseRepository }
          (gin.newContext (fun _ => "42") (Except.ok ())) dbcontext.unreachable)
        = some { status := 500, written := true,
                 body := [gin.H "error" "something went wrong", .null] }
    ∧ gin.response (course.Handler.FindCourseById
          { Service := course.NewCourseService dbcontext.DB course.NewCourseRepository
              teacher.NewTeacherRepository }
          (gin.newContext (fun _ => "42") (Except.ok ())) dbcontext.campus)
        = some { status := 404, written := true,
                 body := [gin.H "error" "course not found"] } :=
  ⟨⟨by decide, rfl⟩, rfl, rfl, rfl⟩

end student_go
